import Mathlib

/-!
# Screenshot fixture of the presentation module: `sd/qa/unit/dialogs-test.cxx`

A shallow embedding of the test fixture `SdDialogsTest`:

* the registration table `registerKnownDialogsByID`,
* the fixture members, the constructor, `setUp`, `tearDown`,
* the six on-demand getters,
* the dispatch function `createDialogByID`.

Everything the fixture calls into (document model, shells, item pools, style
sheets, the dialog factory) lives outside the file.  It is represented by a
record `Host` of pure lookup functions, so the host is deterministic by
construction: asking the same question twice gives the same object.  A null
pointer is `none`.

A member function is a function from the fixture state to a `Run`: how the
call ended (`Outcome`), the fixture state it left behind and the list of
`Event`s (host calls, factory calls, releases) in the order they happened.
`CPPUNIT_ASSERT` on a null pointer ends the call with `Outcome.assertFailed`;
dereferencing a null pointer that the source does not check ends it with
`Outcome.undefined`.  Function arguments are evaluated left to right.
-/

namespace DialogsTest

/-! ## Host objects

Objects of the host application are known to the fixture only through pointers; each kind of
object is a handle.  The kinds are kept apart so that a shell cannot be passed for a view. -/

/-- Loaded document component (`uno::Reference<lang::XComponent>`). -/
structure XComponent where
  id : Nat
  deriving DecidableEq, Repr

/-- Dialog factory of the module. -/
structure SdAbstractDialogFactory where
  id : Nat
  deriving DecidableEq, Repr

/-- Document as seen through the UNO model. -/
structure SdXImpressDocument where
  id : Nat
  deriving DecidableEq, Repr

/-- Document shell. -/
structure DrawDocShell where
  id : Nat
  deriving DecidableEq, Repr

/-- View shell. -/
structure ViewShell where
  id : Nat
  deriving DecidableEq, Repr

/-- Generic view, the static type of `ViewShell::GetDrawView()`. -/
structure View where
  id : Nat
  deriving DecidableEq, Repr

/-- Draw view, the result of the `dynamic_cast` in `getDrawView`. -/
structure DrawView where
  id : Nat
  deriving DecidableEq, Repr

/-- Document model. -/
structure SdDrawDocument where
  id : Nat
  deriving DecidableEq, Repr

/-- Page of the document model. -/
structure SdPage where
  id : Nat
  deriving DecidableEq, Repr

/-- Drawing object on a page. -/
structure SdrObject where
  id : Nat
  deriving DecidableEq, Repr

/-- Pool of attribute definitions of a document. -/
structure SfxItemPool where
  id : Nat
  deriving DecidableEq, Repr

/-- Style-sheet pool of a document shell. -/
structure SfxStyleSheetBasePool where
  id : Nat
  deriving DecidableEq, Repr

/-- Style sheet. -/
structure SfxStyleSheetBase where
  id : Nat
  deriving DecidableEq, Repr

/-- Toolkit window used as dialog parent (`weld::Window`). -/
structure WeldWindow where
  id : Nat
  deriving DecidableEq, Repr

/-- Dialog instance produced by the factory. -/
structure VclAbstractDialog where
  id : Nat
  deriving DecidableEq, Repr

/-- Page kinds of the document model; the fixture only asks for `Standard`. -/
inductive PageKind where
  | Standard
  | Notes
  | Handout
  deriving DecidableEq, Repr

/-- Style families; the fixture only asks for `Page` and `Pseudo`. -/
inductive SfxStyleFamily where
  | Char
  | Para
  | Frame
  | Page
  | Pseudo
  | Table
  deriving DecidableEq, Repr

/-- The argument `PresentationObjects::Title` of case 14 and its siblings. -/
inductive PresentationObjects where
  | Title
  | Background
  | BackgroundObjects
  | Outline
  | Notes
  | Subtitle
  deriving DecidableEq, Repr

/-- Resource identifiers handed to `SdResId`. -/
inductive ResId where
  | STR_LAYER
  | STR_INSERTLAYER
  deriving DecidableEq, Repr

/-- A default-constructed `Bitmap` is the only bitmap the fixture builds. -/
inductive Bitmap where
  | Empty
  deriving DecidableEq, Repr

/-- Field data of case 5; the fixture passes a null pointer. -/
structure SvxFieldData where
  id : Nat
  deriving DecidableEq, Repr

/-- Medium of case 8; the fixture passes a null pointer. -/
structure SfxMedium where
  id : Nat
  deriving DecidableEq, Repr

/-- Custom-show list of case 12; the fixture passes a null pointer. -/
structure SdCustomShowList where
  id : Nat
  deriving DecidableEq, Repr

/-- Presentation settings of the document model, the members read by case 12.  The pause
timeout is a signed 32-bit member; it is an `Int` here. -/
structure PresentationSettings where
  mbAll : Bool
  mbCustomShow : Bool
  mbEndless : Bool
  mbManual : Bool
  mbMouseVisible : Bool
  mbMouseAsPen : Bool
  mbAnimationAllowed : Bool
  mbLockedPages : Bool
  mbAlwaysOnTop : Bool
  mbFullScreen : Bool
  mnPauseTimeout : Int
  mbShowPauseLogo : Bool
  mbInteractive : Bool
  deriving DecidableEq, Repr

/-! ## Attribute sets -/

/-- Attribute identifiers used by the fixture.  Their numeric values come from headers outside
the file; they are kept symbolic, distinct names standing for distinct attributes. -/
inductive WhichId where
  | XATTR_FILLSTYLE
  | ATTR_SNAPLINE_X
  | ATTR_SNAPLINE_Y
  | ATTR_LAYER_NAME
  | ATTR_LAYER_TITLE
  | ATTR_LAYER_DESC
  | ATTR_LAYER_VISIBLE
  | ATTR_LAYER_PRINTABLE
  | ATTR_LAYER_LOCKED
  | ATTR_LAYER_THISPAGE
  | ATTR_PRESENT_ALL
  | ATTR_PRESENT_CUSTOMSHOW
  | ATTR_PRESENT_DIANAME
  | ATTR_PRESENT_ENDLESS
  | ATTR_PRESENT_MANUEL
  | ATTR_PRESENT_MOUSE
  | ATTR_PRESENT_PEN
  | ATTR_PRESENT_ANIMATION_ALLOWED
  | ATTR_PRESENT_CHANGE_PAGE
  | ATTR_PRESENT_ALWAYS_ON_TOP
  | ATTR_PRESENT_FULLSCREEN
  | ATTR_PRESENT_PAUSE_TIMEOUT
  | ATTR_PRESENT_SHOW_PAUSELOGO
  | ATTR_PRESENT_INTERACTIVE
  | ATTR_PRESENT_DISPLAY
  | ATTR_ANIMATION_ACTIVE
  | ATTR_ANIMATION_EFFECT
  | ATTR_ANIMATION_TEXTEFFECT
  | ATTR_ANIMATION_SPEED
  | ATTR_ANIMATION_FADEOUT
  | ATTR_ANIMATION_COLOR
  | ATTR_ANIMATION_INVISIBLE
  | ATTR_ANIMATION_SOUNDON
  | ATTR_ANIMATION_SOUNDFILE
  | ATTR_ANIMATION_PLAYFULL
  | ATTR_ACTION
  | ATTR_ACTION_FILENAME
  | ATTR_ACTION_EFFECT
  | ATTR_ACTION_EFFECTSPEED
  | ATTR_ACTION_SOUNDON
  | ATTR_ACTION_PLAYFULL
  deriving DecidableEq, Repr

/-- Bounds of the attribute ranges (`svl::Items<First, Last>`) the fixture scopes its sets to. -/
inductive WhichBound where
  | XATTR_FILL_FIRST
  | XATTR_FILL_LAST
  | ATTR_SNAPLINE_START
  | ATTR_SNAPLINE_END
  | ATTR_LAYER_START
  | ATTR_LAYER_END
  | ATTR_PRESENT_START
  | ATTR_PRESENT_END
  | ATTR_ANIMATION_START
  | ATTR_ACTION_END
  deriving DecidableEq, Repr

/-- Fill styles; the fixture only uses `FillStyle_NONE`. -/
inductive FillStyle where
  | FillStyle_NONE
  | FillStyle_SOLID
  | FillStyle_GRADIENT
  | FillStyle_HATCH
  | FillStyle_BITMAP
  deriving DecidableEq, Repr

/-- Colours; the fixture only uses `COL_LIGHTGRAY`. -/
inductive Color where
  | COL_LIGHTGRAY
  deriving DecidableEq, Repr

/-- Enumeration constants that case 17 converts to 16-bit item values. -/
inductive EnumConst where
  | AnimationEffect_NONE
  | ClickAction_NONE
  deriving DecidableEq, Repr

/-- The items the fixture puts into attribute sets, one constructor for each item expression
of the source.  The `makeSdAttrLayer...` helpers take their defaults from a header outside the
file, so they stay symbolic. -/
inductive SfxPoolItem where
  | SfxBoolItem (which : WhichId) (value : Bool)
  | SfxInt32Item (which : WhichId) (value : Int)
  | SfxUInt32Item (which : WhichId) (value : Nat)
  | SfxUInt16Item (which : WhichId) (value : EnumConst)
  | SfxStringItem (which : WhichId) (value : String)
  | SvxColorItem (value : Color) (which : WhichId)
  | XFillStyleItem (value : FillStyle)
  | makeSdAttrLayerName (name : String)
  | makeSdAttrLayerTitle
  | makeSdAttrLayerDesc
  | makeSdAttrLayerVisible
  | makeSdAttrLayerPrintable
  | makeSdAttrLayerLocked
  | makeSdAttrLayerThisPage
  deriving DecidableEq, Repr

/-- Attribute identifier under which an item is stored. -/
def SfxPoolItem.Which : SfxPoolItem → WhichId
  | .SfxBoolItem w _ => w
  | .SfxInt32Item w _ => w
  | .SfxUInt32Item w _ => w
  | .SfxUInt16Item w _ => w
  | .SfxStringItem w _ => w
  | .SvxColorItem _ w => w
  | .XFillStyleItem _ => .XATTR_FILLSTYLE
  | .makeSdAttrLayerName _ => .ATTR_LAYER_NAME
  | .makeSdAttrLayerTitle => .ATTR_LAYER_TITLE
  | .makeSdAttrLayerDesc => .ATTR_LAYER_DESC
  | .makeSdAttrLayerVisible => .ATTR_LAYER_VISIBLE
  | .makeSdAttrLayerPrintable => .ATTR_LAYER_PRINTABLE
  | .makeSdAttrLayerLocked => .ATTR_LAYER_LOCKED
  | .makeSdAttrLayerThisPage => .ATTR_LAYER_THISPAGE

/-- Modelled from the spec: the attribute-set class (`SfxItemSet`) is library code outside the
file.  It is "a sub-range-scoped mapping from attribute ID to typed value": the pool it refers
to, the range it is scoped to (`none` for the whole pool) and the slots filled so far, oldest
first.  A slot holds an item, or `none` once the attribute has been invalidated. -/
structure SfxItemSet where
  pool : SfxItemPool
  ranges : Option (WhichBound × WhichBound)
  items : List (WhichId × Option SfxPoolItem)
  deriving DecidableEq, Repr

/-- Fill the slot of an attribute: overwrite it when present, else add it. -/
def SfxItemSet.store : List (WhichId × Option SfxPoolItem) → WhichId → Option SfxPoolItem →
    List (WhichId × Option SfxPoolItem)
  | [], w, v => [(w, v)]
  | (w0, v0) :: rest, w, v =>
    if w0 = w then (w0, v) :: rest else (w0, v0) :: SfxItemSet.store rest w v

/-- An empty set over the whole pool: `SfxItemSet(rPool)`. -/
def SfxItemSet.ofPool (pool : SfxItemPool) : SfxItemSet :=
  { pool := pool, ranges := none, items := [] }

/-- An empty set scoped to a range: `SfxItemSet(rPool, svl::Items<First, Last>)`. -/
def SfxItemSet.ofRange (pool : SfxItemPool) (first last : WhichBound) : SfxItemSet :=
  { pool := pool, ranges := some (first, last), items := [] }

/-- The copy constructor: `SfxItemSet(rOther)`. -/
def SfxItemSet.copyOf (other : SfxItemSet) : SfxItemSet :=
  { pool := other.pool, ranges := other.ranges, items := other.items }

/-- Modelled from the spec: `SfxItemSet::Put` on the mapping from attribute ID to value. -/
def SfxItemSet.Put (s : SfxItemSet) (item : SfxPoolItem) : SfxItemSet :=
  { s with items := SfxItemSet.store s.items item.Which (some item) }

/-- Modelled from the spec: `SfxItemSet::InvalidateItem` leaves the slot without a value. -/
def SfxItemSet.InvalidateItem (s : SfxItemSet) (w : WhichId) : SfxItemSet :=
  { s with items := SfxItemSet.store s.items w none }

/-- Conversion of a signed 32-bit value to `sal_uInt32`. -/
def toUInt32 (v : Int) : Nat := (v % 4294967296).toNat

/-! ## Factory calls -/

/-- One call of a factory method together with its arguments.  A pointer argument that the
source may pass as null is an `Option`; a reference or an asserted pointer is not. -/
inductive FactoryCall where
  | CreateBreakDlg (pWindow : Option WeldWindow) (pDrView : DrawView) (pShell : DrawDocShell)
      (nSumActionCount nObjCount : Nat)
  | CreateCopyDlg (pWindow : Option WeldWindow) (rInAttrs : SfxItemSet) (pView : DrawView)
  | CreateSdCustomShowDlg (pWindow : Option WeldWindow) (rDrawDoc : SdDrawDocument)
  | CreateSdTabCharDialog (pWindow : Option WeldWindow) (pAttr : SfxItemSet)
      (pDocShell : DrawDocShell)
  | CreateSdTabPageDialog (pWindow : Option WeldWindow) (pAttr : SfxItemSet)
      (pDocShell : DrawDocShell) (bAreaPage bIsImpressDoc : Bool)
  | CreateSdModifyFieldDlg (pWindow : Option WeldWindow) (pInField : Option SvxFieldData)
      (rSet : SfxItemSet)
  | CreateSdSnapLineDlg (pWindow : Option WeldWindow) (rInAttrs : SfxItemSet) (pView : DrawView)
  | CreateSdInsertLayerDlg (pWindow : Option WeldWindow) (rInAttrs : SfxItemSet)
      (bDeletable : Bool) (aStr : String)
  | CreateSdInsertPagesObjsDlg (pWindow : Option WeldWindow) (rDoc : SdDrawDocument)
      (pSfxMedium : Option SfxMedium) (rFileName : String)
  | CreateMorphDlg (pParent : Option WeldWindow) (pObj1 pObj2 : SdrObject)
  | CreateSdOutlineBulletTabDlg (pParent : Option WeldWindow) (pAttr : SfxItemSet)
      (pView : DrawView)
  | CreateSdParagraphTabDlg (pParent : Option WeldWindow) (pAttr : SfxItemSet)
  | CreateSdStartPresentationDlg (pWindow : Option WeldWindow) (rInAttrs : SfxItemSet)
      (rPageNames : List String) (pCSList : Option SdCustomShowList)
  | CreateRemoteDialog (pWindow : Option WeldWindow)
  | CreateSdPresLayoutTemplateDlg (pDocSh : DrawDocShell) (pParent : Option WeldWindow)
      (bBackground : Bool) (rStyleBase : SfxStyleSheetBase) (ePO : PresentationObjects)
      (pSSPool : SfxStyleSheetBasePool)
  | CreateSdPresLayoutDlg (pWindow : Option WeldWindow) (pDocShell : DrawDocShell)
      (rInAttrs : SfxItemSet)
  | CreateSdTabTemplateDlg (pParent : Option WeldWindow) (pDocShell : DrawDocShell)
      (rStyleBase : SfxStyleSheetBase) (pModel : SdDrawDocument) (pView : DrawView)
  | CreatSdActionDialog (pParent : Option WeldWindow) (rAttr : SfxItemSet) (pView : DrawView)
  | CreateSdVectorizeDlg (pParent : Option WeldWindow) (rBmp : Bitmap)
      (pDocShell : DrawDocShell)
  | CreateSdPhotoAlbumDialog (pWindow : Option WeldWindow) (rDoc : SdDrawDocument)
  | CreateMasterLayoutDialog (pParent : Option WeldWindow) (rDoc : SdDrawDocument)
      (pCurrentPage : SdPage)
  | CreateHeaderFooterDialog (rViewShell : ViewShell) (pParent : Option WeldWindow)
      (rDoc : SdDrawDocument) (pCurrentPage : SdPage)
  deriving DecidableEq, Repr

/-- Names of the factory methods. -/
inductive FactoryMethod where
  | CreateBreakDlg
  | CreateCopyDlg
  | CreateSdCustomShowDlg
  | CreateSdTabCharDialog
  | CreateSdTabPageDialog
  | CreateSdModifyFieldDlg
  | CreateSdSnapLineDlg
  | CreateSdInsertLayerDlg
  | CreateSdInsertPagesObjsDlg
  | CreateMorphDlg
  | CreateSdOutlineBulletTabDlg
  | CreateSdParagraphTabDlg
  | CreateSdStartPresentationDlg
  | CreateRemoteDialog
  | CreateSdPresLayoutTemplateDlg
  | CreateSdPresLayoutDlg
  | CreateSdTabTemplateDlg
  | CreatSdActionDialog
  | CreateSdVectorizeDlg
  | CreateSdPhotoAlbumDialog
  | CreateMasterLayoutDialog
  | CreateHeaderFooterDialog
  deriving DecidableEq, Repr

/-- The method a call invokes. -/
def FactoryCall.method : FactoryCall → FactoryMethod
  | .CreateBreakDlg .. => .CreateBreakDlg
  | .CreateCopyDlg .. => .CreateCopyDlg
  | .CreateSdCustomShowDlg .. => .CreateSdCustomShowDlg
  | .CreateSdTabCharDialog .. => .CreateSdTabCharDialog
  | .CreateSdTabPageDialog .. => .CreateSdTabPageDialog
  | .CreateSdModifyFieldDlg .. => .CreateSdModifyFieldDlg
  | .CreateSdSnapLineDlg .. => .CreateSdSnapLineDlg
  | .CreateSdInsertLayerDlg .. => .CreateSdInsertLayerDlg
  | .CreateSdInsertPagesObjsDlg .. => .CreateSdInsertPagesObjsDlg
  | .CreateMorphDlg .. => .CreateMorphDlg
  | .CreateSdOutlineBulletTabDlg .. => .CreateSdOutlineBulletTabDlg
  | .CreateSdParagraphTabDlg .. => .CreateSdParagraphTabDlg
  | .CreateSdStartPresentationDlg .. => .CreateSdStartPresentationDlg
  | .CreateRemoteDialog .. => .CreateRemoteDialog
  | .CreateSdPresLayoutTemplateDlg .. => .CreateSdPresLayoutTemplateDlg
  | .CreateSdPresLayoutDlg .. => .CreateSdPresLayoutDlg
  | .CreateSdTabTemplateDlg .. => .CreateSdTabTemplateDlg
  | .CreatSdActionDialog .. => .CreatSdActionDialog
  | .CreateSdVectorizeDlg .. => .CreateSdVectorizeDlg
  | .CreateSdPhotoAlbumDialog .. => .CreateSdPhotoAlbumDialog
  | .CreateMasterLayoutDialog .. => .CreateMasterLayoutDialog
  | .CreateHeaderFooterDialog .. => .CreateHeaderFooterDialog

/-! ## The host -/

/-- Everything outside the file that the fixture asks: each field is one entry point of the
host, a pure function, `none` being a null pointer or an empty reference. -/
structure Host where
  /-- The `SdAbstractDialogFactory::Create()` entry point. -/
  Create : Option SdAbstractDialogFactory
  /-- The `loadFromDesktop(url, service)` entry point. -/
  loadFromDesktop : String → String → Option XComponent
  /-- The `dynamic_cast<SdXImpressDocument*>` of a component. -/
  asSdXImpressDocument : XComponent → Option SdXImpressDocument
  /-- The `SdXImpressDocument::GetDocShell()` entry point. -/
  GetDocShell : SdXImpressDocument → Option DrawDocShell
  /-- The `DrawDocShell::GetViewShell()` entry point. -/
  GetViewShell : DrawDocShell → Option ViewShell
  /-- The `ViewShell::GetDrawView()` entry point. -/
  GetDrawView : ViewShell → Option View
  /-- The `dynamic_cast<::sd::DrawView*>` of a view. -/
  asDrawView : View → Option DrawView
  /-- The `SdXImpressDocument::GetDoc()` entry point. -/
  GetDoc : SdXImpressDocument → Option SdDrawDocument
  /-- The `SdDrawDocument::GetSdPage(index, kind)` entry point. -/
  GetSdPage : SdDrawDocument → Nat → PageKind → Option SdPage
  /-- The `SdrObjList::GetObj(index)` entry point. -/
  GetObj : SdPage → Nat → Option SdrObject
  /-- The `SdrObject::GetMergedItemSet()` entry point. -/
  GetMergedItemSet : SdrObject → SfxItemSet
  /-- The `SdrModel::GetItemPool()` entry point. -/
  GetItemPool : SdDrawDocument → SfxItemPool
  /-- The `SfxObjectShell::GetStyleSheetPool()` entry point. -/
  GetStyleSheetPool : DrawDocShell → Option SfxStyleSheetBasePool
  /-- The `SfxStyleSheetBasePool::First(family)` entry point. -/
  First : SfxStyleSheetBasePool → SfxStyleFamily → Option SfxStyleSheetBase
  /-- The `ViewShell::GetFrameWeld()` entry point. -/
  GetFrameWeld : ViewShell → Option WeldWindow
  /-- The `Application::GetDefDialogParent()` entry point. -/
  GetDefDialogParent : Option WeldWindow
  /-- The `SdDrawDocument::getPresentationSettings()` entry point. -/
  getPresentationSettings : SdDrawDocument → PresentationSettings
  /-- The `SdResId(id)` entry point. -/
  SdResId : ResId → String
  /-- What a factory method returns for given arguments; `none` is an empty dialog pointer. -/
  construct : SdAbstractDialogFactory → FactoryCall → Option VclAbstractDialog

/-- The three attribute-set members of the fixture. -/
inductive ItemSetMember where
  | mpSfxItemSetFromSdrObject
  | mpEmptySfxItemSet
  | mpEmptyFillStyleSfxItemSet
  deriving DecidableEq, Repr

/-- What a member function does that is visible outside the fixture, in order. -/
inductive Event where
  | ScreenshotTest_setUp
  | ScreenshotTest_tearDown
  | Create
  | loadFromDesktop (url service : String)
  | GetDocShell (doc : SdXImpressDocument)
  | GetViewShell (shell : DrawDocShell)
  | GetDrawView (shell : ViewShell)
  | GetDoc (doc : SdXImpressDocument)
  | GetSdPage (doc : SdDrawDocument) (index : Nat) (kind : PageKind)
  | GetObj (page : SdPage) (index : Nat)
  | GetMergedItemSet (obj : SdrObject)
  | GetItemPool (doc : SdDrawDocument)
  | GetStyleSheetPool (shell : DrawDocShell)
  | First (pool : SfxStyleSheetBasePool) (family : SfxStyleFamily)
  | GetFrameWeld (shell : ViewShell)
  | GetDefDialogParent
  | getPresentationSettings (doc : SdDrawDocument)
  | SdResId (id : ResId)
  | factory (fact : SdAbstractDialogFactory) (call : FactoryCall)
  | reset (member : ItemSetMember)
  | dispose (component : XComponent)
  deriving DecidableEq, Repr

/-- The factory call of an event, if it is one. -/
def Event.factoryCall? : Event → Option FactoryCall
  | .factory _ c => some c
  | _ => none

/-- The factory calls of a trace, in order. -/
def factoryCalls (t : List Event) : List FactoryCall :=
  t.filterMap Event.factoryCall?

/-! ## The fixture and its member functions -/

/-- The data members of `class SdDialogsTest`. -/
structure SdDialogsTest where
  mxComponent : Option XComponent
  mpFact : Option SdAbstractDialogFactory
  mpImpressDocument : Option SdXImpressDocument
  mpDocShell : Option DrawDocShell
  mpViewShell : Option ViewShell
  mpDrawView : Option DrawView
  mpSfxItemSetFromSdrObject : Option SfxItemSet
  mpEmptySfxItemSet : Option SfxItemSet
  mpEmptyFillStyleSfxItemSet : Option SfxItemSet
  deriving DecidableEq, Repr

/-- How a call ended. -/
inductive Outcome (α : Type) where
  | ok (a : α)
  | assertFailed
  | undefined
  deriving DecidableEq, Repr

/-- A finished call: how it ended, the fixture it left, what it did. -/
structure Run (α : Type) where
  out : Outcome α
  fix : SdDialogsTest
  trace : List Event

/-- A member function body. -/
def M (α : Type) : Type := SdDialogsTest → Run α

/-- Return a value. -/
def M.pure {α : Type} (a : α) : M α := fun s => ⟨.ok a, s, []⟩

/-- Sequencing: the second part runs only when the first returned. -/
def M.bind {α β : Type} (m : M α) (k : α → M β) : M β := fun s =>
  match (m s).out with
  | .ok a => ⟨(k a (m s).fix).out, (k a (m s).fix).fix, (m s).trace ++ (k a (m s).fix).trace⟩
  | .assertFailed => ⟨.assertFailed, (m s).fix, (m s).trace⟩
  | .undefined => ⟨.undefined, (m s).fix, (m s).trace⟩

instance : Monad M where
  pure := M.pure
  bind := M.bind

/-- Read a data member. -/
def readMember {α : Type} (f : SdDialogsTest → α) : M α := fun s => ⟨.ok (f s), s, []⟩

/-- Assign to data members. -/
def writeMember (f : SdDialogsTest → SdDialogsTest) : M Unit := fun s => ⟨.ok (), f s, []⟩

/-- A call into the host, recorded in the trace. -/
def hostCall {α : Type} (e : Event) (v : α) : M α := fun s => ⟨.ok v, s, [e]⟩

/-- The macro `CPPUNIT_ASSERT(p)` on a pointer: the call goes on with the object, or ends. -/
def CPPUNIT_ASSERT {α : Type} : Option α → M α
  | some a => fun s => ⟨.ok a, s, []⟩
  | none => fun s => ⟨.assertFailed, s, []⟩

/-- Dereference of a pointer that the source does not check. -/
def deref {α : Type} : Option α → M α
  | some a => fun s => ⟨.ok a, s, []⟩
  | none => fun s => ⟨.undefined, s, []⟩

namespace SdDialogsTest

/-- The constructor `SdDialogsTest::SdDialogsTest`. -/
def ctor : SdDialogsTest :=
  { mxComponent := none
    mpFact := none
    mpImpressDocument := none
    mpDocShell := none
    mpViewShell := none
    mpDrawView := none
    mpSfxItemSetFromSdrObject := none
    mpEmptySfxItemSet := none
    mpEmptyFillStyleSfxItemSet := none }

/-- The member function `SdDialogsTest::setUp`. -/
def setUp (h : Host) : M Unit := do
  hostCall .ScreenshotTest_setUp ()
  let pFact ← hostCall .Create h.Create
  writeMember (fun s => { s with mpFact := pFact })
  let xComponent ← hostCall
    (.loadFromDesktop "private:factory/simpress" "com.sun.star.presentation.PresentationDocument")
    (h.loadFromDesktop "private:factory/simpress"
      "com.sun.star.presentation.PresentationDocument")
  writeMember (fun s => { s with mxComponent := xComponent })
  let pImpressDocument := (← readMember (·.mxComponent)).bind h.asSdXImpressDocument
  writeMember (fun s => { s with mpImpressDocument := pImpressDocument })
  let _ ← CPPUNIT_ASSERT (← readMember (·.mpImpressDocument))
  return ()

/-- The member function `SdDialogsTest::tearDown`. -/
def tearDown : M Unit := do
  writeMember (fun s => { s with mpSfxItemSetFromSdrObject := none })
  hostCall (.reset .mpSfxItemSetFromSdrObject) ()
  writeMember (fun s => { s with mpEmptySfxItemSet := none })
  hostCall (.reset .mpEmptySfxItemSet) ()
  writeMember (fun s => { s with mpEmptyFillStyleSfxItemSet := none })
  hostCall (.reset .mpEmptyFillStyleSfxItemSet) ()
  let xComponent ← deref (← readMember (·.mxComponent))
  hostCall (.dispose xComponent) ()
  hostCall .ScreenshotTest_tearDown ()

/-- The member function `SdDialogsTest::getSdAbstractDialogFactory`. -/
def getSdAbstractDialogFactory : M (Option SdAbstractDialogFactory) :=
  readMember (·.mpFact)

/-- The member function `SdDialogsTest::getSdXImpressDocument`. -/
def getSdXImpressDocument : M (Option SdXImpressDocument) :=
  readMember (·.mpImpressDocument)

/-- The member function `SdDialogsTest::getDocShell`. -/
def getDocShell (h : Host) : M DrawDocShell := do
  match (← readMember (·.mpDocShell)) with
  | some pDocShell => return pDocShell
  | none =>
    let pDoc ← deref (← getSdXImpressDocument)
    let pDocShell ← hostCall (.GetDocShell pDoc) (h.GetDocShell pDoc)
    writeMember (fun s => { s with mpDocShell := pDocShell })
    CPPUNIT_ASSERT (← readMember (·.mpDocShell))

/-- The member function `SdDialogsTest::getViewShell`. -/
def getViewShell (h : Host) : M ViewShell := do
  match (← readMember (·.mpViewShell)) with
  | some pViewShell => return pViewShell
  | none =>
    let pDocShell ← getDocShell h
    let pViewShell ← hostCall (.GetViewShell pDocShell) (h.GetViewShell pDocShell)
    writeMember (fun s => { s with mpViewShell := pViewShell })
    CPPUNIT_ASSERT (← readMember (·.mpViewShell))

/-- The member function `SdDialogsTest::getDrawView`. -/
def getDrawView (h : Host) : M DrawView := do
  match (← readMember (·.mpDrawView)) with
  | some pDrawView => return pDrawView
  | none =>
    let pViewShell ← getViewShell h
    let pView ← hostCall (.GetDrawView pViewShell) (h.GetDrawView pViewShell)
    writeMember (fun s => { s with mpDrawView := pView.bind h.asDrawView })
    CPPUNIT_ASSERT (← readMember (·.mpDrawView))

/-- The statement pair `pDrawDoc = getSdXImpressDocument()->GetDoc(); CPPUNIT_ASSERT(pDrawDoc);`
that opens most cases and the item-set getters. -/
def getDrawDoc (h : Host) : M SdDrawDocument := do
  let pDoc ← deref (← getSdXImpressDocument)
  let pDrawDoc ← hostCall (.GetDoc pDoc) (h.GetDoc pDoc)
  CPPUNIT_ASSERT pDrawDoc

/-- The member function `SdDialogsTest::getSfxItemSetFromSdrObject`. -/
def getSfxItemSetFromSdrObject (h : Host) : M SfxItemSet := do
  match (← readMember (·.mpSfxItemSetFromSdrObject)) with
  | some rSet => return rSet
  | none =>
    let pDrawDoc ← getDrawDoc h
    let pSdPage ← CPPUNIT_ASSERT
      (← hostCall (.GetSdPage pDrawDoc 0 .Standard) (h.GetSdPage pDrawDoc 0 .Standard))
    let pSdrObj ← CPPUNIT_ASSERT (← hostCall (.GetObj pSdPage 0) (h.GetObj pSdPage 0))
    let rMerged ← hostCall (.GetMergedItemSet pSdrObj) (h.GetMergedItemSet pSdrObj)
    writeMember (fun s => { s with mpSfxItemSetFromSdrObject := some (SfxItemSet.copyOf rMerged) })
    CPPUNIT_ASSERT (← readMember (·.mpSfxItemSetFromSdrObject))

/-- The member function `SdDialogsTest::getEmptySfxItemSet`. -/
def getEmptySfxItemSet (h : Host) : M SfxItemSet := do
  match (← readMember (·.mpEmptySfxItemSet)) with
  | some rSet => return rSet
  | none =>
    let pDrawDoc ← getDrawDoc h
    let rPool ← hostCall (.GetItemPool pDrawDoc) (h.GetItemPool pDrawDoc)
    writeMember (fun s => { s with mpEmptySfxItemSet := some (SfxItemSet.ofPool rPool) })
    CPPUNIT_ASSERT (← readMember (·.mpEmptySfxItemSet))

/-- The member function `SdDialogsTest::getEmptyFillStyleSfxItemSet`. -/
def getEmptyFillStyleSfxItemSet (h : Host) : M SfxItemSet := do
  match (← readMember (·.mpEmptyFillStyleSfxItemSet)) with
  | some rSet => return rSet
  | none =>
    let pDrawDoc ← getDrawDoc h
    let rPool ← hostCall (.GetItemPool pDrawDoc) (h.GetItemPool pDrawDoc)
    let aNew := SfxItemSet.ofRange rPool .XATTR_FILL_FIRST .XATTR_FILL_LAST
    writeMember (fun s => { s with mpEmptyFillStyleSfxItemSet := some aNew })
    let rSet ← CPPUNIT_ASSERT (← readMember (·.mpEmptyFillStyleSfxItemSet))
    let aFilled := rSet.Put (.XFillStyleItem .FillStyle_NONE)
    writeMember (fun s => { s with mpEmptyFillStyleSfxItemSet := some aFilled })
    deref (← readMember (·.mpEmptyFillStyleSfxItemSet))

/-- The expression `getViewShell()->GetFrameWeld()`. -/
def getFrameWeld (h : Host) : M (Option WeldWindow) := do
  let pViewShell ← getViewShell h
  hostCall (.GetFrameWeld pViewShell) (h.GetFrameWeld pViewShell)

/-- The expression `Application::GetDefDialogParent()`. -/
def getDefDialogParent (h : Host) : M (Option WeldWindow) :=
  hostCall .GetDefDialogParent h.GetDefDialogParent

/-- A call of a factory method: the host builds the dialog, the call is recorded. -/
def callFactory (h : Host) (pFact : SdAbstractDialogFactory) (call : FactoryCall) :
    M (Option VclAbstractDialog) :=
  hostCall (.factory pFact call) (h.construct pFact call)

/-- The member function `SdDialogsTest::createDialogByID`.  The result is `pRetval`: `none` is
the empty dialog pointer. -/
def createDialogByID (h : Host) (nID : Nat) : M (Option VclAbstractDialog) := do
  match (← getSdAbstractDialogFactory) with
  | none => return none
  | some _ =>
    match nID with
    | 0 =>
      let pFact ← deref (← getSdAbstractDialogFactory)
      let pWindow ← getDefDialogParent h
      let pDrView ← getDrawView h
      let pShell ← getDocShell h
      callFactory h pFact (.CreateBreakDlg pWindow pDrView pShell 0 0)
    | 1 =>
      let pFact ← deref (← getSdAbstractDialogFactory)
      let pWindow ← getFrameWeld h
      let rInAttrs ← getSfxItemSetFromSdrObject h
      let pView ← getDrawView h
      callFactory h pFact (.CreateCopyDlg pWindow rInAttrs pView)
    | 2 =>
      let pDrawDoc ← getDrawDoc h
      let pFact ← deref (← getSdAbstractDialogFactory)
      let pWindow ← getFrameWeld h
      callFactory h pFact (.CreateSdCustomShowDlg pWindow pDrawDoc)
    | 3 =>
      let pFact ← deref (← getSdAbstractDialogFactory)
      let pWindow ← getFrameWeld h
      let pAttr ← getEmptySfxItemSet h
      let pDocShell ← getDocShell h
      callFactory h pFact (.CreateSdTabCharDialog pWindow pAttr pDocShell)
    | 4 =>
      let pFact ← deref (← getSdAbstractDialogFactory)
      let pWindow ← getFrameWeld h
      let pAttr ← getEmptyFillStyleSfxItemSet h
      let pDocShell ← getDocShell h
      callFactory h pFact (.CreateSdTabPageDialog pWindow pAttr pDocShell true false)
    | 5 =>
      let pFact ← deref (← getSdAbstractDialogFactory)
      let pWindow ← getFrameWeld h
      let rSet ← getEmptySfxItemSet h
      callFactory h pFact (.CreateSdModifyFieldDlg pWindow none rSet)
    | 6 =>
      let pDrawDoc ← getDrawDoc h
      let rPool ← hostCall (.GetItemPool pDrawDoc) (h.GetItemPool pDrawDoc)
      let aNewAttr := SfxItemSet.ofRange rPool .ATTR_SNAPLINE_START .ATTR_SNAPLINE_END
      let aNewAttr := aNewAttr.Put (.SfxInt32Item .ATTR_SNAPLINE_X 0)
      let aNewAttr := aNewAttr.Put (.SfxInt32Item .ATTR_SNAPLINE_Y 0)
      let pFact ← deref (← getSdAbstractDialogFactory)
      let pWindow ← getFrameWeld h
      let pView ← getDrawView h
      callFactory h pFact (.CreateSdSnapLineDlg pWindow aNewAttr pView)
    | 7 =>
      let pDrawDoc ← getDrawDoc h
      let rPool ← hostCall (.GetItemPool pDrawDoc) (h.GetItemPool pDrawDoc)
      let aNewAttr := SfxItemSet.ofRange rPool .ATTR_LAYER_START .ATTR_LAYER_END
      let aLayerName ← hostCall (.SdResId .STR_LAYER) (h.SdResId .STR_LAYER)
      let aNewAttr := aNewAttr.Put (.makeSdAttrLayerName aLayerName)
      let aNewAttr := aNewAttr.Put .makeSdAttrLayerTitle
      let aNewAttr := aNewAttr.Put .makeSdAttrLayerDesc
      let aNewAttr := aNewAttr.Put .makeSdAttrLayerVisible
      let aNewAttr := aNewAttr.Put .makeSdAttrLayerPrintable
      let aNewAttr := aNewAttr.Put .makeSdAttrLayerLocked
      let aNewAttr := aNewAttr.Put .makeSdAttrLayerThisPage
      let pFact ← deref (← getSdAbstractDialogFactory)
      let pWindow ← getFrameWeld h
      let aStr ← hostCall (.SdResId .STR_INSERTLAYER) (h.SdResId .STR_INSERTLAYER)
      callFactory h pFact (.CreateSdInsertLayerDlg pWindow aNewAttr true aStr)
    | 8 =>
      let pDrawDoc ← getDrawDoc h
      let pFact ← deref (← getSdAbstractDialogFactory)
      let pWindow ← getFrameWeld h
      callFactory h pFact (.CreateSdInsertPagesObjsDlg pWindow pDrawDoc none "foo")
    | 9 =>
      let pDrawDoc ← getDrawDoc h
      let pSdPage ← CPPUNIT_ASSERT
        (← hostCall (.GetSdPage pDrawDoc 0 .Standard) (h.GetSdPage pDrawDoc 0 .Standard))
      let pSdrObj ← CPPUNIT_ASSERT (← hostCall (.GetObj pSdPage 0) (h.GetObj pSdPage 0))
      let pFact ← deref (← getSdAbstractDialogFactory)
      let pParent ← getDefDialogParent h
      callFactory h pFact (.CreateMorphDlg pParent pSdrObj pSdrObj)
    | 10 =>
      let pFact ← deref (← getSdAbstractDialogFactory)
      let pParent ← getDefDialogParent h
      let pAttr ← getEmptySfxItemSet h
      let pView ← getDrawView h
      callFactory h pFact (.CreateSdOutlineBulletTabDlg pParent pAttr pView)
    | 11 =>
      let pFact ← deref (← getSdAbstractDialogFactory)
      let pParent ← getFrameWeld h
      let pAttr ← getEmptySfxItemSet h
      callFactory h pFact (.CreateSdParagraphTabDlg pParent pAttr)
    | 12 =>
      let pDrawDoc ← getDrawDoc h
      let rPool ← hostCall (.GetItemPool pDrawDoc) (h.GetItemPool pDrawDoc)
      let aDlgSet := SfxItemSet.ofRange rPool .ATTR_PRESENT_START .ATTR_PRESENT_END
      let rPresentationSettings ←
        hostCall (.getPresentationSettings pDrawDoc) (h.getPresentationSettings pDrawDoc)
      let aDlgSet := aDlgSet.Put (.SfxBoolItem .ATTR_PRESENT_ALL rPresentationSettings.mbAll)
      let aDlgSet := aDlgSet.Put
        (.SfxBoolItem .ATTR_PRESENT_CUSTOMSHOW rPresentationSettings.mbCustomShow)
      let aDlgSet := aDlgSet.Put (.SfxStringItem .ATTR_PRESENT_DIANAME "")
      let aDlgSet := aDlgSet.Put
        (.SfxBoolItem .ATTR_PRESENT_ENDLESS rPresentationSettings.mbEndless)
      let aDlgSet := aDlgSet.Put
        (.SfxBoolItem .ATTR_PRESENT_MANUEL rPresentationSettings.mbManual)
      let aDlgSet := aDlgSet.Put
        (.SfxBoolItem .ATTR_PRESENT_MOUSE rPresentationSettings.mbMouseVisible)
      let aDlgSet := aDlgSet.Put
        (.SfxBoolItem .ATTR_PRESENT_PEN rPresentationSettings.mbMouseAsPen)
      let aDlgSet := aDlgSet.Put
        (.SfxBoolItem .ATTR_PRESENT_ANIMATION_ALLOWED rPresentationSettings.mbAnimationAllowed)
      let aDlgSet := aDlgSet.Put
        (.SfxBoolItem .ATTR_PRESENT_CHANGE_PAGE (!rPresentationSettings.mbLockedPages))
      let aDlgSet := aDlgSet.Put
        (.SfxBoolItem .ATTR_PRESENT_ALWAYS_ON_TOP rPresentationSettings.mbAlwaysOnTop)
      let aDlgSet := aDlgSet.Put
        (.SfxBoolItem .ATTR_PRESENT_FULLSCREEN rPresentationSettings.mbFullScreen)
      let aDlgSet := aDlgSet.Put
        (.SfxUInt32Item .ATTR_PRESENT_PAUSE_TIMEOUT
          (toUInt32 rPresentationSettings.mnPauseTimeout))
      let aDlgSet := aDlgSet.Put
        (.SfxBoolItem .ATTR_PRESENT_SHOW_PAUSELOGO rPresentationSettings.mbShowPauseLogo)
      let aDlgSet := aDlgSet.Put
        (.SfxBoolItem .ATTR_PRESENT_INTERACTIVE rPresentationSettings.mbInteractive)
      let aDlgSet := aDlgSet.Put (.SfxInt32Item .ATTR_PRESENT_DISPLAY 0)
      let pFact ← deref (← getSdAbstractDialogFactory)
      let pWindow ← getDefDialogParent h
      callFactory h pFact (.CreateSdStartPresentationDlg pWindow aDlgSet [] none)
    | 13 =>
      let pFact ← deref (← getSdAbstractDialogFactory)
      let pWindow ← getDefDialogParent h
      callFactory h pFact (.CreateRemoteDialog pWindow)
    | 14 =>
      let pDocShell ← getDocShell h
      let pStyleSheetPool ← CPPUNIT_ASSERT
        (← hostCall (.GetStyleSheetPool pDocShell) (h.GetStyleSheetPool pDocShell))
      let pStyleSheet ← CPPUNIT_ASSERT
        (← hostCall (.First pStyleSheetPool .Page) (h.First pStyleSheetPool .Page))
      let pFact ← deref (← getSdAbstractDialogFactory)
      let pDocSh ← getDocShell h
      let pParent ← getDefDialogParent h
      callFactory h pFact
        (.CreateSdPresLayoutTemplateDlg pDocSh pParent false pStyleSheet .Title pStyleSheetPool)
    | 15 =>
      let pFact ← deref (← getSdAbstractDialogFactory)
      let pWindow ← getDefDialogParent h
      let pDocShell ← getDocShell h
      let rInAttrs ← getEmptySfxItemSet h
      callFactory h pFact (.CreateSdPresLayoutDlg pWindow pDocShell rInAttrs)
    | 16 =>
      let pDocShell ← getDocShell h
      let pStyleSheetPool ← CPPUNIT_ASSERT
        (← hostCall (.GetStyleSheetPool pDocShell) (h.GetStyleSheetPool pDocShell))
      let pStyleSheet ← CPPUNIT_ASSERT
        (← hostCall (.First pStyleSheetPool .Pseudo) (h.First pStyleSheetPool .Pseudo))
      let pDrawDoc ← getDrawDoc h
      let pFact ← deref (← getSdAbstractDialogFactory)
      let pParent ← getFrameWeld h
      let pDocSh ← getDocShell h
      let pView ← getDrawView h
      callFactory h pFact (.CreateSdTabTemplateDlg pParent pDocSh pStyleSheet pDrawDoc pView)
    | 17 =>
      let pDrawDoc ← getDrawDoc h
      let rPool ← hostCall (.GetItemPool pDrawDoc) (h.GetItemPool pDrawDoc)
      let aSet := SfxItemSet.ofRange rPool .ATTR_ANIMATION_START .ATTR_ACTION_END
      let aSet := aSet.Put (.SfxBoolItem .ATTR_ANIMATION_ACTIVE false)
      let aSet := aSet.Put (.SfxUInt16Item .ATTR_ANIMATION_EFFECT .AnimationEffect_NONE)
      let aSet := aSet.Put (.SfxUInt16Item .ATTR_ANIMATION_TEXTEFFECT .AnimationEffect_NONE)
      let aSet := aSet.InvalidateItem .ATTR_ANIMATION_SPEED
      let aSet := aSet.Put (.SfxBoolItem .ATTR_ANIMATION_FADEOUT false)
      let aSet := aSet.Put (.SvxColorItem .COL_LIGHTGRAY .ATTR_ANIMATION_COLOR)
      let aSet := aSet.Put (.SfxBoolItem .ATTR_ANIMATION_INVISIBLE false)
      let aSet := aSet.Put (.SfxBoolItem .ATTR_ANIMATION_SOUNDON false)
      let aSet := aSet.InvalidateItem .ATTR_ANIMATION_SOUNDFILE
      let aSet := aSet.Put (.SfxBoolItem .ATTR_ANIMATION_PLAYFULL false)
      let aSet := aSet.Put (.SfxUInt16Item .ATTR_ACTION .ClickAction_NONE)
      let aSet := aSet.InvalidateItem .ATTR_ACTION_FILENAME
      let aSet := aSet.Put (.SfxUInt16Item .ATTR_ACTION_EFFECT .AnimationEffect_NONE)
      let aSet := aSet.InvalidateItem .ATTR_ACTION_EFFECTSPEED
      let aSet := aSet.Put (.SfxBoolItem .ATTR_ACTION_SOUNDON false)
      let aSet := aSet.Put (.SfxBoolItem .ATTR_ACTION_PLAYFULL false)
      let pFact ← deref (← getSdAbstractDialogFactory)
      let pParent ← getFrameWeld h
      let pView ← getDrawView h
      callFactory h pFact (.CreatSdActionDialog pParent aSet pView)
    | 18 =>
      let aEmptyBitmap := Bitmap.Empty
      let pFact ← deref (← getSdAbstractDialogFactory)
      let pParent ← getDefDialogParent h
      let pDocShell ← getDocShell h
      callFactory h pFact (.CreateSdVectorizeDlg pParent aEmptyBitmap pDocShell)
    | 19 =>
      let pDrawDoc ← getDrawDoc h
      let pFact ← deref (← getSdAbstractDialogFactory)
      let pWindow ← getDefDialogParent h
      callFactory h pFact (.CreateSdPhotoAlbumDialog pWindow pDrawDoc)
    | 20 =>
      let pDrawDoc ← getDrawDoc h
      let pSdPage ← CPPUNIT_ASSERT
        (← hostCall (.GetSdPage pDrawDoc 0 .Standard) (h.GetSdPage pDrawDoc 0 .Standard))
      let pFact ← deref (← getSdAbstractDialogFactory)
      let pParent ← getDefDialogParent h
      callFactory h pFact (.CreateMasterLayoutDialog pParent pDrawDoc pSdPage)
    | 21 =>
      let pDrawDoc ← getDrawDoc h
      let pSdPage ← CPPUNIT_ASSERT
        (← hostCall (.GetSdPage pDrawDoc 0 .Standard) (h.GetSdPage pDrawDoc 0 .Standard))
      let pFact ← deref (← getSdAbstractDialogFactory)
      let rViewShell ← getViewShell h
      let pParent ← getDefDialogParent h
      callFactory h pFact (.CreateHeaderFooterDialog rViewShell pParent pDrawDoc pSdPage)
    | _ => return none

end SdDialogsTest

/-! ## The registration table -/

/-- The map type of the base class: UI-description path to dialog ID. -/
abbrev mapType := List (String × Nat)

/-- Assignment through `operator[]` of the map: overwrite the value of an existing key, else
add the key. -/
def mapType.assign : mapType → String → Nat → mapType
  | [], k, v => [(k, v)]
  | (k0, v0) :: rest, k, v =>
    if k0 = k then (k0, v) :: rest else (k0, v0) :: mapType.assign rest k v

/-- Lookup of a key. -/
def mapType.find : mapType → String → Option Nat
  | [], _ => none
  | (k0, v0) :: rest, k => if k0 = k then some v0 else mapType.find rest k

namespace SdDialogsTest

/-- The body of `SdDialogsTest::registerKnownDialogsByID`. -/
def registerKnownDialogsByID (rKnownDialogs : mapType) : mapType :=
  let m := rKnownDialogs
  let m := m.assign "modules/sdraw/ui/breakdialog.ui" 0
  let m := m.assign "modules/sdraw/ui/copydlg.ui" 1
  let m := m.assign "modules/simpress/ui/customslideshows.ui" 2
  let m := m.assign "modules/sdraw/ui/drawchardialog.ui" 3
  let m := m.assign "modules/sdraw/ui/drawpagedialog.ui" 4
  let m := m.assign "modules/simpress/ui/dlgfield.ui" 5
  let m := m.assign "modules/sdraw/ui/dlgsnap.ui" 6
  let m := m.assign "modules/sdraw/ui/insertlayer.ui" 7
  let m := m.assign "modules/sdraw/ui/insertslidesdialog.ui" 8
  let m := m.assign "modules/sdraw/ui/crossfadedialog.ui" 9
  let m := m.assign "modules/sdraw/ui/bulletsandnumbering.ui" 10
  let m := m.assign "modules/sdraw/ui/drawparadialog.ui" 11
  let m := m.assign "modules/simpress/ui/presentationdialog.ui" 12
  let m := m.assign "modules/simpress/ui/remotedialog.ui" 13
  let m := m.assign "modules/sdraw/ui/drawprtldialog.ui" 14
  let m := m.assign "modules/simpress/ui/slidedesigndialog.ui" 15
  let m := m.assign "modules/simpress/ui/templatedialog.ui" 16
  let m := m.assign "modules/simpress/ui/interactiondialog.ui" 17
  let m := m.assign "modules/sdraw/ui/vectorize.ui" 18
  let m := m.assign "modules/simpress/ui/photoalbum.ui" 19
  let m := m.assign "modules/simpress/ui/masterlayoutdlg.ui" 20
  let m := m.assign "modules/simpress/ui/headerfooterdialog.ui" 21
  m

end SdDialogsTest

/-- The 22 UI-description paths of the registration table, in the order the claim lists them. -/
def listedPaths : List String :=
  [ "modules/sdraw/ui/breakdialog.ui",
    "modules/sdraw/ui/copydlg.ui",
    "modules/simpress/ui/customslideshows.ui",
    "modules/sdraw/ui/drawchardialog.ui",
    "modules/sdraw/ui/drawpagedialog.ui",
    "modules/simpress/ui/dlgfield.ui",
    "modules/sdraw/ui/dlgsnap.ui",
    "modules/sdraw/ui/insertlayer.ui",
    "modules/sdraw/ui/insertslidesdialog.ui",
    "modules/sdraw/ui/crossfadedialog.ui",
    "modules/sdraw/ui/bulletsandnumbering.ui",
    "modules/sdraw/ui/drawparadialog.ui",
    "modules/simpress/ui/presentationdialog.ui",
    "modules/simpress/ui/remotedialog.ui",
    "modules/sdraw/ui/drawprtldialog.ui",
    "modules/simpress/ui/slidedesigndialog.ui",
    "modules/simpress/ui/templatedialog.ui",
    "modules/simpress/ui/interactiondialog.ui",
    "modules/sdraw/ui/vectorize.ui",
    "modules/simpress/ui/photoalbum.ui",
    "modules/simpress/ui/masterlayoutdlg.ui",
    "modules/simpress/ui/headerfooterdialog.ui" ]

/-! ## Outcomes as values

The outcome of a call, without the state: used to say what a run of `createDialogByID`
amounts to once the getters have been asked. -/

/-- Sequencing of outcomes. -/
def Outcome.bind {α β : Type} : Outcome α → (α → Outcome β) → Outcome β
  | .ok a, k => k a
  | .assertFailed, _ => .assertFailed
  | .undefined, _ => .undefined

instance : Monad Outcome where
  pure := Outcome.ok
  bind := Outcome.bind

/-- The outcome of `CPPUNIT_ASSERT(p)`. -/
def Outcome.ofAssert {α : Type} : Option α → Outcome α
  | some a => .ok a
  | none => .assertFailed

/-- The outcome of an unchecked dereference. -/
def Outcome.ofDeref {α : Type} : Option α → Outcome α
  | some a => .ok a
  | none => .undefined

/-- What each getter of the fixture answers in a given state. -/
structure Answers where
  docShell : Outcome DrawDocShell
  viewShell : Outcome ViewShell
  drawView : Outcome DrawView
  drawDoc : Outcome SdDrawDocument
  itemSetFromSdrObject : Outcome SfxItemSet
  emptyItemSet : Outcome SfxItemSet
  emptyFillStyleItemSet : Outcome SfxItemSet

/-- The null pointer of an outcome that did not return. -/
def Outcome.toOption {α : Type} : Outcome α → Option α
  | .ok a => some a
  | _ => none

/-- The answer of an on-demand getter: the cached object when the cache is filled, else the
outcome of looking it up. -/
def Outcome.cached {α : Type} (cache : Option α) (lookup : Outcome α) : Outcome α :=
  match cache with
  | some p => .ok p
  | none => lookup

/-- What `getDocShell` answers: the cached shell, else the shell of the document. -/
def valDocShell (h : Host) (s : SdDialogsTest) : Outcome DrawDocShell :=
  Outcome.cached s.mpDocShell do
    let pDoc ← Outcome.ofDeref s.mpImpressDocument
    Outcome.ofAssert (h.GetDocShell pDoc)

/-- What `getViewShell` answers. -/
def valViewShell (h : Host) (s : SdDialogsTest) : Outcome ViewShell :=
  Outcome.cached s.mpViewShell do
    let pDocShell ← valDocShell h s
    Outcome.ofAssert (h.GetViewShell pDocShell)

/-- What `getDrawView` answers. -/
def valDrawView (h : Host) (s : SdDialogsTest) : Outcome DrawView :=
  Outcome.cached s.mpDrawView do
    let pViewShell ← valViewShell h s
    Outcome.ofAssert ((h.GetDrawView pViewShell).bind h.asDrawView)

/-- What `getDrawDoc` answers. -/
def valDrawDoc (h : Host) (s : SdDialogsTest) : Outcome SdDrawDocument := do
  let pDoc ← Outcome.ofDeref s.mpImpressDocument
  Outcome.ofAssert (h.GetDoc pDoc)

/-- What `getSfxItemSetFromSdrObject` answers. -/
def valItemSetFromSdrObject (h : Host) (s : SdDialogsTest) : Outcome SfxItemSet :=
  Outcome.cached s.mpSfxItemSetFromSdrObject do
    let pDrawDoc ← valDrawDoc h s
    let pSdPage ← Outcome.ofAssert (h.GetSdPage pDrawDoc 0 .Standard)
    let pSdrObj ← Outcome.ofAssert (h.GetObj pSdPage 0)
    return SfxItemSet.copyOf (h.GetMergedItemSet pSdrObj)

/-- What `getEmptySfxItemSet` answers. -/
def valEmptyItemSet (h : Host) (s : SdDialogsTest) : Outcome SfxItemSet :=
  Outcome.cached s.mpEmptySfxItemSet do
    let pDrawDoc ← valDrawDoc h s
    return SfxItemSet.ofPool (h.GetItemPool pDrawDoc)

/-- What `getEmptyFillStyleSfxItemSet` answers. -/
def valEmptyFillStyleItemSet (h : Host) (s : SdDialogsTest) : Outcome SfxItemSet :=
  Outcome.cached s.mpEmptyFillStyleSfxItemSet do
    let pDrawDoc ← valDrawDoc h s
    return (SfxItemSet.ofRange (h.GetItemPool pDrawDoc) .XATTR_FILL_FIRST .XATTR_FILL_LAST).Put
      (.XFillStyleItem .FillStyle_NONE)

/-- The state `getDocShell` leaves behind. -/
def fillDocShell (h : Host) (s : SdDialogsTest) : SdDialogsTest :=
  { s with mpDocShell := (valDocShell h s).toOption }

/-- The state `getViewShell` leaves behind. -/
def fillViewShell (h : Host) (s : SdDialogsTest) : SdDialogsTest :=
  match s.mpViewShell with
  | some _ => s
  | none => { fillDocShell h s with mpViewShell := (valViewShell h s).toOption }

/-- The state `getDrawView` leaves behind. -/
def fillDrawView (h : Host) (s : SdDialogsTest) : SdDialogsTest :=
  match s.mpDrawView with
  | some _ => s
  | none => { fillViewShell h s with mpDrawView := (valDrawView h s).toOption }

/-- The state `getSfxItemSetFromSdrObject` leaves behind. -/
def fillItemSetFromSdrObject (h : Host) (s : SdDialogsTest) : SdDialogsTest :=
  { s with mpSfxItemSetFromSdrObject := (valItemSetFromSdrObject h s).toOption }

/-- The state `getEmptySfxItemSet` leaves behind. -/
def fillEmptyItemSet (h : Host) (s : SdDialogsTest) : SdDialogsTest :=
  { s with mpEmptySfxItemSet := (valEmptyItemSet h s).toOption }

/-- The state `getEmptyFillStyleSfxItemSet` leaves behind. -/
def fillEmptyFillStyleItemSet (h : Host) (s : SdDialogsTest) : SdDialogsTest :=
  { s with mpEmptyFillStyleSfxItemSet := (valEmptyFillStyleItemSet h s).toOption }

/-- The answers of the getters in state `s`. -/
def answers (h : Host) (s : SdDialogsTest) : Answers :=
  { docShell := valDocShell h s
    viewShell := valViewShell h s
    drawView := valDrawView h s
    drawDoc := valDrawDoc h s
    itemSetFromSdrObject := valItemSetFromSdrObject h s
    emptyItemSet := valEmptyItemSet h s
    emptyFillStyleItemSet := valEmptyFillStyleItemSet h s }


/-- The frame window `getViewShell()->GetFrameWeld()` from the getters' answers. -/
def Answers.frameWeld (h : Host) (o : Answers) : Outcome (Option WeldWindow) := do
  let pViewShell ← o.viewShell
  return h.GetFrameWeld pViewShell

/-- The factory call that `createDialogByID` arrives at when the factory is present, as a
function of the getters' answers on entry: `ok none` is the default branch. -/
def plannedCall (h : Host) (o : Answers) (nID : Nat) : Outcome (Option FactoryCall) :=
  match nID with
  | 0 => do
    let pDrView ← o.drawView
    let pShell ← o.docShell
    return some (.CreateBreakDlg h.GetDefDialogParent pDrView pShell 0 0)
  | 1 => do
    let pWindow ← o.frameWeld h
    let rInAttrs ← o.itemSetFromSdrObject
    let pView ← o.drawView
    return some (.CreateCopyDlg pWindow rInAttrs pView)
  | 2 => do
    let pDrawDoc ← o.drawDoc
    let pWindow ← o.frameWeld h
    return some (.CreateSdCustomShowDlg pWindow pDrawDoc)
  | 3 => do
    let pWindow ← o.frameWeld h
    let pAttr ← o.emptyItemSet
    let pDocShell ← o.docShell
    return some (.CreateSdTabCharDialog pWindow pAttr pDocShell)
  | 4 => do
    let pWindow ← o.frameWeld h
    let pAttr ← o.emptyFillStyleItemSet
    let pDocShell ← o.docShell
    return some (.CreateSdTabPageDialog pWindow pAttr pDocShell true false)
  | 5 => do
    let pWindow ← o.frameWeld h
    let rSet ← o.emptyItemSet
    return some (.CreateSdModifyFieldDlg pWindow none rSet)
  | 6 => do
    let pDrawDoc ← o.drawDoc
    let aNewAttr := SfxItemSet.ofRange (h.GetItemPool pDrawDoc) .ATTR_SNAPLINE_START
      .ATTR_SNAPLINE_END
    let aNewAttr := aNewAttr.Put (.SfxInt32Item .ATTR_SNAPLINE_X 0)
    let aNewAttr := aNewAttr.Put (.SfxInt32Item .ATTR_SNAPLINE_Y 0)
    let pWindow ← o.frameWeld h
    let pView ← o.drawView
    return some (.CreateSdSnapLineDlg pWindow aNewAttr pView)
  | 7 => do
    let pDrawDoc ← o.drawDoc
    let aNewAttr := SfxItemSet.ofRange (h.GetItemPool pDrawDoc) .ATTR_LAYER_START .ATTR_LAYER_END
    let aNewAttr := aNewAttr.Put (.makeSdAttrLayerName (h.SdResId .STR_LAYER))
    let aNewAttr := aNewAttr.Put .makeSdAttrLayerTitle
    let aNewAttr := aNewAttr.Put .makeSdAttrLayerDesc
    let aNewAttr := aNewAttr.Put .makeSdAttrLayerVisible
    let aNewAttr := aNewAttr.Put .makeSdAttrLayerPrintable
    let aNewAttr := aNewAttr.Put .makeSdAttrLayerLocked
    let aNewAttr := aNewAttr.Put .makeSdAttrLayerThisPage
    let pWindow ← o.frameWeld h
    return some (.CreateSdInsertLayerDlg pWindow aNewAttr true (h.SdResId .STR_INSERTLAYER))
  | 8 => do
    let pDrawDoc ← o.drawDoc
    let pWindow ← o.frameWeld h
    return some (.CreateSdInsertPagesObjsDlg pWindow pDrawDoc none "foo")
  | 9 => do
    let pDrawDoc ← o.drawDoc
    let pSdPage ← Outcome.ofAssert (h.GetSdPage pDrawDoc 0 .Standard)
    let pSdrObj ← Outcome.ofAssert (h.GetObj pSdPage 0)
    return some (.CreateMorphDlg h.GetDefDialogParent pSdrObj pSdrObj)
  | 10 => do
    let pAttr ← o.emptyItemSet
    let pView ← o.drawView
    return some (.CreateSdOutlineBulletTabDlg h.GetDefDialogParent pAttr pView)
  | 11 => do
    let pParent ← o.frameWeld h
    let pAttr ← o.emptyItemSet
    return some (.CreateSdParagraphTabDlg pParent pAttr)
  | 12 => do
    let pDrawDoc ← o.drawDoc
    let aDlgSet := SfxItemSet.ofRange (h.GetItemPool pDrawDoc) .ATTR_PRESENT_START
      .ATTR_PRESENT_END
    let rPresentationSettings := h.getPresentationSettings pDrawDoc
    let aDlgSet := aDlgSet.Put (.SfxBoolItem .ATTR_PRESENT_ALL rPresentationSettings.mbAll)
    let aDlgSet := aDlgSet.Put
      (.SfxBoolItem .ATTR_PRESENT_CUSTOMSHOW rPresentationSettings.mbCustomShow)
    let aDlgSet := aDlgSet.Put (.SfxStringItem .ATTR_PRESENT_DIANAME "")
    let aDlgSet := aDlgSet.Put
      (.SfxBoolItem .ATTR_PRESENT_ENDLESS rPresentationSettings.mbEndless)
    let aDlgSet := aDlgSet.Put
      (.SfxBoolItem .ATTR_PRESENT_MANUEL rPresentationSettings.mbManual)
    let aDlgSet := aDlgSet.Put
      (.SfxBoolItem .ATTR_PRESENT_MOUSE rPresentationSettings.mbMouseVisible)
    let aDlgSet := aDlgSet.Put
      (.SfxBoolItem .ATTR_PRESENT_PEN rPresentationSettings.mbMouseAsPen)
    let aDlgSet := aDlgSet.Put
      (.SfxBoolItem .ATTR_PRESENT_ANIMATION_ALLOWED rPresentationSettings.mbAnimationAllowed)
    let aDlgSet := aDlgSet.Put
      (.SfxBoolItem .ATTR_PRESENT_CHANGE_PAGE (!rPresentationSettings.mbLockedPages))
    let aDlgSet := aDlgSet.Put
      (.SfxBoolItem .ATTR_PRESENT_ALWAYS_ON_TOP rPresentationSettings.mbAlwaysOnTop)
    let aDlgSet := aDlgSet.Put
      (.SfxBoolItem .ATTR_PRESENT_FULLSCREEN rPresentationSettings.mbFullScreen)
    let aDlgSet := aDlgSet.Put
      (.SfxUInt32Item .ATTR_PRESENT_PAUSE_TIMEOUT
        (toUInt32 rPresentationSettings.mnPauseTimeout))
    let aDlgSet := aDlgSet.Put
      (.SfxBoolItem .ATTR_PRESENT_SHOW_PAUSELOGO rPresentationSettings.mbShowPauseLogo)
    let aDlgSet := aDlgSet.Put
      (.SfxBoolItem .ATTR_PRESENT_INTERACTIVE rPresentationSettings.mbInteractive)
    let aDlgSet := aDlgSet.Put (.SfxInt32Item .ATTR_PRESENT_DISPLAY 0)
    return some (.CreateSdStartPresentationDlg h.GetDefDialogParent aDlgSet [] none)
  | 13 =>
    return some (.CreateRemoteDialog h.GetDefDialogParent)
  | 14 => do
    let pDocShell ← o.docShell
    let pStyleSheetPool ← Outcome.ofAssert (h.GetStyleSheetPool pDocShell)
    let pStyleSheet ← Outcome.ofAssert (h.First pStyleSheetPool .Page)
    let pDocSh ← o.docShell
    return some (.CreateSdPresLayoutTemplateDlg pDocSh h.GetDefDialogParent false pStyleSheet
      .Title pStyleSheetPool)
  | 15 => do
    let pDocShell ← o.docShell
    let rInAttrs ← o.emptyItemSet
    return some (.CreateSdPresLayoutDlg h.GetDefDialogParent pDocShell rInAttrs)
  | 16 => do
    let pDocShell ← o.docShell
    let pStyleSheetPool ← Outcome.ofAssert (h.GetStyleSheetPool pDocShell)
    let pStyleSheet ← Outcome.ofAssert (h.First pStyleSheetPool .Pseudo)
    let pDrawDoc ← o.drawDoc
    let pParent ← o.frameWeld h
    let pDocSh ← o.docShell
    let pView ← o.drawView
    return some (.CreateSdTabTemplateDlg pParent pDocSh pStyleSheet pDrawDoc pView)
  | 17 => do
    let pDrawDoc ← o.drawDoc
    let aSet := SfxItemSet.ofRange (h.GetItemPool pDrawDoc) .ATTR_ANIMATION_START .ATTR_ACTION_END
    let aSet := aSet.Put (.SfxBoolItem .ATTR_ANIMATION_ACTIVE false)
    let aSet := aSet.Put (.SfxUInt16Item .ATTR_ANIMATION_EFFECT .AnimationEffect_NONE)
    let aSet := aSet.Put (.SfxUInt16Item .ATTR_ANIMATION_TEXTEFFECT .AnimationEffect_NONE)
    let aSet := aSet.InvalidateItem .ATTR_ANIMATION_SPEED
    let aSet := aSet.Put (.SfxBoolItem .ATTR_ANIMATION_FADEOUT false)
    let aSet := aSet.Put (.SvxColorItem .COL_LIGHTGRAY .ATTR_ANIMATION_COLOR)
    let aSet := aSet.Put (.SfxBoolItem .ATTR_ANIMATION_INVISIBLE false)
    let aSet := aSet.Put (.SfxBoolItem .ATTR_ANIMATION_SOUNDON false)
    let aSet := aSet.InvalidateItem .ATTR_ANIMATION_SOUNDFILE
    let aSet := aSet.Put (.SfxBoolItem .ATTR_ANIMATION_PLAYFULL false)
    let aSet := aSet.Put (.SfxUInt16Item .ATTR_ACTION .ClickAction_NONE)
    let aSet := aSet.InvalidateItem .ATTR_ACTION_FILENAME
    let aSet := aSet.Put (.SfxUInt16Item .ATTR_ACTION_EFFECT .AnimationEffect_NONE)
    let aSet := aSet.InvalidateItem .ATTR_ACTION_EFFECTSPEED
    let aSet := aSet.Put (.SfxBoolItem .ATTR_ACTION_SOUNDON false)
    let aSet := aSet.Put (.SfxBoolItem .ATTR_ACTION_PLAYFULL false)
    let pParent ← o.frameWeld h
    let pView ← o.drawView
    return some (.CreatSdActionDialog pParent aSet pView)
  | 18 => do
    let pDocShell ← o.docShell
    return some (.CreateSdVectorizeDlg h.GetDefDialogParent .Empty pDocShell)
  | 19 => do
    let pDrawDoc ← o.drawDoc
    return some (.CreateSdPhotoAlbumDialog h.GetDefDialogParent pDrawDoc)
  | 20 => do
    let pDrawDoc ← o.drawDoc
    let pSdPage ← Outcome.ofAssert (h.GetSdPage pDrawDoc 0 .Standard)
    return some (.CreateMasterLayoutDialog h.GetDefDialogParent pDrawDoc pSdPage)
  | 21 => do
    let pDrawDoc ← o.drawDoc
    let pSdPage ← Outcome.ofAssert (h.GetSdPage pDrawDoc 0 .Standard)
    let rViewShell ← o.viewShell
    return some (.CreateHeaderFooterDialog rViewShell h.GetDefDialogParent pDrawDoc pSdPage)
  | _ => return none

/-- Case analysis on an outcome: `k` on a returned value, `d` otherwise. -/
def Outcome.fold {α β : Type} (o : Outcome α) (k : α → β) (d : β) : β :=
  match o with
  | .ok a => k a
  | _ => d

/-- The factory calls of a planned call: the call itself when there is one. -/
def callsOf (o : Outcome (Option FactoryCall)) : List FactoryCall :=
  o.fold (fun c => c.toList) []

/-! ## Relations between fixture states -/

/-- A cached member either keeps its value or goes from empty to filled. -/
def keptOrFilled {α : Type} (before after : Option α) : Prop :=
  after = before ∨ (before = none ∧ after ≠ none)

/-- The six cached members of `s'` come from those of `s` by keeping or filling. -/
def Grew (s s' : SdDialogsTest) : Prop :=
  keptOrFilled s.mpDocShell s'.mpDocShell ∧
  keptOrFilled s.mpViewShell s'.mpViewShell ∧
  keptOrFilled s.mpDrawView s'.mpDrawView ∧
  keptOrFilled s.mpSfxItemSetFromSdrObject s'.mpSfxItemSetFromSdrObject ∧
  keptOrFilled s.mpEmptySfxItemSet s'.mpEmptySfxItemSet ∧
  keptOrFilled s.mpEmptyFillStyleSfxItemSet s'.mpEmptyFillStyleSfxItemSet

/-- One step of the fixture: the factory, the document and the component stay, the getters
answer the same, caches only fill. -/
def Step (h : Host) (s s' : SdDialogsTest) : Prop :=
  s'.mxComponent = s.mxComponent ∧ s'.mpFact = s.mpFact ∧
  s'.mpImpressDocument = s.mpImpressDocument ∧
  answers h s' = answers h s ∧ Grew s s'

/-- Every run of `m` is a step, however it ends. -/
def Stays {α : Type} (h : Host) (m : M α) : Prop :=
  ∀ s, Step h s (m s).fix

/-- Every event of every run of `m` satisfies `P`. -/
def TraceAll {α : Type} (P : Event → Prop) (m : M α) : Prop :=
  ∀ s, ∀ e ∈ (m s).trace, P e

/-! ## Reachable states -/

/-- The member functions a test body calls between `setUp` and `tearDown`. -/
inductive Op where
  | getDocShell
  | getViewShell
  | getDrawView
  | getSfxItemSetFromSdrObject
  | getEmptySfxItemSet
  | getEmptyFillStyleSfxItemSet
  | createDialogByID (nID : Nat)
  deriving DecidableEq, Repr

/-- The fixture state a call leaves behind, whether it returned or an assertion ended it. -/
def Op.after (h : Host) : Op → SdDialogsTest → SdDialogsTest
  | .getDocShell, s => (SdDialogsTest.getDocShell h s).fix
  | .getViewShell, s => (SdDialogsTest.getViewShell h s).fix
  | .getDrawView, s => (SdDialogsTest.getDrawView h s).fix
  | .getSfxItemSetFromSdrObject, s => (SdDialogsTest.getSfxItemSetFromSdrObject h s).fix
  | .getEmptySfxItemSet, s => (SdDialogsTest.getEmptySfxItemSet h s).fix
  | .getEmptyFillStyleSfxItemSet, s => (SdDialogsTest.getEmptyFillStyleSfxItemSet h s).fix
  | .createDialogByID nID, s => (SdDialogsTest.createDialogByID h nID s).fix

/-- The states of a set-up fixture: `setUp` returned on the constructed fixture, then any
number of getter and `createDialogByID` calls were made. -/
inductive Reach (h : Host) : SdDialogsTest → Prop where
  | setUp : (SdDialogsTest.setUp h SdDialogsTest.ctor).out = .ok () →
      Reach h (SdDialogsTest.setUp h SdDialogsTest.ctor).fix
  | step (op : Op) {s : SdDialogsTest} : Reach h s → Reach h (op.after h s)

/-- What the getters answer on a fixture for document `doc` with empty caches: the host's
own objects. -/
def hostAnswers (h : Host) (doc : SdXImpressDocument) : Answers :=
  answers h { SdDialogsTest.ctor with mpImpressDocument := some doc }

/-- The caches agree with the host: the getters answer what the host would. -/
def Coherent (h : Host) (s : SdDialogsTest) : Prop :=
  ∃ doc, s.mpImpressDocument = some doc ∧ answers h s = hostAnswers h doc

/-! ## The objects a case needs -/

/-- The host objects whose absence the fixture asserts on. -/
inductive Needed where
  | documentModel
  | documentShell
  | viewShell
  | drawView
  | standardPage0
  | object0
  | styleSheetPool
  | firstStyleSheet (family : SfxStyleFamily)
  deriving DecidableEq, Repr

/-- The host's object of each kind for document `doc`, as a yes or no. -/
def supplied (h : Host) (doc : SdXImpressDocument) : Needed → Bool
  | .documentModel => (h.GetDoc doc).isSome
  | .documentShell => (h.GetDocShell doc).isSome
  | .viewShell => ((h.GetDocShell doc).bind h.GetViewShell).isSome
  | .drawView =>
    ((((h.GetDocShell doc).bind h.GetViewShell).bind h.GetDrawView).bind h.asDrawView).isSome
  | .standardPage0 => ((h.GetDoc doc).bind fun d => h.GetSdPage d 0 .Standard).isSome
  | .object0 =>
    (((h.GetDoc doc).bind fun d => h.GetSdPage d 0 .Standard).bind fun p => h.GetObj p 0).isSome
  | .styleSheetPool => ((h.GetDocShell doc).bind h.GetStyleSheetPool).isSome
  | .firstStyleSheet family =>
    (((h.GetDocShell doc).bind h.GetStyleSheetPool).bind fun p => h.First p family).isSome

/-- The objects each case of `createDialogByID` looks up, directly or through a getter. -/
def needs : Nat → List Needed
  | 0 => [.documentShell, .viewShell, .drawView]
  | 1 => [.documentShell, .viewShell, .drawView, .documentModel, .standardPage0, .object0]
  | 2 => [.documentModel, .documentShell, .viewShell]
  | 3 => [.documentShell, .viewShell, .documentModel]
  | 4 => [.documentShell, .viewShell, .documentModel]
  | 5 => [.documentShell, .viewShell, .documentModel]
  | 6 => [.documentModel, .documentShell, .viewShell, .drawView]
  | 7 => [.documentModel, .documentShell, .viewShell]
  | 8 => [.documentModel, .documentShell, .viewShell]
  | 9 => [.documentModel, .standardPage0, .object0]
  | 10 => [.documentModel, .documentShell, .viewShell, .drawView]
  | 11 => [.documentShell, .viewShell, .documentModel]
  | 12 => [.documentModel]
  | 13 => []
  | 14 => [.documentShell, .styleSheetPool, .firstStyleSheet .Page]
  | 15 => [.documentShell, .documentModel]
  | 16 => [.documentShell, .styleSheetPool, .firstStyleSheet .Pseudo, .documentModel,
      .viewShell, .drawView]
  | 17 => [.documentModel, .documentShell, .viewShell, .drawView]
  | 18 => [.documentShell]
  | 19 => [.documentModel]
  | 20 => [.documentModel, .standardPage0]
  | 21 => [.documentModel, .standardPage0, .documentShell, .viewShell]
  | _ => []

/-- An ID is registered when `registerKnownDialogsByID` assigns it to some path. -/
def registered (nID : Nat) : Prop :=
  ∃ path, (SdDialogsTest.registerKnownDialogsByID []).find path = some nID

/-- The factory method of each ID as the dispatch claim lists them. -/
def claimedMethod : Nat → Option FactoryMethod
  | 0 => some .CreateBreakDlg
  | 1 => some .CreateCopyDlg
  | 2 => some .CreateSdCustomShowDlg
  | 3 => some .CreateSdTabCharDialog
  | 4 => some .CreateSdTabPageDialog
  | 5 => some .CreateSdModifyFieldDlg
  | 6 => some .CreateSdSnapLineDlg
  | 7 => some .CreateSdInsertLayerDlg
  | 8 => some .CreateSdInsertPagesObjsDlg
  | 9 => some .CreateMorphDlg
  | 10 => some .CreateSdOutlineBulletTabDlg
  | 11 => some .CreateSdParagraphTabDlg
  | 12 => some .CreateSdStartPresentationDlg
  | 13 => some .CreateRemoteDialog
  | 14 => some .CreateSdPresLayoutTemplateDlg
  | 15 => some .CreateSdPresLayoutDlg
  | 16 => some .CreateSdTabTemplateDlg
  | 17 => some .CreatSdActionDialog
  | 18 => some .CreateSdVectorizeDlg
  | 19 => some .CreateSdPhotoAlbumDialog
  | 20 => some .CreateMasterLayoutDialog
  | 21 => some .CreateHeaderFooterDialog
  | _ => none

/-! ## Two concrete hosts -/

/-- A host in which every object that the fixture asks for exists. -/
def fullHost : Host :=
  { Create := some ⟨1⟩
    loadFromDesktop := fun _ _ => some ⟨2⟩
    asSdXImpressDocument := fun c => some ⟨c.id + 1⟩
    GetDocShell := fun d => some ⟨d.id + 1⟩
    GetViewShell := fun d => some ⟨d.id + 1⟩
    GetDrawView := fun v => some ⟨v.id + 1⟩
    asDrawView := fun v => some ⟨v.id + 1⟩
    GetDoc := fun d => some ⟨d.id + 10⟩
    GetSdPage := fun d n kind =>
      match kind with
      | .Standard => some ⟨d.id + n + 1⟩
      | _ => none
    GetObj := fun p n => some ⟨p.id + n + 1⟩
    GetMergedItemSet := fun o =>
      ⟨⟨o.id⟩, none, [(.XATTR_FILLSTYLE, some (.XFillStyleItem .FillStyle_SOLID))]⟩
    GetItemPool := fun d => ⟨d.id + 1⟩
    GetStyleSheetPool := fun d => some ⟨d.id + 20⟩
    First := fun p family =>
      match family with
      | .Page => some ⟨p.id + 1⟩
      | .Pseudo => some ⟨p.id + 2⟩
      | _ => none
    GetFrameWeld := fun v => some ⟨v.id + 30⟩
    GetDefDialogParent := some ⟨40⟩
    getPresentationSettings := fun _ =>
      ⟨true, false, false, false, true, false, true, false, false, true, 10, true, false⟩
    SdResId := fun _ => "Layer"
    construct := fun _ c => some ⟨100 + c.method.toCtorIdx⟩ }

/-- The set-up fixture on `fullHost`. -/
def fullFixture : SdDialogsTest :=
  (SdDialogsTest.setUp fullHost SdDialogsTest.ctor).fix

/-- A host whose document loads but that has no dialog factory and no document shell. -/
def bareHost : Host :=
  { fullHost with
    Create := none
    GetDocShell := fun _ => none }

/-- The set-up fixture on `bareHost`. -/
def bareFixture : SdDialogsTest :=
  (SdDialogsTest.setUp bareHost SdDialogsTest.ctor).fix

/-- A host with a factory whose document has no document shell. -/
def shellLessHost : Host :=
  { fullHost with GetDocShell := fun _ => none }

/-- The set-up fixture on `shellLessHost`. -/
def shellLessFixture : SdDialogsTest :=
  (SdDialogsTest.setUp shellLessHost SdDialogsTest.ctor).fix

/-- The lookups that pick a representative input ask for the first one: page index 0 of kind
`Standard`, object index 0, and `First` of family `Page` or `Pseudo` (the only way into a
style-sheet pool that the fixture uses). -/
def asksFirstOnly : Event → Prop
  | .GetSdPage _ index kind => index = 0 ∧ kind = .Standard
  | .GetObj _ index => index = 0
  | .First _ family => family = .Page ∨ family = .Pseudo
  | _ => True

/-- The fixture `tearDown` leaves: the three attribute sets released. -/
def released (s : SdDialogsTest) : SdDialogsTest :=
  { s with
    mpSfxItemSetFromSdrObject := none
    mpEmptySfxItemSet := none
    mpEmptyFillStyleSfxItemSet := none }

/-- What lazy creation and reuse mean for a getter `get` with cache member `cache`: a call on a
filled cache returns the cached object, asks the host nothing and leaves the fixture as it
is; and once a call has returned, the cache holds what it returned, so the next call returns
the same object and changes nothing. -/
def CachedReuse {α : Type} (get : M α) (cache : SdDialogsTest → Option α) : Prop :=
  (∀ s p, cache s = some p → get s = ⟨.ok p, s, []⟩) ∧
  (∀ s p, (get s).out = .ok p →
    cache (get s).fix = some p ∧ get (get s).fix = ⟨.ok p, (get s).fix, []⟩)

/-- What "the representative input is the first available one" says of the factory calls of a
fixture `s` for document `doc`: the arguments of the calls of IDs 1, 9, 14, 16, 20 and 21. -/
def FirstAvailable (h : Host) (s : SdDialogsTest) (doc : SdXImpressDocument) : Prop :=
  (∀ c ∈ factoryCalls (SdDialogsTest.createDialogByID h 1 s).trace,
    ∃ w v d p o, h.GetDoc doc = some d ∧ h.GetSdPage d 0 .Standard = some p ∧
      h.GetObj p 0 = some o ∧
      c = .CreateCopyDlg w (SfxItemSet.copyOf (h.GetMergedItemSet o)) v) ∧
  (∀ c ∈ factoryCalls (SdDialogsTest.createDialogByID h 9 s).trace,
    ∃ w d p o, h.GetDoc doc = some d ∧ h.GetSdPage d 0 .Standard = some p ∧
      h.GetObj p 0 = some o ∧ c = .CreateMorphDlg w o o) ∧
  (∀ c ∈ factoryCalls (SdDialogsTest.createDialogByID h 20 s).trace,
    ∃ w d p, h.GetDoc doc = some d ∧ h.GetSdPage d 0 .Standard = some p ∧
      c = .CreateMasterLayoutDialog w d p) ∧
  (∀ c ∈ factoryCalls (SdDialogsTest.createDialogByID h 21 s).trace,
    ∃ v w d p, h.GetDoc doc = some d ∧ h.GetSdPage d 0 .Standard = some p ∧
      c = .CreateHeaderFooterDialog v w d p) ∧
  (∀ c ∈ factoryCalls (SdDialogsTest.createDialogByID h 14 s).trace,
    ∃ w shell pool sheet, h.GetDocShell doc = some shell ∧
      h.GetStyleSheetPool shell = some pool ∧ h.First pool .Page = some sheet ∧
      c = .CreateSdPresLayoutTemplateDlg shell w false sheet .Title pool) ∧
  (∀ c ∈ factoryCalls (SdDialogsTest.createDialogByID h 16 s).trace,
    ∃ w d v shell pool sheet, h.GetDocShell doc = some shell ∧
      h.GetStyleSheetPool shell = some pool ∧ h.First pool .Pseudo = some sheet ∧
      c = .CreateSdTabTemplateDlg w shell sheet d v)

/-! ## The whole life of a fixture -/

/-- The document pointer that `setUp` stores: the loaded component seen as a document. -/
def hostDoc (h : Host) : Option SdXImpressDocument :=
  (h.loadFromDesktop "private:factory/simpress"
    "com.sun.star.presentation.PresentationDocument").bind h.asSdXImpressDocument

/-- A call that returned or was ended by an assertion, as opposed to one that dereferenced a
null pointer. -/
def Outcome.isDefined {α : Type} : Outcome α → Bool
  | .undefined => false
  | _ => true

/-- Whether a getter or `createDialogByID` call returns or ends in an assertion. -/
def Op.isDefined (h : Host) : Op → SdDialogsTest → Bool
  | .getDocShell, s => (SdDialogsTest.getDocShell h s).out.isDefined
  | .getViewShell, s => (SdDialogsTest.getViewShell h s).out.isDefined
  | .getDrawView, s => (SdDialogsTest.getDrawView h s).out.isDefined
  | .getSfxItemSetFromSdrObject, s =>
    (SdDialogsTest.getSfxItemSetFromSdrObject h s).out.isDefined
  | .getEmptySfxItemSet, s => (SdDialogsTest.getEmptySfxItemSet h s).out.isDefined
  | .getEmptyFillStyleSfxItemSet, s =>
    (SdDialogsTest.getEmptyFillStyleSfxItemSet h s).out.isDefined
  | .createDialogByID nID, s => (SdDialogsTest.createDialogByID h nID s).out.isDefined

/-- The member functions that change the fixture: `setUp`, `tearDown`, the getters and
`createDialogByID`. -/
inductive Call where
  | setUp
  | tearDown
  | op (o : Op)
  deriving DecidableEq, Repr

/-- The fixture state a call leaves behind. -/
def Call.after (h : Host) : Call → SdDialogsTest → SdDialogsTest
  | .setUp, s => (SdDialogsTest.setUp h s).fix
  | .tearDown, s => (SdDialogsTest.tearDown s).fix
  | .op o, s => o.after h s

/-- Whether a call returns or ends in an assertion. -/
def Call.isDefined (h : Host) : Call → SdDialogsTest → Bool
  | .setUp, s => (SdDialogsTest.setUp h s).out.isDefined
  | .tearDown, s => (SdDialogsTest.tearDown s).out.isDefined
  | .op o, s => o.isDefined h s

/-- The states a fixture goes through: the constructed fixture, then any sequence of `setUp`,
getter, `createDialogByID` and `tearDown` calls, each of which returned or was ended by an
assertion. -/
inductive Lifecycle (h : Host) : SdDialogsTest → Prop where
  | ctor : Lifecycle h SdDialogsTest.ctor
  | call (c : Call) {s : SdDialogsTest} :
      Lifecycle h s → c.isDefined h s = true → Lifecycle h (c.after h s)

/-- Each filled shell cache holds the object that the host returns for the cache before it in
the chain: the document shell of the document, the view shell of the cached document shell,
the draw view of the cached view shell. -/
def ShellChain (h : Host) (s : SdDialogsTest) : Prop :=
  (∀ p, s.mpDocShell = some p →
    ∃ d, s.mpImpressDocument = some d ∧ h.GetDocShell d = some p) ∧
  (∀ v, s.mpViewShell = some v →
    ∃ p, s.mpDocShell = some p ∧ h.GetViewShell p = some v) ∧
  (∀ w, s.mpDrawView = some w →
    ∃ v, s.mpViewShell = some v ∧ (h.GetDrawView v).bind h.asDrawView = some w)

/-- The invariant of the fixture's life: the document pointer is null or the host's document,
and the shell caches are chained. -/
def LifeInv (h : Host) (s : SdDialogsTest) : Prop :=
  (s.mpImpressDocument = none ∨ s.mpImpressDocument = hostDoc h) ∧ ShellChain h s

/-- Every run of `m` keeps `I`, however it ends. -/
def Keeps {α : Type} (I : SdDialogsTest → Prop) (m : M α) : Prop :=
  ∀ s, I s → I (m s).fix

/-! ## The attribute set of the start-presentation dialog -/

/-- The slot of an attribute in a set: `none` when the set holds nothing for it. -/
def SfxItemSet.slot (a : SfxItemSet) (w : WhichId) : Option (Option SfxPoolItem) :=
  a.items.lookup w

/-- The attribute set of ID 12 for presentation settings `st`, the pause-timeout item holding
the unsigned number `nTimeout`: 15 items, each flag under its attribute, `CHANGE_PAGE` as
the negation of the locked-pages flag, an empty `DIANAME` and `DISPLAY` 0. -/
def HoldsPresentation (a : SfxItemSet) (st : PresentationSettings) (nTimeout : Nat) : Prop :=
  a.items.length = 15 ∧
  a.slot .ATTR_PRESENT_ALL = some (some (.SfxBoolItem .ATTR_PRESENT_ALL st.mbAll)) ∧
  a.slot .ATTR_PRESENT_CUSTOMSHOW =
    some (some (.SfxBoolItem .ATTR_PRESENT_CUSTOMSHOW st.mbCustomShow)) ∧
  a.slot .ATTR_PRESENT_ENDLESS = some (some (.SfxBoolItem .ATTR_PRESENT_ENDLESS st.mbEndless)) ∧
  a.slot .ATTR_PRESENT_MANUEL = some (some (.SfxBoolItem .ATTR_PRESENT_MANUEL st.mbManual)) ∧
  a.slot .ATTR_PRESENT_MOUSE =
    some (some (.SfxBoolItem .ATTR_PRESENT_MOUSE st.mbMouseVisible)) ∧
  a.slot .ATTR_PRESENT_PEN = some (some (.SfxBoolItem .ATTR_PRESENT_PEN st.mbMouseAsPen)) ∧
  a.slot .ATTR_PRESENT_ANIMATION_ALLOWED =
    some (some (.SfxBoolItem .ATTR_PRESENT_ANIMATION_ALLOWED st.mbAnimationAllowed)) ∧
  a.slot .ATTR_PRESENT_ALWAYS_ON_TOP =
    some (some (.SfxBoolItem .ATTR_PRESENT_ALWAYS_ON_TOP st.mbAlwaysOnTop)) ∧
  a.slot .ATTR_PRESENT_FULLSCREEN =
    some (some (.SfxBoolItem .ATTR_PRESENT_FULLSCREEN st.mbFullScreen)) ∧
  a.slot .ATTR_PRESENT_SHOW_PAUSELOGO =
    some (some (.SfxBoolItem .ATTR_PRESENT_SHOW_PAUSELOGO st.mbShowPauseLogo)) ∧
  a.slot .ATTR_PRESENT_INTERACTIVE =
    some (some (.SfxBoolItem .ATTR_PRESENT_INTERACTIVE st.mbInteractive)) ∧
  a.slot .ATTR_PRESENT_PAUSE_TIMEOUT =
    some (some (.SfxUInt32Item .ATTR_PRESENT_PAUSE_TIMEOUT nTimeout)) ∧
  a.slot .ATTR_PRESENT_CHANGE_PAGE =
    some (some (.SfxBoolItem .ATTR_PRESENT_CHANGE_PAGE (!st.mbLockedPages))) ∧
  a.slot .ATTR_PRESENT_DIANAME = some (some (.SfxStringItem .ATTR_PRESENT_DIANAME "")) ∧
  a.slot .ATTR_PRESENT_DISPLAY = some (some (.SfxInt32Item .ATTR_PRESENT_DISPLAY 0))

/-- What the attribute set of ID 12 is said to hold for presentation settings `st`: the slots
of `HoldsPresentation`, the number in the pause-timeout item being the pause timeout. -/
def IsPresentationSet (a : SfxItemSet) (st : PresentationSettings) : Prop :=
  ∃ n : Nat, (n : Int) = st.mnPauseTimeout ∧ HoldsPresentation a st n

/-- What the source puts into the set: the slots of `HoldsPresentation`, the pause-timeout item
holding the pause timeout converted to `sal_uInt32`. -/
def IsConvertedPresentationSet (a : SfxItemSet) (st : PresentationSettings) : Prop :=
  HoldsPresentation a st (toUInt32 st.mnPauseTimeout)

/-- The fixture of `fullHost` after `setUp`, `createDialogByID 1` and `tearDown`. -/
def tornDownFixture : SdDialogsTest :=
  Call.after fullHost .tearDown
    (Call.after fullHost (.op (.createDialogByID 1))
      (Call.after fullHost .setUp SdDialogsTest.ctor))

/-- The full host without a dialog factory: `Create` returns null, every document object
exists. -/
def factoryLessHost : Host :=
  { fullHost with Create := none }

/-- The set-up fixture on `factoryLessHost`. -/
def factoryLessFixture : SdDialogsTest :=
  (SdDialogsTest.setUp factoryLessHost SdDialogsTest.ctor).fix

/-- The full host with a pause timeout of -1 in the presentation settings. -/
def negativeTimeoutHost : Host :=
  { fullHost with
    getPresentationSettings := fun _ =>
      ⟨true, false, false, false, true, false, true, false, false, true, -1, true, false⟩ }

/-- The set-up fixture on `negativeTimeoutHost`. -/
def negativeTimeoutFixture : SdDialogsTest :=
  (SdDialogsTest.setUp negativeTimeoutHost SdDialogsTest.ctor).fix
/-! ## Running the monad -/

section Running

variable {α β : Type}

@[simp] theorem pure_run (a : α) (s : SdDialogsTest) :
    (pure a : M α) s = ⟨.ok a, s, []⟩ := rfl

@[simp] theorem readMember_run (f : SdDialogsTest → α) (s : SdDialogsTest) :
    readMember f s = ⟨.ok (f s), s, []⟩ := rfl

@[simp] theorem writeMember_run (f : SdDialogsTest → SdDialogsTest) (s : SdDialogsTest) :
    writeMember f s = ⟨.ok (), f s, []⟩ := rfl

@[simp] theorem hostCall_run (e : Event) (v : α) (s : SdDialogsTest) :
    hostCall e v s = ⟨.ok v, s, [e]⟩ := rfl

@[simp] theorem assert_out (p : Option α) (s : SdDialogsTest) :
    (CPPUNIT_ASSERT p s).out = Outcome.ofAssert p := by
  cases p <;> rfl

@[simp] theorem assert_fix (p : Option α) (s : SdDialogsTest) :
    (CPPUNIT_ASSERT p s).fix = s := by
  cases p <;> rfl

@[simp] theorem assert_trace (p : Option α) (s : SdDialogsTest) :
    (CPPUNIT_ASSERT p s).trace = [] := by
  cases p <;> rfl

@[simp] theorem deref_out (p : Option α) (s : SdDialogsTest) :
    (deref p s).out = Outcome.ofDeref p := by
  cases p <;> rfl

@[simp] theorem deref_fix (p : Option α) (s : SdDialogsTest) :
    (deref p s).fix = s := by
  cases p <;> rfl

@[simp] theorem deref_trace (p : Option α) (s : SdDialogsTest) :
    (deref p s).trace = [] := by
  cases p <;> rfl

@[simp] theorem Outcome.ok_bind (a : α) (k : α → Outcome β) :
    (Outcome.ok a >>= k) = k a := rfl

@[simp] theorem Outcome.assertFailed_bind (k : α → Outcome β) :
    ((Outcome.assertFailed : Outcome α) >>= k) = Outcome.assertFailed := rfl

@[simp] theorem Outcome.undefined_bind (k : α → Outcome β) :
    ((Outcome.undefined : Outcome α) >>= k) = Outcome.undefined := rfl

@[simp] theorem Outcome.pure_eq (a : α) : (pure a : Outcome α) = Outcome.ok a := rfl

@[simp] theorem Outcome.ofAssert_some (a : α) : Outcome.ofAssert (some a) = Outcome.ok a := rfl

@[simp] theorem Outcome.ofAssert_none :
    Outcome.ofAssert (none : Option α) = Outcome.assertFailed := rfl

@[simp] theorem Outcome.ofDeref_some (a : α) : Outcome.ofDeref (some a) = Outcome.ok a := rfl

@[simp] theorem Outcome.ofDeref_none :
    Outcome.ofDeref (none : Option α) = Outcome.undefined := rfl

@[simp] theorem Outcome.cached_some (a : α) (o : Outcome α) :
    Outcome.cached (some a) o = Outcome.ok a := rfl

@[simp] theorem Outcome.cached_none (o : Outcome α) : Outcome.cached none o = o := rfl

@[simp] theorem Outcome.toOption_ok (a : α) : (Outcome.ok a).toOption = some a := rfl

@[simp] theorem Outcome.toOption_assertFailed :
    (Outcome.assertFailed : Outcome α).toOption = none := rfl

@[simp] theorem Outcome.toOption_undefined :
    (Outcome.undefined : Outcome α).toOption = none := rfl

@[simp] theorem Outcome.cached_toOption_self (o : Outcome α) :
    Outcome.cached o.toOption o = o := by
  cases o <;> rfl

@[simp] theorem Outcome.cached_toOption_cached (c : Option α) (o : Outcome α) :
    Outcome.cached (Outcome.cached c o).toOption o = Outcome.cached c o := by
  cases c <;> simp

@[simp] theorem Outcome.toOption_ofAssert (p : Option α) :
    (Outcome.ofAssert p).toOption = p := by
  cases p <;> rfl

@[simp] theorem Outcome.cached_ofAssert_self (p : Option α) :
    Outcome.cached p (Outcome.ofAssert p) = Outcome.ofAssert p := by
  cases p <;> rfl

@[simp] theorem Outcome.bind_assoc {γ : Type} (x : Outcome α) (k : α → Outcome β)
    (g : β → Outcome γ) : ((x >>= k) >>= g) = (x >>= fun a => k a >>= g) := by
  cases x <;> rfl

theorem bind_run (m : M α) (k : α → M β) (s : SdDialogsTest) :
    (m >>= k) s = M.bind m k s := rfl

theorem bind_out (m : M α) (k : α → M β) (s : SdDialogsTest) :
    ((m >>= k) s).out = ((m s).out >>= fun a => (k a (m s).fix).out) := by
  rw [bind_run]; unfold M.bind
  cases hm : (m s).out <;> simp

theorem bind_fix (m : M α) (k : α → M β) (s : SdDialogsTest) :
    ((m >>= k) s).fix =
      match (m s).out with
      | .ok a => (k a (m s).fix).fix
      | _ => (m s).fix := by
  rw [bind_run]; unfold M.bind
  cases hm : (m s).out <;> simp

theorem bind_trace (m : M α) (k : α → M β) (s : SdDialogsTest) :
    ((m >>= k) s).trace =
      (m s).trace ++
        match (m s).out with
        | .ok a => (k a (m s).fix).trace
        | _ => [] := by
  rw [bind_run]; unfold M.bind
  cases hm : (m s).out <;> simp

end Running

/-! ## Traces -/

section Traces

variable {α β : Type}

theorem traceAll_bind {P : Event → Prop} {m : M α} {k : α → M β}
    (hm : TraceAll P m) (hk : ∀ a, TraceAll P (k a)) : TraceAll P (m >>= k) := by
  intro s e he
  rw [bind_trace] at he
  rcases List.mem_append.1 he with he | he
  · exact hm s e he
  · cases hout : (m s).out with
    | ok a => rw [hout] at he; exact hk a _ e he
    | assertFailed => rw [hout] at he; simp at he
    | undefined => rw [hout] at he; simp at he

theorem traceAll_pure {P : Event → Prop} (a : α) : TraceAll P (pure a : M α) := by
  intro s e he; simp at he

theorem traceAll_readMember {P : Event → Prop} (f : SdDialogsTest → α) :
    TraceAll P (readMember f) := by
  intro s e he; simp at he

theorem traceAll_writeMember {P : Event → Prop} (f : SdDialogsTest → SdDialogsTest) :
    TraceAll P (writeMember f) := by
  intro s e he; simp at he

theorem traceAll_hostCall {P : Event → Prop} {e : Event} (he : P e) (v : α) :
    TraceAll P (hostCall e v) := by
  intro s e1 he1
  simp at he1
  rw [he1]; exact he

theorem traceAll_assert {P : Event → Prop} (p : Option α) : TraceAll P (CPPUNIT_ASSERT p) := by
  intro s e he; simp at he

theorem traceAll_deref {P : Event → Prop} (p : Option α) : TraceAll P (deref p) := by
  intro s e he; simp at he

theorem factoryCalls_of_traceAll {t : List Event} (ht : ∀ e ∈ t, e.factoryCall? = none) :
    factoryCalls t = [] := by
  unfold factoryCalls
  rw [List.filterMap_eq_nil_iff]
  exact ht

@[simp] theorem Outcome.fold_ok (a : α) (k : α → β) (d : β) :
    (Outcome.ok a).fold k d = k a := rfl

@[simp] theorem Outcome.fold_assertFailed (k : α → β) (d : β) :
    (Outcome.assertFailed : Outcome α).fold k d = d := rfl

@[simp] theorem Outcome.fold_undefined (k : α → β) (d : β) :
    (Outcome.undefined : Outcome α).fold k d = d := rfl

@[simp] theorem Outcome.fold_const (o : Outcome α) (d : β) :
    o.fold (fun _ => d) d = d := by
  cases o <;> rfl

@[simp] theorem Outcome.fold_bind {γ : Type} (x : Outcome α) (k : α → Outcome β) (g : β → γ)
    (d : γ) : (x >>= k).fold g d = x.fold (fun a => (k a).fold g d) d := by
  cases x <;> rfl

theorem bind_fix_fold (m : M α) (k : α → M β) (s : SdDialogsTest) :
    ((m >>= k) s).fix = (m s).out.fold (fun a => (k a (m s).fix).fix) (m s).fix := by
  rw [bind_fix]
  cases (m s).out <;> rfl

@[simp] theorem factoryCalls_nil : factoryCalls [] = [] := rfl

@[simp] theorem factoryCalls_single (e : Event) :
    factoryCalls [e] = e.factoryCall?.toList := by
  cases hc : e.factoryCall? <;> simp [factoryCalls, hc]

theorem bind_calls (m : M α) (k : α → M β) (s : SdDialogsTest) :
    factoryCalls ((m >>= k) s).trace =
      factoryCalls (m s).trace ++
        (m s).out.fold (fun a => factoryCalls (k a (m s).fix).trace) [] := by
  rw [bind_trace]
  unfold factoryCalls
  rw [List.filterMap_append]
  cases (m s).out <;> simp

end Traces

namespace SdDialogsTest

/-! ## The getters in closed form -/

theorem getDocShell_out (h : Host) (s : SdDialogsTest) :
    (getDocShell h s).out = valDocShell h s := by
  cases hc : s.mpDocShell <;> cases hd : s.mpImpressDocument <;>
    simp [getDocShell, valDocShell, bind_out, bind_fix, getSdXImpressDocument, hc, hd]

theorem getDocShell_fix (h : Host) (s : SdDialogsTest) :
    (getDocShell h s).fix = fillDocShell h s := by
  rcases s with ⟨c, f, d, ds, vs, dv, a, b, e⟩
  cases ds <;> cases d <;>
    simp [getDocShell, fillDocShell, valDocShell, bind_out, bind_fix, getSdXImpressDocument,
      Outcome.toOption]
  cases h.GetDocShell _ <;> simp

theorem getDocShell_traceAll (h : Host) {P : Event → Prop} (hP : ∀ d, P (.GetDocShell d)) :
    TraceAll P (getDocShell h) := by
  unfold getDocShell getSdXImpressDocument
  refine traceAll_bind (traceAll_readMember _) fun c => ?_
  cases c with
  | some p => exact traceAll_pure _
  | none =>
    refine traceAll_bind (traceAll_readMember _) fun d => ?_
    refine traceAll_bind (traceAll_deref _) fun d => ?_
    refine traceAll_bind (traceAll_hostCall (hP d) _) fun d => ?_
    refine traceAll_bind (traceAll_writeMember _) fun d => ?_
    refine traceAll_bind (traceAll_readMember _) fun d => ?_
    exact traceAll_assert _

theorem getViewShell_out (h : Host) (s : SdDialogsTest) :
    (getViewShell h s).out = valViewShell h s := by
  cases hc : s.mpViewShell <;>
    simp [getViewShell, valViewShell, bind_out, bind_fix, getDocShell_out, getDocShell_fix, hc]

theorem getViewShell_fix (h : Host) (s : SdDialogsTest) :
    (getViewShell h s).fix = fillViewShell h s := by
  cases hc : s.mpViewShell <;>
    simp [getViewShell, fillViewShell, valViewShell, bind_out, bind_fix, getDocShell_out,
      getDocShell_fix, Outcome.toOption, hc]
  cases hv : valDocShell h s <;> simp [hv, fillDocShell, hc]
  cases h.GetViewShell _ <;> simp

theorem getViewShell_traceAll (h : Host) {P : Event → Prop} (hP : ∀ d, P (.GetDocShell d))
    (hQ : ∀ d, P (.GetViewShell d)) : TraceAll P (getViewShell h) := by
  unfold getViewShell
  refine traceAll_bind (traceAll_readMember _) fun c => ?_
  cases c with
  | some p => exact traceAll_pure _
  | none =>
    refine traceAll_bind (getDocShell_traceAll h hP) fun d => ?_
    refine traceAll_bind (traceAll_hostCall (hQ d) _) fun d => ?_
    refine traceAll_bind (traceAll_writeMember _) fun d => ?_
    refine traceAll_bind (traceAll_readMember _) fun d => ?_
    exact traceAll_assert _

theorem getDrawView_out (h : Host) (s : SdDialogsTest) :
    (getDrawView h s).out = valDrawView h s := by
  cases hc : s.mpDrawView <;>
    simp [getDrawView, valDrawView, bind_out, bind_fix, getViewShell_out, getViewShell_fix, hc]

theorem getDrawView_fix (h : Host) (s : SdDialogsTest) :
    (getDrawView h s).fix = fillDrawView h s := by
  cases hc : s.mpDrawView <;>
    simp [getDrawView, fillDrawView, valDrawView, bind_out, bind_fix, getViewShell_out,
      getViewShell_fix, Outcome.toOption, hc]
  cases hv : valViewShell h s <;> simp [hv]
  · cases (h.GetDrawView _).bind h.asDrawView <;> simp
  all_goals
    cases hw : s.mpViewShell <;> simp [fillViewShell, fillDocShell, hw, hc]
  all_goals (cases s; simp_all)

theorem getDrawView_traceAll (h : Host) {P : Event → Prop} (hP : ∀ d, P (.GetDocShell d))
    (hQ : ∀ d, P (.GetViewShell d)) (hR : ∀ d, P (.GetDrawView d)) :
    TraceAll P (getDrawView h) := by
  unfold getDrawView
  refine traceAll_bind (traceAll_readMember _) fun c => ?_
  cases c with
  | some p => exact traceAll_pure _
  | none =>
    refine traceAll_bind (getViewShell_traceAll h hP hQ) fun d => ?_
    refine traceAll_bind (traceAll_hostCall (hR d) _) fun d => ?_
    refine traceAll_bind (traceAll_writeMember _) fun d => ?_
    refine traceAll_bind (traceAll_readMember _) fun d => ?_
    exact traceAll_assert _

theorem getDrawDoc_out (h : Host) (s : SdDialogsTest) :
    (getDrawDoc h s).out = valDrawDoc h s := by
  cases hd : s.mpImpressDocument <;>
    simp [getDrawDoc, valDrawDoc, bind_out, bind_fix, getSdXImpressDocument, hd]

theorem getDrawDoc_fix (h : Host) (s : SdDialogsTest) :
    (getDrawDoc h s).fix = s := by
  cases hd : s.mpImpressDocument <;>
    simp [getDrawDoc, bind_out, bind_fix, getSdXImpressDocument, hd]

theorem getDrawDoc_traceAll (h : Host) {P : Event → Prop} (hP : ∀ d, P (.GetDoc d)) :
    TraceAll P (getDrawDoc h) := by
  unfold getDrawDoc getSdXImpressDocument
  refine traceAll_bind (traceAll_readMember _) fun d => ?_
  refine traceAll_bind (traceAll_deref _) fun d => ?_
  refine traceAll_bind (traceAll_hostCall (hP d) _) fun d => ?_
  exact traceAll_assert _

theorem getSfxItemSetFromSdrObject_out (h : Host) (s : SdDialogsTest) :
    (getSfxItemSetFromSdrObject h s).out = valItemSetFromSdrObject h s := by
  cases hc : s.mpSfxItemSetFromSdrObject <;>
    simp [getSfxItemSetFromSdrObject, valItemSetFromSdrObject, bind_out, bind_fix,
      getDrawDoc_out, getDrawDoc_fix, hc]

theorem getSfxItemSetFromSdrObject_fix (h : Host) (s : SdDialogsTest) :
    (getSfxItemSetFromSdrObject h s).fix = fillItemSetFromSdrObject h s := by
  cases hc : s.mpSfxItemSetFromSdrObject <;>
    simp [getSfxItemSetFromSdrObject, fillItemSetFromSdrObject, valItemSetFromSdrObject,
      bind_out, bind_fix, getDrawDoc_out, getDrawDoc_fix, Outcome.toOption, hc]
  · cases hv : valDrawDoc h s <;> simp [hv]
    · rename_i dd
      cases hp : h.GetSdPage dd 0 .Standard <;> simp [hp]
      · cases s; simp_all
      · rename_i p
        cases ho : h.GetObj p 0 <;> simp [ho]
        cases s; simp_all
    all_goals (cases s; simp_all)
  · cases s; simp_all

theorem getSfxItemSetFromSdrObject_traceAll (h : Host) {P : Event → Prop}
    (h1 : ∀ d, P (.GetDoc d)) (h2 : ∀ d, P (.GetSdPage d 0 .Standard))
    (h3 : ∀ p, P (.GetObj p 0)) (h4 : ∀ o, P (.GetMergedItemSet o)) :
    TraceAll P (getSfxItemSetFromSdrObject h) := by
  unfold getSfxItemSetFromSdrObject
  refine traceAll_bind (traceAll_readMember _) fun c => ?_
  cases c with
  | some p => exact traceAll_pure _
  | none =>
    refine traceAll_bind (getDrawDoc_traceAll h h1) fun d => ?_
    refine traceAll_bind (traceAll_hostCall (h2 d) _) fun p => ?_
    refine traceAll_bind (traceAll_assert _) fun p => ?_
    refine traceAll_bind (traceAll_hostCall (h3 p) _) fun o => ?_
    refine traceAll_bind (traceAll_assert _) fun o => ?_
    refine traceAll_bind (traceAll_hostCall (h4 o) _) fun d => ?_
    refine traceAll_bind (traceAll_writeMember _) fun d => ?_
    refine traceAll_bind (traceAll_readMember _) fun d => ?_
    exact traceAll_assert _

theorem getEmptySfxItemSet_out (h : Host) (s : SdDialogsTest) :
    (getEmptySfxItemSet h s).out = valEmptyItemSet h s := by
  cases hc : s.mpEmptySfxItemSet <;>
    simp [getEmptySfxItemSet, valEmptyItemSet, bind_out, bind_fix, getDrawDoc_out,
      getDrawDoc_fix, hc]

theorem getEmptySfxItemSet_fix (h : Host) (s : SdDialogsTest) :
    (getEmptySfxItemSet h s).fix = fillEmptyItemSet h s := by
  cases hc : s.mpEmptySfxItemSet <;>
    simp [getEmptySfxItemSet, fillEmptyItemSet, valEmptyItemSet, bind_out, bind_fix,
      getDrawDoc_out, getDrawDoc_fix, Outcome.toOption, hc]
  · cases hv : valDrawDoc h s <;> simp [hv]
    all_goals (cases s; simp_all)
  · cases s; simp_all

theorem getEmptySfxItemSet_traceAll (h : Host) {P : Event → Prop}
    (h1 : ∀ d, P (.GetDoc d)) (h2 : ∀ d, P (.GetItemPool d)) :
    TraceAll P (getEmptySfxItemSet h) := by
  unfold getEmptySfxItemSet
  refine traceAll_bind (traceAll_readMember _) fun c => ?_
  cases c with
  | some p => exact traceAll_pure _
  | none =>
    refine traceAll_bind (getDrawDoc_traceAll h h1) fun d => ?_
    refine traceAll_bind (traceAll_hostCall (h2 d) _) fun p => ?_
    refine traceAll_bind (traceAll_writeMember _) fun d => ?_
    refine traceAll_bind (traceAll_readMember _) fun d => ?_
    exact traceAll_assert _

theorem getEmptyFillStyleSfxItemSet_out (h : Host) (s : SdDialogsTest) :
    (getEmptyFillStyleSfxItemSet h s).out = valEmptyFillStyleItemSet h s := by
  cases hc : s.mpEmptyFillStyleSfxItemSet <;>
    simp [getEmptyFillStyleSfxItemSet, valEmptyFillStyleItemSet, bind_out, bind_fix,
      getDrawDoc_out, getDrawDoc_fix, hc]

theorem getEmptyFillStyleSfxItemSet_fix (h : Host) (s : SdDialogsTest) :
    (getEmptyFillStyleSfxItemSet h s).fix = fillEmptyFillStyleItemSet h s := by
  cases hc : s.mpEmptyFillStyleSfxItemSet <;>
    simp [getEmptyFillStyleSfxItemSet, fillEmptyFillStyleItemSet, valEmptyFillStyleItemSet,
      bind_out, bind_fix, getDrawDoc_out, getDrawDoc_fix, Outcome.toOption, hc]
  · cases hv : valDrawDoc h s <;> simp [hv]
    all_goals (cases s; simp_all)
  · cases s; simp_all

theorem getEmptyFillStyleSfxItemSet_traceAll (h : Host) {P : Event → Prop}
    (h1 : ∀ d, P (.GetDoc d)) (h2 : ∀ d, P (.GetItemPool d)) :
    TraceAll P (getEmptyFillStyleSfxItemSet h) := by
  unfold getEmptyFillStyleSfxItemSet
  refine traceAll_bind (traceAll_readMember _) fun c => ?_
  cases c with
  | some p => exact traceAll_pure _
  | none =>
    refine traceAll_bind (getDrawDoc_traceAll h h1) fun d => ?_
    refine traceAll_bind (traceAll_hostCall (h2 d) _) fun p => ?_
    refine traceAll_bind (traceAll_writeMember _) fun d => ?_
    refine traceAll_bind (traceAll_readMember _) fun d => ?_
    refine traceAll_bind (traceAll_assert _) fun d => ?_
    refine traceAll_bind (traceAll_writeMember _) fun d => ?_
    refine traceAll_bind (traceAll_readMember _) fun d => ?_
    exact traceAll_deref _

theorem getFrameWeld_out (h : Host) (s : SdDialogsTest) :
    (getFrameWeld h s).out = (valViewShell h s >>= fun v => .ok (h.GetFrameWeld v)) := by
  simp [getFrameWeld, bind_out, getViewShell_out]

theorem getFrameWeld_fix (h : Host) (s : SdDialogsTest) :
    (getFrameWeld h s).fix = fillViewShell h s := by
  simp [getFrameWeld, bind_fix, getViewShell_out, getViewShell_fix]
  cases valViewShell h s <;> simp

theorem getFrameWeld_traceAll (h : Host) {P : Event → Prop} (hP : ∀ d, P (.GetDocShell d))
    (hQ : ∀ d, P (.GetViewShell d)) (hR : ∀ d, P (.GetFrameWeld d)) :
    TraceAll P (getFrameWeld h) := by
  unfold getFrameWeld
  refine traceAll_bind (getViewShell_traceAll h hP hQ) fun d => ?_
  exact traceAll_hostCall (hR d) _

end SdDialogsTest
/-! ## Filling a cache does not change what the getters answer -/

namespace SdDialogsTest

theorem answers_fillDocShell (h : Host) (s : SdDialogsTest) :
    answers h (fillDocShell h s) = answers h s := by
  simp [answers, valDocShell, valViewShell, valDrawView, valDrawDoc, valItemSetFromSdrObject,
      valEmptyItemSet, valEmptyFillStyleItemSet, fillDocShell]

theorem answers_fillViewShell (h : Host) (s : SdDialogsTest) :
    answers h (fillViewShell h s) = answers h s := by
  cases h2 : s.mpViewShell <;>
  simp [answers, valDocShell, valViewShell, valDrawView, valDrawDoc, valItemSetFromSdrObject,
      valEmptyItemSet, valEmptyFillStyleItemSet, fillDocShell, fillViewShell, h2]

theorem answers_fillDrawView (h : Host) (s : SdDialogsTest) :
    answers h (fillDrawView h s) = answers h s := by
  cases h2 : s.mpViewShell <;> cases h3 : s.mpDrawView <;>
  simp [answers, valDocShell, valViewShell, valDrawView, valDrawDoc, valItemSetFromSdrObject,
      valEmptyItemSet, valEmptyFillStyleItemSet, fillDocShell, fillViewShell, fillDrawView, h2, h3]

theorem answers_fillItemSetFromSdrObject (h : Host) (s : SdDialogsTest) :
    answers h (fillItemSetFromSdrObject h s) = answers h s := by
  simp [answers, valDocShell, valViewShell, valDrawView, valDrawDoc, valItemSetFromSdrObject,
      valEmptyItemSet, valEmptyFillStyleItemSet, fillItemSetFromSdrObject]

theorem answers_fillEmptyItemSet (h : Host) (s : SdDialogsTest) :
    answers h (fillEmptyItemSet h s) = answers h s := by
  simp [answers, valDocShell, valViewShell, valDrawView, valDrawDoc, valItemSetFromSdrObject,
      valEmptyItemSet, valEmptyFillStyleItemSet, fillEmptyItemSet]

theorem answers_fillEmptyFillStyleItemSet (h : Host) (s : SdDialogsTest) :
    answers h (fillEmptyFillStyleItemSet h s) = answers h s := by
  simp [answers, valDocShell, valViewShell, valDrawView, valDrawDoc, valItemSetFromSdrObject,
      valEmptyItemSet, valEmptyFillStyleItemSet, fillEmptyFillStyleItemSet]


/-! ## Members that no getter touches -/

theorem fillDocShell_frame (h : Host) (s : SdDialogsTest) :
    (fillDocShell h s).mxComponent = s.mxComponent ∧ (fillDocShell h s).mpFact = s.mpFact ∧
      (fillDocShell h s).mpImpressDocument = s.mpImpressDocument := by
  simp [fillDocShell]

theorem fillViewShell_frame (h : Host) (s : SdDialogsTest) :
    (fillViewShell h s).mxComponent = s.mxComponent ∧ (fillViewShell h s).mpFact = s.mpFact ∧
      (fillViewShell h s).mpImpressDocument = s.mpImpressDocument := by
  cases h2 : s.mpViewShell <;> simp [fillViewShell, fillDocShell, h2]

theorem fillDrawView_frame (h : Host) (s : SdDialogsTest) :
    (fillDrawView h s).mxComponent = s.mxComponent ∧ (fillDrawView h s).mpFact = s.mpFact ∧
      (fillDrawView h s).mpImpressDocument = s.mpImpressDocument := by
  cases h3 : s.mpDrawView <;> simp [fillDrawView, fillViewShell_frame, h3]

theorem fillItemSetFromSdrObject_frame (h : Host) (s : SdDialogsTest) :
    (fillItemSetFromSdrObject h s).mxComponent = s.mxComponent ∧
      (fillItemSetFromSdrObject h s).mpFact = s.mpFact ∧
      (fillItemSetFromSdrObject h s).mpImpressDocument = s.mpImpressDocument := by
  simp [fillItemSetFromSdrObject]

theorem fillEmptyItemSet_frame (h : Host) (s : SdDialogsTest) :
    (fillEmptyItemSet h s).mxComponent = s.mxComponent ∧
      (fillEmptyItemSet h s).mpFact = s.mpFact ∧
      (fillEmptyItemSet h s).mpImpressDocument = s.mpImpressDocument := by
  simp [fillEmptyItemSet]

theorem fillEmptyFillStyleItemSet_frame (h : Host) (s : SdDialogsTest) :
    (fillEmptyFillStyleItemSet h s).mxComponent = s.mxComponent ∧
      (fillEmptyFillStyleItemSet h s).mpFact = s.mpFact ∧
      (fillEmptyFillStyleItemSet h s).mpImpressDocument = s.mpImpressDocument := by
  simp [fillEmptyFillStyleItemSet]

end SdDialogsTest
namespace SdDialogsTest

/-! ## No getter calls the factory -/

theorem getDocShell_calls (h : Host) (s : SdDialogsTest) :
    factoryCalls (getDocShell h s).trace = [] :=
  factoryCalls_of_traceAll
    (@getDocShell_traceAll h (fun e => e.factoryCall? = none)
      (fun _ => rfl) s)

theorem getViewShell_calls (h : Host) (s : SdDialogsTest) :
    factoryCalls (getViewShell h s).trace = [] :=
  factoryCalls_of_traceAll
    (@getViewShell_traceAll h (fun e => e.factoryCall? = none)
      (fun _ => rfl) (fun _ => rfl) s)

theorem getDrawView_calls (h : Host) (s : SdDialogsTest) :
    factoryCalls (getDrawView h s).trace = [] :=
  factoryCalls_of_traceAll
    (@getDrawView_traceAll h (fun e => e.factoryCall? = none)
      (fun _ => rfl) (fun _ => rfl) (fun _ => rfl) s)

theorem getDrawDoc_calls (h : Host) (s : SdDialogsTest) :
    factoryCalls (getDrawDoc h s).trace = [] :=
  factoryCalls_of_traceAll
    (@getDrawDoc_traceAll h (fun e => e.factoryCall? = none)
      (fun _ => rfl) s)

theorem getSfxItemSetFromSdrObject_calls (h : Host) (s : SdDialogsTest) :
    factoryCalls (getSfxItemSetFromSdrObject h s).trace = [] :=
  factoryCalls_of_traceAll
    (@getSfxItemSetFromSdrObject_traceAll h (fun e => e.factoryCall? = none)
      (fun _ => rfl) (fun _ => rfl) (fun _ => rfl) (fun _ => rfl) s)

theorem getEmptySfxItemSet_calls (h : Host) (s : SdDialogsTest) :
    factoryCalls (getEmptySfxItemSet h s).trace = [] :=
  factoryCalls_of_traceAll
    (@getEmptySfxItemSet_traceAll h (fun e => e.factoryCall? = none)
      (fun _ => rfl) (fun _ => rfl) s)

theorem getEmptyFillStyleSfxItemSet_calls (h : Host) (s : SdDialogsTest) :
    factoryCalls (getEmptyFillStyleSfxItemSet h s).trace = [] :=
  factoryCalls_of_traceAll
    (@getEmptyFillStyleSfxItemSet_traceAll h (fun e => e.factoryCall? = none)
      (fun _ => rfl) (fun _ => rfl) s)

theorem getFrameWeld_calls (h : Host) (s : SdDialogsTest) :
    factoryCalls (getFrameWeld h s).trace = [] :=
  factoryCalls_of_traceAll
    (@getFrameWeld_traceAll h (fun e => e.factoryCall? = none)
      (fun _ => rfl) (fun _ => rfl) (fun _ => rfl) s)

/-! ## What a run of `createDialogByID` amounts to -/

theorem val_eq_answers (h : Host) (s : SdDialogsTest) :
    valDocShell h s = (answers h s).docShell ∧ valViewShell h s = (answers h s).viewShell ∧
    valDrawView h s = (answers h s).drawView ∧ valDrawDoc h s = (answers h s).drawDoc ∧
    valItemSetFromSdrObject h s = (answers h s).itemSetFromSdrObject ∧
    valEmptyItemSet h s = (answers h s).emptyItemSet ∧
    valEmptyFillStyleItemSet h s = (answers h s).emptyFillStyleItemSet :=
  ⟨rfl, rfl, rfl, rfl, rfl, rfl, rfl⟩

theorem createDialogByID_default (h : Host) (s : SdDialogsTest) (nID : Nat) (hn : 22 ≤ nID) :
    createDialogByID h nID s = ⟨.ok none, s, []⟩ := by
  obtain ⟨k, rfl⟩ : ∃ k, nID = k + 22 := ⟨nID - 22, by omega⟩
  rcases s with ⟨c, f, d, ds, vs, dv, a, b, e⟩
  cases f <;> rfl

theorem createDialogByID_noFactory (h : Host) (s : SdDialogsTest) (nID : Nat)
    (hf : s.mpFact = none) :
    createDialogByID h nID s = ⟨.ok none, s, []⟩ := by
  simp [createDialogByID, bind_run, M.bind, getSdAbstractDialogFactory, hf]

theorem plannedCall_default (h : Host) (o : Answers) (nID : Nat) (hn : 22 ≤ nID) :
    plannedCall h o nID = .ok none := by
  obtain ⟨k, rfl⟩ : ∃ k, nID = k + 22 := ⟨nID - 22, by omega⟩
  rfl

set_option maxHeartbeats 1000000 in
theorem createDialogByID_out (h : Host) (s : SdDialogsTest) (f : SdAbstractDialogFactory)
    (nID : Nat) (hf : s.mpFact = some f) :
    (createDialogByID h nID s).out =
      (plannedCall h (answers h s) nID >>= fun c => .ok (c.bind (h.construct f))) := by
  by_cases hn : nID < 22
  · interval_cases nID <;>
    simp [createDialogByID, plannedCall, bind_out, getSdAbstractDialogFactory, hf,
      getDefDialogParent, callFactory, Answers.frameWeld,
      getDocShell_out, getDocShell_fix, getViewShell_out, getViewShell_fix,
      getDrawView_out, getDrawView_fix, getDrawDoc_out, getDrawDoc_fix,
      getSfxItemSetFromSdrObject_out, getSfxItemSetFromSdrObject_fix,
      getEmptySfxItemSet_out, getEmptySfxItemSet_fix,
      getEmptyFillStyleSfxItemSet_out, getEmptyFillStyleSfxItemSet_fix,
      getFrameWeld_out, getFrameWeld_fix, val_eq_answers,
      answers_fillDocShell, answers_fillViewShell, answers_fillDrawView,
      answers_fillItemSetFromSdrObject, answers_fillEmptyItemSet,
      answers_fillEmptyFillStyleItemSet,
      fillDocShell_frame, fillViewShell_frame, fillDrawView_frame,
      fillItemSetFromSdrObject_frame, fillEmptyItemSet_frame, fillEmptyFillStyleItemSet_frame]
  · rw [createDialogByID_default h s nID (by omega), plannedCall_default h _ nID (by omega)]
    rfl

set_option maxHeartbeats 1000000 in
theorem createDialogByID_calls (h : Host) (s : SdDialogsTest) (f : SdAbstractDialogFactory)
    (nID : Nat) (hf : s.mpFact = some f) :
    factoryCalls (createDialogByID h nID s).trace = callsOf (plannedCall h (answers h s) nID) := by
  by_cases hn : nID < 22
  · interval_cases nID <;>
    simp [createDialogByID, plannedCall, bind_out, bind_calls, getSdAbstractDialogFactory, hf,
      getDefDialogParent, callFactory, Answers.frameWeld, callsOf,
      getDocShell_out, getDocShell_fix, getViewShell_out, getViewShell_fix,
      getDrawView_out, getDrawView_fix, getDrawDoc_out, getDrawDoc_fix,
      getSfxItemSetFromSdrObject_out, getSfxItemSetFromSdrObject_fix,
      getEmptySfxItemSet_out, getEmptySfxItemSet_fix,
      getEmptyFillStyleSfxItemSet_out, getEmptyFillStyleSfxItemSet_fix,
      getFrameWeld_out, getFrameWeld_fix, val_eq_answers,
      getDocShell_calls, getViewShell_calls, getDrawView_calls, getDrawDoc_calls,
      getSfxItemSetFromSdrObject_calls, getEmptySfxItemSet_calls,
      getEmptyFillStyleSfxItemSet_calls, getFrameWeld_calls,
      Event.factoryCall?,
      answers_fillDocShell, answers_fillViewShell, answers_fillDrawView,
      answers_fillItemSetFromSdrObject, answers_fillEmptyItemSet,
      answers_fillEmptyFillStyleItemSet,
      fillDocShell_frame, fillViewShell_frame, fillDrawView_frame,
      fillItemSetFromSdrObject_frame, fillEmptyItemSet_frame, fillEmptyFillStyleItemSet_frame]
  · rw [createDialogByID_default h s nID (by omega), plannedCall_default h _ nID (by omega)]
    rfl

end SdDialogsTest
/-! ## Steps -/

section Steps

variable {α β : Type}

theorem keptOrFilled_refl (a : Option α) : keptOrFilled a a := Or.inl rfl

theorem keptOrFilled_none (a : Option α) : keptOrFilled none a := by
  cases a with
  | none => exact Or.inl rfl
  | some x => exact Or.inr ⟨rfl, by simp⟩

theorem keptOrFilled_trans {a b c : Option α} (hab : keptOrFilled a b) (hbc : keptOrFilled b c) :
    keptOrFilled a c := by
  rcases hab with rfl | ⟨rfl, hb⟩
  · exact hbc
  · exact keptOrFilled_none c

theorem keptOrFilled_cached (c : Option α) (o : Outcome α) :
    keptOrFilled c (Outcome.cached c o).toOption := by
  cases c with
  | none => exact keptOrFilled_none _
  | some p => exact Or.inl rfl

theorem grew_refl (s : SdDialogsTest) : Grew s s :=
  ⟨Or.inl rfl, Or.inl rfl, Or.inl rfl, Or.inl rfl, Or.inl rfl, Or.inl rfl⟩

theorem grew_trans {a b c : SdDialogsTest} (hab : Grew a b) (hbc : Grew b c) : Grew a c :=
  ⟨keptOrFilled_trans hab.1 hbc.1, keptOrFilled_trans hab.2.1 hbc.2.1,
    keptOrFilled_trans hab.2.2.1 hbc.2.2.1, keptOrFilled_trans hab.2.2.2.1 hbc.2.2.2.1,
    keptOrFilled_trans hab.2.2.2.2.1 hbc.2.2.2.2.1,
    keptOrFilled_trans hab.2.2.2.2.2 hbc.2.2.2.2.2⟩

theorem step_refl (h : Host) (s : SdDialogsTest) : Step h s s :=
  ⟨rfl, rfl, rfl, rfl, grew_refl s⟩

theorem step_trans {h : Host} {a b c : SdDialogsTest} (hab : Step h a b) (hbc : Step h b c) :
    Step h a c :=
  ⟨hbc.1.trans hab.1, hbc.2.1.trans hab.2.1, hbc.2.2.1.trans hab.2.2.1,
    hbc.2.2.2.1.trans hab.2.2.2.1, grew_trans hab.2.2.2.2 hbc.2.2.2.2⟩

theorem stays_bind {h : Host} {m : M α} {k : α → M β}
    (hm : Stays h m) (hk : ∀ a, Stays h (k a)) : Stays h (m >>= k) := by
  intro s
  rw [bind_fix]
  cases hout : (m s).out with
  | ok a => exact step_trans (hm s) (hk a _)
  | assertFailed => exact hm s
  | undefined => exact hm s

theorem stays_pure (h : Host) (a : α) : Stays h (pure a : M α) :=
  fun s => step_refl h s

theorem stays_readMember (h : Host) (f : SdDialogsTest → α) : Stays h (readMember f) :=
  fun s => step_refl h s

theorem stays_hostCall (h : Host) (e : Event) (v : α) : Stays h (hostCall e v) :=
  fun s => step_refl h s

theorem stays_assert (h : Host) (p : Option α) : Stays h (CPPUNIT_ASSERT p) := by
  intro s; rw [assert_fix]; exact step_refl h s

theorem stays_deref (h : Host) (p : Option α) : Stays h (deref p) := by
  intro s; rw [deref_fix]; exact step_refl h s

end Steps

namespace SdDialogsTest

theorem step_fillDocShell (h : Host) (s : SdDialogsTest) : Step h s (fillDocShell h s) := by
  refine ⟨(fillDocShell_frame h s).1, (fillDocShell_frame h s).2.1,
    (fillDocShell_frame h s).2.2, answers_fillDocShell h s, ?_⟩
  exact ⟨keptOrFilled_cached _ _, Or.inl rfl, Or.inl rfl, Or.inl rfl, Or.inl rfl, Or.inl rfl⟩

theorem step_fillViewShell (h : Host) (s : SdDialogsTest) : Step h s (fillViewShell h s) := by
  refine ⟨(fillViewShell_frame h s).1, (fillViewShell_frame h s).2.1,
    (fillViewShell_frame h s).2.2, answers_fillViewShell h s, ?_⟩
  cases hc : s.mpViewShell with
  | some p => simp only [fillViewShell, hc]; exact grew_refl s
  | none =>
    have hg := (step_fillDocShell h s).2.2.2.2
    simp only [fillViewShell, hc]
    refine ⟨hg.1, ?_, hg.2.2.1, hg.2.2.2.1, hg.2.2.2.2.1, hg.2.2.2.2.2⟩
    rw [hc]; exact keptOrFilled_none _

theorem step_fillDrawView (h : Host) (s : SdDialogsTest) : Step h s (fillDrawView h s) := by
  refine ⟨(fillDrawView_frame h s).1, (fillDrawView_frame h s).2.1,
    (fillDrawView_frame h s).2.2, answers_fillDrawView h s, ?_⟩
  cases hc : s.mpDrawView with
  | some p => simp only [fillDrawView, hc]; exact grew_refl s
  | none =>
    have hg := (step_fillViewShell h s).2.2.2.2
    simp only [fillDrawView, hc]
    refine ⟨hg.1, hg.2.1, ?_, hg.2.2.2.1, hg.2.2.2.2.1, hg.2.2.2.2.2⟩
    rw [hc]; exact keptOrFilled_none _

theorem step_fillItemSetFromSdrObject (h : Host) (s : SdDialogsTest) :
    Step h s (fillItemSetFromSdrObject h s) := by
  refine ⟨(fillItemSetFromSdrObject_frame h s).1, (fillItemSetFromSdrObject_frame h s).2.1,
    (fillItemSetFromSdrObject_frame h s).2.2, answers_fillItemSetFromSdrObject h s, ?_⟩
  exact ⟨Or.inl rfl, Or.inl rfl, Or.inl rfl, keptOrFilled_cached _ _, Or.inl rfl, Or.inl rfl⟩

theorem step_fillEmptyItemSet (h : Host) (s : SdDialogsTest) :
    Step h s (fillEmptyItemSet h s) := by
  refine ⟨(fillEmptyItemSet_frame h s).1, (fillEmptyItemSet_frame h s).2.1,
    (fillEmptyItemSet_frame h s).2.2, answers_fillEmptyItemSet h s, ?_⟩
  exact ⟨Or.inl rfl, Or.inl rfl, Or.inl rfl, Or.inl rfl, keptOrFilled_cached _ _, Or.inl rfl⟩

theorem step_fillEmptyFillStyleItemSet (h : Host) (s : SdDialogsTest) :
    Step h s (fillEmptyFillStyleItemSet h s) := by
  refine ⟨(fillEmptyFillStyleItemSet_frame h s).1, (fillEmptyFillStyleItemSet_frame h s).2.1,
    (fillEmptyFillStyleItemSet_frame h s).2.2, answers_fillEmptyFillStyleItemSet h s, ?_⟩
  exact ⟨Or.inl rfl, Or.inl rfl, Or.inl rfl, Or.inl rfl, Or.inl rfl, keptOrFilled_cached _ _⟩

theorem stays_getDocShell (h : Host) : Stays h (getDocShell h) := by
  intro s; rw [getDocShell_fix]; exact step_fillDocShell h s

theorem stays_getViewShell (h : Host) : Stays h (getViewShell h) := by
  intro s; rw [getViewShell_fix]; exact step_fillViewShell h s

theorem stays_getDrawView (h : Host) : Stays h (getDrawView h) := by
  intro s; rw [getDrawView_fix]; exact step_fillDrawView h s

theorem stays_getDrawDoc (h : Host) : Stays h (getDrawDoc h) := by
  intro s; rw [getDrawDoc_fix]; exact step_refl h s

theorem stays_getSfxItemSetFromSdrObject (h : Host) :
    Stays h (getSfxItemSetFromSdrObject h) := by
  intro s; rw [getSfxItemSetFromSdrObject_fix]; exact step_fillItemSetFromSdrObject h s

theorem stays_getEmptySfxItemSet (h : Host) : Stays h (getEmptySfxItemSet h) := by
  intro s; rw [getEmptySfxItemSet_fix]; exact step_fillEmptyItemSet h s

theorem stays_getEmptyFillStyleSfxItemSet (h : Host) :
    Stays h (getEmptyFillStyleSfxItemSet h) := by
  intro s; rw [getEmptyFillStyleSfxItemSet_fix]; exact step_fillEmptyFillStyleItemSet h s

theorem stays_getFrameWeld (h : Host) : Stays h (getFrameWeld h) := by
  intro s; rw [getFrameWeld_fix]; exact step_fillViewShell h s

theorem stays_getDefDialogParent (h : Host) : Stays h (getDefDialogParent h) :=
  fun s => step_refl h s

theorem stays_callFactory (h : Host) (f : SdAbstractDialogFactory) (c : FactoryCall) :
    Stays h (callFactory h f c) :=
  fun s => step_refl h s

theorem stays_createDialogByID (h : Host) (nID : Nat) : Stays h (createDialogByID h nID) := by
  unfold createDialogByID getSdAbstractDialogFactory
  refine stays_bind (stays_readMember h _) fun x => ?_
  cases x with
  | none => exact stays_pure h _
  | some f =>
    dsimp only
    split
    all_goals
      with_reducible repeat' first
        | exact stays_pure h _
        | exact stays_readMember h _
        | exact stays_hostCall h _ _
        | exact stays_assert h _
        | exact stays_deref h _
        | exact stays_getDocShell h
        | exact stays_getViewShell h
        | exact stays_getDrawView h
        | exact stays_getDrawDoc h
        | exact stays_getSfxItemSetFromSdrObject h
        | exact stays_getEmptySfxItemSet h
        | exact stays_getEmptyFillStyleSfxItemSet h
        | exact stays_getFrameWeld h
        | exact stays_getDefDialogParent h
        | exact stays_callFactory h _ _
        | refine stays_bind ?_ (fun _ => ?_)

end SdDialogsTest
namespace SdDialogsTest

/-! ## Lookups of `createDialogByID` -/

theorem afo_getDocShell (h : Host) : TraceAll asksFirstOnly (getDocShell h) :=
  getDocShell_traceAll h (fun _ => trivial)

theorem afo_getViewShell (h : Host) : TraceAll asksFirstOnly (getViewShell h) :=
  getViewShell_traceAll h (fun _ => trivial) (fun _ => trivial)

theorem afo_getDrawView (h : Host) : TraceAll asksFirstOnly (getDrawView h) :=
  getDrawView_traceAll h (fun _ => trivial) (fun _ => trivial) (fun _ => trivial)

theorem afo_getDrawDoc (h : Host) : TraceAll asksFirstOnly (getDrawDoc h) :=
  getDrawDoc_traceAll h (fun _ => trivial)

theorem afo_getSfxItemSetFromSdrObject (h : Host) :
    TraceAll asksFirstOnly (getSfxItemSetFromSdrObject h) :=
  getSfxItemSetFromSdrObject_traceAll h (fun _ => trivial) (fun _ => ⟨rfl, rfl⟩)
    (fun p => show asksFirstOnly (.GetObj p 0) from rfl) (fun _ => trivial)

theorem afo_getEmptySfxItemSet (h : Host) : TraceAll asksFirstOnly (getEmptySfxItemSet h) :=
  getEmptySfxItemSet_traceAll h (fun _ => trivial) (fun _ => trivial)

theorem afo_getEmptyFillStyleSfxItemSet (h : Host) :
    TraceAll asksFirstOnly (getEmptyFillStyleSfxItemSet h) :=
  getEmptyFillStyleSfxItemSet_traceAll h (fun _ => trivial) (fun _ => trivial)

theorem afo_getFrameWeld (h : Host) : TraceAll asksFirstOnly (getFrameWeld h) :=
  getFrameWeld_traceAll h (fun _ => trivial) (fun _ => trivial) (fun _ => trivial)

theorem afo_getDefDialogParent (h : Host) : TraceAll asksFirstOnly (getDefDialogParent h) :=
  traceAll_hostCall trivial _

theorem afo_callFactory (h : Host) (f : SdAbstractDialogFactory) (c : FactoryCall) :
    TraceAll asksFirstOnly (callFactory h f c) :=
  traceAll_hostCall trivial _

theorem afo_GetItemPool {α : Type} (d : SdDrawDocument) (v : α) :
    TraceAll asksFirstOnly (hostCall (.GetItemPool d) v) :=
  traceAll_hostCall trivial _

theorem afo_SdResId {α : Type} (r : ResId) (v : α) :
    TraceAll asksFirstOnly (hostCall (.SdResId r) v) :=
  traceAll_hostCall trivial _

theorem afo_getPresentationSettings {α : Type} (d : SdDrawDocument) (v : α) :
    TraceAll asksFirstOnly (hostCall (.getPresentationSettings d) v) :=
  traceAll_hostCall trivial _

theorem afo_GetStyleSheetPool {α : Type} (d : DrawDocShell) (v : α) :
    TraceAll asksFirstOnly (hostCall (.GetStyleSheetPool d) v) :=
  traceAll_hostCall trivial _

theorem afo_GetSdPage {α : Type} (d : SdDrawDocument) (v : α) :
    TraceAll asksFirstOnly (hostCall (.GetSdPage d 0 .Standard) v) :=
  traceAll_hostCall ⟨rfl, rfl⟩ _

theorem afo_GetObj {α : Type} (p : SdPage) (v : α) :
    TraceAll asksFirstOnly (hostCall (.GetObj p 0) v) :=
  traceAll_hostCall (show asksFirstOnly (.GetObj p 0) from rfl) _

theorem afo_First_Page {α : Type} (p : SfxStyleSheetBasePool) (v : α) :
    TraceAll asksFirstOnly (hostCall (.First p .Page) v) :=
  traceAll_hostCall (Or.inl rfl) _

theorem afo_First_Pseudo {α : Type} (p : SfxStyleSheetBasePool) (v : α) :
    TraceAll asksFirstOnly (hostCall (.First p .Pseudo) v) :=
  traceAll_hostCall (Or.inr rfl) _

theorem asksFirstOnly_createDialogByID (h : Host) (nID : Nat) :
    TraceAll asksFirstOnly (createDialogByID h nID) := by
  unfold createDialogByID getSdAbstractDialogFactory
  refine traceAll_bind (traceAll_readMember _) fun x => ?_
  cases x with
  | none => exact traceAll_pure _
  | some f =>
    dsimp only
    split
    all_goals
      with_reducible repeat' first
        | exact traceAll_pure _
        | exact traceAll_readMember _
        | exact traceAll_assert _
        | exact traceAll_deref _
        | exact afo_getDocShell h
        | exact afo_getViewShell h
        | exact afo_getDrawView h
        | exact afo_getDrawDoc h
        | exact afo_getSfxItemSetFromSdrObject h
        | exact afo_getEmptySfxItemSet h
        | exact afo_getEmptyFillStyleSfxItemSet h
        | exact afo_getFrameWeld h
        | exact afo_getDefDialogParent h
        | exact afo_callFactory h _ _
        | exact afo_GetItemPool _ _
        | exact afo_SdResId _ _
        | exact afo_getPresentationSettings _ _
        | exact afo_GetStyleSheetPool _ _
        | exact afo_GetSdPage _ _
        | exact afo_GetObj _ _
        | exact afo_First_Page _ _
        | exact afo_First_Pseudo _ _
        | refine traceAll_bind ?_ (fun _ => ?_)

/-! ## Set-up fixtures -/

theorem setUp_fix (h : Host) :
    (setUp h ctor).fix =
      { ctor with
        mpFact := h.Create
        mxComponent :=
          h.loadFromDesktop "private:factory/simpress"
            "com.sun.star.presentation.PresentationDocument"
        mpImpressDocument :=
          (h.loadFromDesktop "private:factory/simpress"
            "com.sun.star.presentation.PresentationDocument").bind h.asSdXImpressDocument } := by
  simp [setUp, bind_fix, bind_out, ctor]
  split <;> rfl

theorem setUp_out (h : Host) :
    (setUp h ctor).out =
      (Outcome.ofAssert ((h.loadFromDesktop "private:factory/simpress"
          "com.sun.star.presentation.PresentationDocument").bind h.asSdXImpressDocument) >>=
        fun _ => .ok ()) := by
  simp [setUp, bind_fix, bind_out, ctor]

theorem step_after (h : Host) (op : Op) (s : SdDialogsTest) : Step h s (op.after h s) := by
  cases op with
  | getDocShell => exact stays_getDocShell h s
  | getViewShell => exact stays_getViewShell h s
  | getDrawView => exact stays_getDrawView h s
  | getSfxItemSetFromSdrObject => exact stays_getSfxItemSetFromSdrObject h s
  | getEmptySfxItemSet => exact stays_getEmptySfxItemSet h s
  | getEmptyFillStyleSfxItemSet => exact stays_getEmptyFillStyleSfxItemSet h s
  | createDialogByID nID => exact stays_createDialogByID h nID s

theorem reach_inv (h : Host) (s : SdDialogsTest) (hr : Reach h s) :
    s.mpFact = h.Create ∧
    (∃ c, s.mxComponent = some c ∧
      h.loadFromDesktop "private:factory/simpress"
        "com.sun.star.presentation.PresentationDocument" = some c) ∧
    Coherent h s := by
  induction hr with
  | setUp hok =>
    rw [setUp_out] at hok
    rw [setUp_fix]
    cases hc : h.loadFromDesktop "private:factory/simpress"
        "com.sun.star.presentation.PresentationDocument" with
    | none => simp [hc] at hok
    | some c =>
      cases hd : h.asSdXImpressDocument c with
      | none => simp [hc, hd] at hok
      | some d =>
        refine ⟨rfl, ⟨c, rfl, rfl⟩, d, ?_, ?_⟩
        · simp [hd]
        · simp [hostAnswers, answers, valDocShell, valViewShell, valDrawView, valDrawDoc,
            valItemSetFromSdrObject, valEmptyItemSet, valEmptyFillStyleItemSet, ctor, hd]
  | @step op s0 hs ih =>
    have hstep := step_after h op s0
    obtain ⟨hf, ⟨c, hc, hl⟩, d, hd, ha⟩ := ih
    refine ⟨hstep.2.1.trans hf, ⟨c, hstep.1.trans hc, hl⟩, d, hstep.2.2.1.trans hd, ?_⟩
    rw [hstep.2.2.2.1, ha]

end SdDialogsTest
/-! ## Planned calls on a coherent fixture -/

theorem hostAnswers_eq (h : Host) (doc : SdXImpressDocument) :
    hostAnswers h doc =
      { docShell := Outcome.ofAssert (h.GetDocShell doc)
        viewShell := Outcome.ofAssert (h.GetDocShell doc) >>= fun s =>
          Outcome.ofAssert (h.GetViewShell s)
        drawView := Outcome.ofAssert (h.GetDocShell doc) >>= fun s =>
          Outcome.ofAssert (h.GetViewShell s) >>= fun v =>
            Outcome.ofAssert ((h.GetDrawView v).bind h.asDrawView)
        drawDoc := Outcome.ofAssert (h.GetDoc doc)
        itemSetFromSdrObject := Outcome.ofAssert (h.GetDoc doc) >>= fun d =>
          Outcome.ofAssert (h.GetSdPage d 0 .Standard) >>= fun p =>
            Outcome.ofAssert (h.GetObj p 0) >>= fun o =>
              .ok (SfxItemSet.copyOf (h.GetMergedItemSet o))
        emptyItemSet := Outcome.ofAssert (h.GetDoc doc) >>= fun d =>
          .ok (SfxItemSet.ofPool (h.GetItemPool d))
        emptyFillStyleItemSet := Outcome.ofAssert (h.GetDoc doc) >>= fun d =>
          .ok ((SfxItemSet.ofRange (h.GetItemPool d) .XATTR_FILL_FIRST .XATTR_FILL_LAST).Put
            (.XFillStyleItem .FillStyle_NONE)) } := by
  simp [hostAnswers, answers, valDocShell, valViewShell, valDrawView, valDrawDoc,
    valItemSetFromSdrObject, valEmptyItemSet, valEmptyFillStyleItemSet, SdDialogsTest.ctor]

theorem Outcome.ofAssert_match {α : Type} (p : Option α) :
    Outcome.ofAssert p = match p with
      | some a => Outcome.ok a
      | none => Outcome.assertFailed := by
  cases p <;> rfl

set_option maxHeartbeats 2000000 in
theorem plannedCall_dichotomy (h : Host) (doc : SdXImpressDocument) (nID : Nat)
    (hn : nID < 22) :
    ((∀ o ∈ needs nID, supplied h doc o = true) ∧
        ∃ c, plannedCall h (hostAnswers h doc) nID = .ok (some c)) ∨
      ((∃ o ∈ needs nID, supplied h doc o = false) ∧
        plannedCall h (hostAnswers h doc) nID = .assertFailed) := by
  rw [hostAnswers_eq]
  interval_cases nID
  all_goals simp only [plannedCall, Answers.frameWeld, Outcome.ofAssert_match]
  all_goals repeat' (split <;> (try simp only [Outcome.ok_bind, Outcome.assertFailed_bind]))
  all_goals simp_all [needs, supplied]

theorem Outcome.bind_eq_ok_iff {α β : Type} (x : Outcome α) (k : α → Outcome β) (b : β) :
    (x >>= k) = Outcome.ok b ↔ ∃ a, x = Outcome.ok a ∧ k a = Outcome.ok b := by
  cases x <;> simp

/-- The method of a planned call is the one the dispatch table lists. -/
theorem plannedCall_method (h : Host) (o : Answers) (nID : Nat) (hn : nID < 22)
    (x : Option FactoryCall) (hx : plannedCall h o nID = .ok x) :
    ∃ c, x = some c ∧ some c.method = claimedMethod nID := by
  interval_cases nID
  all_goals
    revert hx
    simp only [plannedCall, Answers.frameWeld, Outcome.bind_eq_ok_iff, Outcome.pure_eq,
      Outcome.ok.injEq, exists_imp, and_imp]
    intros
    subst_vars
    simp [FactoryCall.method, claimedMethod]

theorem callsOf_eq_cons {o : Outcome (Option FactoryCall)} {c : FactoryCall}
    (hc : c ∈ callsOf o) : o = .ok (some c) := by
  rcases o with (_ | a) | _ | _ <;> simp [callsOf, Outcome.fold] at hc
  rw [hc]

theorem mapType.find_mem_value (m : mapType) (path : String) (v : Nat)
    (hf : m.find path = some v) : v ∈ m.map Prod.snd := by
  induction m with
  | nil => simp [mapType.find] at hf
  | cons e rest ih =>
    rcases e with ⟨k0, v0⟩
    simp only [mapType.find] at hf
    split at hf
    · simp at hf; simp [hf]
    · simp [ih hf]

theorem registered_values :
    (SdDialogsTest.registerKnownDialogsByID []).map Prod.snd = List.range 22 := by
  decide

theorem registered_iff (nID : Nat) : registered nID ↔ nID < 22 := by
  constructor
  · rintro ⟨path, hp⟩
    have hm := mapType.find_mem_value _ _ _ hp
    rw [registered_values] at hm
    exact List.mem_range.1 hm
  · intro hn
    refine ⟨listedPaths.getD nID "", ?_⟩
    interval_cases nID <;> rfl

/-! ## Further lemmas for the claims -/

theorem mapType.find_mem_pair (m : mapType) (path : String) (v : Nat)
    (hf : m.find path = some v) : (path, v) ∈ m := by
  induction m with
  | nil => simp [mapType.find] at hf
  | cons e rest ih =>
    rcases e with ⟨k0, v0⟩
    simp only [mapType.find] at hf
    split at hf
    · rename_i hk
      simp at hf
      simp [hk, hf]
    · simp [ih hf]

theorem claimedMethod_index (i : Nat) (hi : i < 22) (m : FactoryMethod)
    (hm : claimedMethod i = some m) : m.toCtorIdx = i := by
  interval_cases i <;> simp only [claimedMethod, Option.some.injEq] at hm <;> subst hm <;> rfl

theorem Outcome.ofAssert_eq_ok {α : Type} (p : Option α) (a : α) :
    Outcome.ofAssert p = Outcome.ok a ↔ p = some a := by
  cases p <;> simp

namespace SdDialogsTest

theorem calls_planned (h : Host) (s : SdDialogsTest) (nID : Nat) (c : FactoryCall)
    (hc : c ∈ factoryCalls (createDialogByID h nID s).trace) :
    nID < 22 ∧ (∃ f, s.mpFact = some f) ∧ plannedCall h (answers h s) nID = .ok (some c) := by
  cases hf : s.mpFact with
  | none => rw [createDialogByID_noFactory h s nID hf] at hc; simp at hc
  | some f =>
    by_cases hn : nID < 22
    · rw [createDialogByID_calls h s f nID hf] at hc
      exact ⟨hn, ⟨f, rfl⟩, callsOf_eq_cons hc⟩
    · rw [createDialogByID_default h s nID (by omega)] at hc; simp at hc

theorem planned_copy (h : Host) (doc : SdXImpressDocument) (c : FactoryCall)
    (hc : plannedCall h (hostAnswers h doc) 1 = .ok (some c)) :
    ∃ w v d p o, h.GetDoc doc = some d ∧ h.GetSdPage d 0 .Standard = some p ∧
      h.GetObj p 0 = some o ∧
      c = .CreateCopyDlg w (SfxItemSet.copyOf (h.GetMergedItemSet o)) v := by
  rw [hostAnswers_eq] at hc
  simp only [plannedCall, Answers.frameWeld, Outcome.ofAssert_match] at hc
  repeat' (split at hc <;> (try simp only [Outcome.ok_bind, Outcome.assertFailed_bind] at hc))
  all_goals try simp_all
  all_goals
    subst_vars
    exact ⟨_, _, rfl⟩

theorem planned_morph (h : Host) (doc : SdXImpressDocument) (c : FactoryCall)
    (hc : plannedCall h (hostAnswers h doc) 9 = .ok (some c)) :
    ∃ w d p o, h.GetDoc doc = some d ∧ h.GetSdPage d 0 .Standard = some p ∧
      h.GetObj p 0 = some o ∧ c = .CreateMorphDlg w o o := by
  rw [hostAnswers_eq] at hc
  simp only [plannedCall, Answers.frameWeld, Outcome.ofAssert_match] at hc
  repeat' (split at hc <;> (try simp only [Outcome.ok_bind, Outcome.assertFailed_bind] at hc))
  all_goals try simp_all
  all_goals
    subst_vars
    exact ⟨_, rfl⟩

theorem planned_masterLayout (h : Host) (doc : SdXImpressDocument) (c : FactoryCall)
    (hc : plannedCall h (hostAnswers h doc) 20 = .ok (some c)) :
    ∃ w d p, h.GetDoc doc = some d ∧ h.GetSdPage d 0 .Standard = some p ∧
      c = .CreateMasterLayoutDialog w d p := by
  rw [hostAnswers_eq] at hc
  simp only [plannedCall, Answers.frameWeld, Outcome.ofAssert_match] at hc
  repeat' (split at hc <;> (try simp only [Outcome.ok_bind, Outcome.assertFailed_bind] at hc))
  all_goals try simp_all
  all_goals
    subst_vars
    exact ⟨_, rfl⟩

theorem planned_headerFooter (h : Host) (doc : SdXImpressDocument) (c : FactoryCall)
    (hc : plannedCall h (hostAnswers h doc) 21 = .ok (some c)) :
    ∃ v w d p, h.GetDoc doc = some d ∧ h.GetSdPage d 0 .Standard = some p ∧
      c = .CreateHeaderFooterDialog v w d p := by
  rw [hostAnswers_eq] at hc
  simp only [plannedCall, Answers.frameWeld, Outcome.ofAssert_match] at hc
  repeat' (split at hc <;> (try simp only [Outcome.ok_bind, Outcome.assertFailed_bind] at hc))
  all_goals try simp_all
  all_goals
    subst_vars
    exact ⟨_, _, rfl⟩

theorem planned_presLayoutTemplate (h : Host) (doc : SdXImpressDocument) (c : FactoryCall)
    (hc : plannedCall h (hostAnswers h doc) 14 = .ok (some c)) :
    ∃ w shell pool sheet, h.GetDocShell doc = some shell ∧
      h.GetStyleSheetPool shell = some pool ∧ h.First pool .Page = some sheet ∧
      c = .CreateSdPresLayoutTemplateDlg shell w false sheet .Title pool := by
  rw [hostAnswers_eq] at hc
  simp only [plannedCall, Answers.frameWeld, Outcome.ofAssert_match] at hc
  repeat' (split at hc <;> (try simp only [Outcome.ok_bind, Outcome.assertFailed_bind] at hc))
  all_goals try simp_all
  all_goals
    subst_vars
    exact ⟨_, rfl⟩

theorem planned_tabTemplate (h : Host) (doc : SdXImpressDocument) (c : FactoryCall)
    (hc : plannedCall h (hostAnswers h doc) 16 = .ok (some c)) :
    ∃ w d v shell pool sheet, h.GetDocShell doc = some shell ∧
      h.GetStyleSheetPool shell = some pool ∧ h.First pool .Pseudo = some sheet ∧
      c = .CreateSdTabTemplateDlg w shell sheet d v := by
  rw [hostAnswers_eq] at hc
  simp only [plannedCall, Answers.frameWeld, Outcome.ofAssert_match] at hc
  repeat' (split at hc <;> (try simp only [Outcome.ok_bind, Outcome.assertFailed_bind] at hc))
  all_goals try simp_all
  all_goals
    subst_vars
    exact ⟨_, _, _, rfl⟩

end SdDialogsTest
/-! ## The claims -/

namespace SdDialogsTest

/-- C1: `registerKnownDialogsByID` on an empty map yields exactly 22 entries; their keys are the
22 listed UI-description paths, their IDs are the integers 0 to 21 in this order, no path and
no ID occurs twice, so two paths with the same ID are the same path, and an ID is assigned
to some path exactly when it is below 22. -/
theorem registerKnownDialogsByID_dense :
    (registerKnownDialogsByID []).length = 22 ∧
    (registerKnownDialogsByID []).map Prod.fst = listedPaths ∧
    (registerKnownDialogsByID []).map Prod.snd = List.range 22 ∧
    listedPaths.Nodup ∧ (List.range 22).Nodup ∧
    (∀ p q id, (registerKnownDialogsByID []).find p = some id →
      (registerKnownDialogsByID []).find q = some id → p = q) ∧
    (∀ id, (∃ p, (registerKnownDialogsByID []).find p = some id) ↔ id < 22) := by
  have hkeys : (registerKnownDialogsByID []).map Prod.fst = listedPaths := by
    simp [registerKnownDialogsByID, mapType.assign, listedPaths]
  have hnd : ((registerKnownDialogsByID []).map Prod.snd).Nodup := by
    rw [registered_values]; exact List.nodup_range 22
  refine ⟨by simp [registerKnownDialogsByID, mapType.assign], hkeys, registered_values, ?_,
    List.nodup_range 22, ?_, fun id => registered_iff id⟩
  · simp [listedPaths]
  · intro p q id hp hq
    have h1 := mapType.find_mem_pair _ _ _ hp
    have h2 := mapType.find_mem_pair _ _ _ hq
    have := List.inj_on_of_nodup_map hnd h1 h2 rfl
    exact congrArg Prod.fst this

/-- C2: for every ID that `registerKnownDialogsByID` does not register, in any fixture state and
on any host, `createDialogByID` returns the empty dialog, no assertion fails, the trace is
empty (no factory method is called, the host is not asked) and the fixture is unchanged. -/
theorem createDialogByID_unregistered (h : Host) (s : SdDialogsTest) (nID : Nat)
    (hn : ¬ registered nID) :
    createDialogByID h nID s = ⟨.ok none, s, []⟩ :=
  createDialogByID_default h s nID (by
    have := (registered_iff nID).not.1 hn
    omega)

/-- ID 22 is not registered, and on the full host the call for it returns the empty dialog
and leaves the set-up fixture as it is. -/
theorem createDialogByID_unregistered_witness :
    ¬ registered 22 ∧
      createDialogByID fullHost 22 fullFixture = ⟨.ok none, fullFixture, []⟩ :=
  ⟨(registered_iff 22).not.2 (by decide),
    createDialogByID_unregistered fullHost fullFixture 22
      ((registered_iff 22).not.2 (by decide))⟩

/-- C3: on a set-up fixture with a dialog factory, when the host supplies every object the case
of a registered ID looks up and the factory's constructors return non-empty dialogs,
`createDialogByID` returns a non-empty dialog: it makes one factory call and returns that
call's result. -/
theorem createDialogByID_registered_nonempty (h : Host) (s : SdDialogsTest)
    (f : SdAbstractDialogFactory) (doc : SdXImpressDocument) (nID : Nat)
    (hs : Reach h s) (hf : s.mpFact = some f) (hd : s.mpImpressDocument = some doc)
    (hreg : registered nID)
    (hsup : ∀ o ∈ needs nID, supplied h doc o = true)
    (hcon : ∀ c, (h.construct f c).isSome = true) :
    ∃ c dlg, (createDialogByID h nID s).out = .ok (some dlg) ∧
      factoryCalls (createDialogByID h nID s).trace = [c] ∧
      h.construct f c = some dlg := by
  have hn := (registered_iff nID).1 hreg
  obtain ⟨_, _, d, hd2, ha⟩ := reach_inv h s hs
  have hdd : d = doc := by rw [hd] at hd2; exact (Option.some.inj hd2).symm
  subst hdd
  rcases plannedCall_dichotomy h d nID hn with ⟨_, c, hc⟩ | ⟨⟨o, ho, hfalse⟩, _⟩
  · obtain ⟨dlg, hdlg⟩ := Option.isSome_iff_exists.1 (hcon c)
    refine ⟨c, dlg, ?_, ?_, hdlg⟩
    · rw [createDialogByID_out h s f nID hf, ha, hc]; simp [hdlg]
    · rw [createDialogByID_calls h s f nID hf, ha, hc]; rfl
  · rw [hsup o ho] at hfalse; cases hfalse

/-- The full host supplies every object that the case of ID 16 looks up, and the call for ID 16
on its set-up fixture returns a non-empty dialog. -/
theorem createDialogByID_registered_nonempty_witness :
    Reach fullHost fullFixture ∧ registered 16 ∧
      (∀ o ∈ needs 16, supplied fullHost ⟨3⟩ o = true) ∧
      ∃ c dlg, (createDialogByID fullHost 16 fullFixture).out = .ok (some dlg) ∧
        factoryCalls (createDialogByID fullHost 16 fullFixture).trace = [c] ∧
        fullHost.construct ⟨1⟩ c = some dlg :=
  ⟨Reach.setUp rfl, (registered_iff 16).2 (by decide), by decide,
    createDialogByID_registered_nonempty fullHost fullFixture ⟨1⟩ ⟨3⟩ 16 (Reach.setUp rfl) rfl rfl
      ((registered_iff 16).2 (by decide)) (by decide) (fun _ => rfl)⟩

/-- C4, as the claim states it, fails: on a set-up fixture whose host has no dialog factory and
no document shell, the case of the registered ID 0 needs the document shell, which is
missing, and `createDialogByID` returns the empty dialog; no assertion fails. -/
theorem createDialogByID_missing_counterexample :
    Reach bareHost bareFixture ∧ bareFixture.mpImpressDocument = some ⟨3⟩ ∧ registered 0 ∧
      (∃ o ∈ needs 0, supplied bareHost ⟨3⟩ o = false) ∧
      (createDialogByID bareHost 0 bareFixture).out = .ok none ∧
      (createDialogByID bareHost 0 bareFixture).out ≠ .assertFailed :=
  ⟨Reach.setUp rfl, rfl, (registered_iff 0).2 (by decide), by decide, rfl, by decide⟩

/-- C4, amended: on a set-up fixture whose dialog factory is present, for every registered ID,
if any object that the ID's case looks up is missing on the host, `createDialogByID` ends in
an assertion failure, makes no factory call and so returns nothing, the empty dialog
included. -/
theorem createDialogByID_missing_asserts (h : Host) (s : SdDialogsTest)
    (f : SdAbstractDialogFactory) (doc : SdXImpressDocument) (nID : Nat)
    (hs : Reach h s) (hf : s.mpFact = some f) (hd : s.mpImpressDocument = some doc)
    (hreg : registered nID)
    (hmiss : ∃ o ∈ needs nID, supplied h doc o = false) :
    (createDialogByID h nID s).out = .assertFailed ∧
      factoryCalls (createDialogByID h nID s).trace = [] ∧
      (createDialogByID h nID s).out ≠ .ok none := by
  have hn := (registered_iff nID).1 hreg
  obtain ⟨_, _, d, hd2, ha⟩ := reach_inv h s hs
  have hdd : d = doc := by rw [hd] at hd2; exact (Option.some.inj hd2).symm
  subst hdd
  obtain ⟨o, ho, hfalse⟩ := hmiss
  rcases plannedCall_dichotomy h d nID hn with ⟨hall, _⟩ | ⟨_, hc⟩
  · rw [hall o ho] at hfalse; cases hfalse
  · have hout : (createDialogByID h nID s).out = .assertFailed := by
      rw [createDialogByID_out h s f nID hf, ha, hc]; rfl
    refine ⟨hout, ?_, ?_⟩
    · rw [createDialogByID_calls h s f nID hf, ha, hc]; rfl
    · rw [hout]; simp

/-- A host with a factory and without document shell: the call for ID 0 on its set-up fixture
ends in an assertion failure. -/
theorem createDialogByID_missing_asserts_witness :
    Reach shellLessHost shellLessFixture ∧ registered 0 ∧
      (∃ o ∈ needs 0, supplied shellLessHost ⟨3⟩ o = false) ∧
      (createDialogByID shellLessHost 0 shellLessFixture).out = .assertFailed ∧
      factoryCalls (createDialogByID shellLessHost 0 shellLessFixture).trace = [] ∧
      (createDialogByID shellLessHost 0 shellLessFixture).out ≠ .ok none :=
  ⟨Reach.setUp rfl, (registered_iff 0).2 (by decide), by decide,
    createDialogByID_missing_asserts shellLessHost shellLessFixture ⟨1⟩ ⟨3⟩ 0 (Reach.setUp rfl)
      rfl rfl ((registered_iff 0).2 (by decide)) (by decide)⟩

end SdDialogsTest
namespace SdDialogsTest

/-- C5, as the claim states it, fails without a dialog factory: on the set-up fixture of the
host whose `Create` returns null and whose document objects all exist, IDs 13 and 0 are
registered, every object their cases look up is supplied, yet the call returns the empty
dialog and makes no factory call. -/
theorem createDialogByID_dispatch_counterexample :
    registered 13 ∧ registered 0 ∧
    (∀ o ∈ needs 13, supplied factoryLessHost ⟨3⟩ o = true) ∧
    (∀ o ∈ needs 0, supplied factoryLessHost ⟨3⟩ o = true) ∧
    createDialogByID factoryLessHost 13 factoryLessFixture =
      ⟨.ok none, factoryLessFixture, []⟩ ∧
    createDialogByID factoryLessHost 0 factoryLessFixture =
      ⟨.ok none, factoryLessFixture, []⟩ ∧
    (¬ ∃ c, factoryCalls (createDialogByID factoryLessHost 13 factoryLessFixture).trace = [c]) ∧
    ¬ ∃ c, factoryCalls (createDialogByID factoryLessHost 0 factoryLessFixture).trace = [c] := by
  have e13 := createDialogByID_noFactory factoryLessHost factoryLessFixture 13 rfl
  have e0 := createDialogByID_noFactory factoryLessHost factoryLessFixture 0 rfl
  refine ⟨(registered_iff 13).2 (by decide), (registered_iff 0).2 (by decide), by decide,
    by decide, e13, e0, ?_, ?_⟩
  · rw [e13]; simp [factoryCalls]
  · rw [e0]; simp [factoryCalls]

/-- C5, amended: for every ID in 0..21, when the dialog factory is present and the call returns
(all its lookups succeeded), `createDialogByID` has made exactly one factory call, returns
that call's result unchanged, and the method called is the one the claim lists for the ID;
and whenever the call for this ID and the call for any ID `j`, in any state, invoke the same
factory method, `j` is this ID. -/
theorem createDialogByID_dispatch (h : Host) (s : SdDialogsTest) (f : SdAbstractDialogFactory)
    (nID : Nat) (r : Option VclAbstractDialog)
    (hn : nID < 22) (hf : s.mpFact = some f)
    (hr : (createDialogByID h nID s).out = .ok r) :
    (∃ c, factoryCalls (createDialogByID h nID s).trace = [c] ∧ r = h.construct f c ∧
      some c.method = claimedMethod nID) ∧
    (∀ (j : Nat) (s2 : SdDialogsTest) (c1 c2 : FactoryCall),
      c1 ∈ factoryCalls (createDialogByID h nID s).trace →
      c2 ∈ factoryCalls (createDialogByID h j s2).trace →
      c1.method = c2.method → nID = j) := by
  constructor
  · rw [createDialogByID_out h s f nID hf, Outcome.bind_eq_ok_iff] at hr
    obtain ⟨x, hx, hxr⟩ := hr
    obtain ⟨c, rfl, hm⟩ := plannedCall_method h _ nID hn x hx
    refine ⟨c, ?_, ?_, hm⟩
    · rw [createDialogByID_calls h s f nID hf, hx]; rfl
    · simp at hxr; exact hxr.symm
  · intro j s2 c1 c2 h1 h2 hm
    obtain ⟨_, _, hp1⟩ := calls_planned h s nID c1 h1
    obtain ⟨hj, _, hp2⟩ := calls_planned h s2 j c2 h2
    obtain ⟨d1, hd1, hm1⟩ := plannedCall_method h _ nID hn _ hp1
    obtain ⟨d2, hd2, hm2⟩ := plannedCall_method h _ j hj _ hp2
    cases hd1; cases hd2
    have e1 := claimedMethod_index nID hn _ hm1.symm
    have e2 := claimedMethod_index j hj _ hm2.symm
    rw [← e1, ← e2, hm]

/-- On the full host the call for ID 17 returns, after one call of `CreatSdActionDialog`. -/
theorem createDialogByID_dispatch_witness :
    (createDialogByID fullHost 17 fullFixture).out = .ok (some ⟨117⟩) ∧
    ((∃ c, factoryCalls (createDialogByID fullHost 17 fullFixture).trace = [c] ∧
        some ⟨117⟩ = fullHost.construct ⟨1⟩ c ∧ some c.method = claimedMethod 17) ∧
      (∀ (j : Nat) (s2 : SdDialogsTest) (c1 c2 : FactoryCall),
        c1 ∈ factoryCalls (createDialogByID fullHost 17 fullFixture).trace →
        c2 ∈ factoryCalls (createDialogByID fullHost j s2).trace →
        c1.method = c2.method → 17 = j)) :=
  ⟨rfl,
    createDialogByID_dispatch fullHost fullFixture ⟨1⟩ 17 (some ⟨117⟩) (by decide) rfl rfl⟩

theorem cachedReuse_of {α : Type} (get : M α) (cache : SdDialogsTest → Option α)
    (h1 : ∀ s p, cache s = some p → get s = ⟨.ok p, s, []⟩)
    (h2 : ∀ s p, (get s).out = .ok p → cache (get s).fix = some p) :
    CachedReuse get cache :=
  ⟨h1, fun s p hp => ⟨h2 s p hp, h1 _ p (h2 s p hp)⟩⟩

/-- C6: a freshly constructed fixture holds no cached value, and each of the six on-demand
getters is lazy with reuse: a call on a filled cache returns the cached object, asks the
host nothing and leaves the whole fixture unchanged; after a call that returned, the cache
holds the returned object, so a second call returns the same object and changes nothing. -/
theorem getters_lazy (h : Host) :
    (ctor.mpDocShell = none ∧ ctor.mpViewShell = none ∧ ctor.mpDrawView = none ∧
      ctor.mpSfxItemSetFromSdrObject = none ∧ ctor.mpEmptySfxItemSet = none ∧
      ctor.mpEmptyFillStyleSfxItemSet = none) ∧
    CachedReuse (getDocShell h) (·.mpDocShell) ∧
    CachedReuse (getViewShell h) (·.mpViewShell) ∧
    CachedReuse (getDrawView h) (·.mpDrawView) ∧
    CachedReuse (getSfxItemSetFromSdrObject h) (·.mpSfxItemSetFromSdrObject) ∧
    CachedReuse (getEmptySfxItemSet h) (·.mpEmptySfxItemSet) ∧
    CachedReuse (getEmptyFillStyleSfxItemSet h) (·.mpEmptyFillStyleSfxItemSet) := by
  refine ⟨⟨rfl, rfl, rfl, rfl, rfl, rfl⟩, ?_, ?_, ?_, ?_, ?_, ?_⟩
  · refine cachedReuse_of _ _ (fun s p hc => ?_) (fun s p hp => ?_)
    · simp only [] at hc
      simp [getDocShell, bind_run, M.bind, hc]
    · rw [getDocShell_out] at hp
      simp [getDocShell_fix, fillDocShell, hp]
  · refine cachedReuse_of _ _ (fun s p hc => ?_) (fun s p hp => ?_)
    · simp only [] at hc
      simp [getViewShell, bind_run, M.bind, hc]
    · rw [getViewShell_out] at hp
      cases hc : s.mpViewShell <;> simp_all [getViewShell_fix, fillViewShell, valViewShell]
  · refine cachedReuse_of _ _ (fun s p hc => ?_) (fun s p hp => ?_)
    · simp only [] at hc
      simp [getDrawView, bind_run, M.bind, hc]
    · rw [getDrawView_out] at hp
      cases hc : s.mpDrawView <;> simp_all [getDrawView_fix, fillDrawView, valDrawView]
  · refine cachedReuse_of _ _ (fun s p hc => ?_) (fun s p hp => ?_)
    · simp only [] at hc
      simp [getSfxItemSetFromSdrObject, bind_run, M.bind, hc]
    · rw [getSfxItemSetFromSdrObject_out] at hp
      simp [getSfxItemSetFromSdrObject_fix, fillItemSetFromSdrObject, hp]
  · refine cachedReuse_of _ _ (fun s p hc => ?_) (fun s p hp => ?_)
    · simp only [] at hc
      simp [getEmptySfxItemSet, bind_run, M.bind, hc]
    · rw [getEmptySfxItemSet_out] at hp
      simp [getEmptySfxItemSet_fix, fillEmptyItemSet, hp]
  · refine cachedReuse_of _ _ (fun s p hc => ?_) (fun s p hp => ?_)
    · simp only [] at hc
      simp [getEmptyFillStyleSfxItemSet, bind_run, M.bind, hc]
    · rw [getEmptyFillStyleSfxItemSet_out] at hp
      simp [getEmptyFillStyleSfxItemSet_fix, fillEmptyFillStyleItemSet, hp]

/-- On the full host `getDrawView` returns a draw view, caches it, and a second call returns it
again without changing the fixture. -/
theorem getters_lazy_witness :
    (getDrawView fullHost fullFixture).out = .ok ⟨7⟩ ∧
      (getDrawView fullHost fullFixture).fix.mpDrawView = some ⟨7⟩ ∧
      getDrawView fullHost (getDrawView fullHost fullFixture).fix =
        ⟨.ok ⟨7⟩, (getDrawView fullHost fullFixture).fix, []⟩ :=
  ⟨rfl, (getters_lazy fullHost).2.2.2.1.2 fullFixture ⟨7⟩ rfl⟩

/-- C7: on a set-up fixture, whatever getters and `createDialogByID` calls were made since
`setUp`, `tearDown` returns; afterwards the three attribute-set members are empty and the
other members are as before; the component that `setUp` loaded is disposed exactly once;
the three attribute sets are released first, in the order of the source, then the document
is disposed, and the base-class `tearDown` runs last. -/
theorem tearDown_releases (h : Host) (s : SdDialogsTest) (hs : Reach h s) :
    ∃ c, h.loadFromDesktop "private:factory/simpress"
        "com.sun.star.presentation.PresentationDocument" = some c ∧
      s.mxComponent = some c ∧
      tearDown s = ⟨.ok (), released s,
        [.reset .mpSfxItemSetFromSdrObject, .reset .mpEmptySfxItemSet,
          .reset .mpEmptyFillStyleSfxItemSet, .dispose c, .ScreenshotTest_tearDown]⟩ ∧
      (tearDown s).fix.mpSfxItemSetFromSdrObject = none ∧
      (tearDown s).fix.mpEmptySfxItemSet = none ∧
      (tearDown s).fix.mpEmptyFillStyleSfxItemSet = none ∧
      ((tearDown s).trace.filter fun e => e = .dispose c) = [.dispose c] := by
  obtain ⟨_, ⟨c, hc, hl⟩, _⟩ := reach_inv h s hs
  have ht : tearDown s = ⟨.ok (), released s,
      [.reset .mpSfxItemSetFromSdrObject, .reset .mpEmptySfxItemSet,
        .reset .mpEmptyFillStyleSfxItemSet, .dispose c, .ScreenshotTest_tearDown]⟩ := by
    simp [tearDown, bind_run, M.bind, hc, deref, released]
  refine ⟨c, hl, hc, ht, ?_, ?_, ?_, ?_⟩
  · rw [ht]; rfl
  · rw [ht]; rfl
  · rw [ht]; rfl
  · rw [ht]; simp [List.filter]

/-- The state after `createDialogByID 1` on the set-up fixture of the full host is reachable,
and `tearDown` releases it. -/
theorem tearDown_releases_witness :
    Reach fullHost ((Op.createDialogByID 1).after fullHost fullFixture) ∧
    ∃ c, fullHost.loadFromDesktop "private:factory/simpress"
        "com.sun.star.presentation.PresentationDocument" = some c ∧
      ((Op.createDialogByID 1).after fullHost fullFixture).mxComponent = some c ∧
      tearDown ((Op.createDialogByID 1).after fullHost fullFixture) =
        ⟨.ok (), released ((Op.createDialogByID 1).after fullHost fullFixture),
          [.reset .mpSfxItemSetFromSdrObject, .reset .mpEmptySfxItemSet,
            .reset .mpEmptyFillStyleSfxItemSet, .dispose c, .ScreenshotTest_tearDown]⟩ ∧
      (tearDown ((Op.createDialogByID 1).after fullHost fullFixture)).fix.mpSfxItemSetFromSdrObject
        = none ∧
      (tearDown ((Op.createDialogByID 1).after fullHost fullFixture)).fix.mpEmptySfxItemSet
        = none ∧
      (tearDown
        ((Op.createDialogByID 1).after fullHost fullFixture)).fix.mpEmptyFillStyleSfxItemSet
        = none ∧
      ((tearDown ((Op.createDialogByID 1).after fullHost fullFixture)).trace.filter
        fun e => e = .dispose c) = [.dispose c] :=
  ⟨Reach.step _ (Reach.setUp rfl),
    tearDown_releases fullHost _ (Reach.step _ (Reach.setUp rfl))⟩

/-- C8: the host being deterministic, for any two IDs `i` and `j` and any fixture state, the
factory calls (method and arguments) that `createDialogByID j` makes, and how it ends, are
the same whether `createDialogByID i` was run before it or not. -/
theorem createDialogByID_independent (h : Host) (s : SdDialogsTest) (i j : Nat) :
    factoryCalls (createDialogByID h j (createDialogByID h i s).fix).trace =
        factoryCalls (createDialogByID h j s).trace ∧
      (createDialogByID h j (createDialogByID h i s).fix).out =
        (createDialogByID h j s).out := by
  obtain ⟨_, hfact, _, hans, _⟩ := stays_createDialogByID h i s
  cases hf : s.mpFact with
  | none =>
    rw [createDialogByID_noFactory h s j hf,
      createDialogByID_noFactory h _ j (hfact.trans hf)]
    exact ⟨rfl, rfl⟩
  | some f =>
    rw [createDialogByID_calls h s f j hf, createDialogByID_out h s f j hf,
      createDialogByID_calls h _ f j (hfact.trans hf),
      createDialogByID_out h _ f j (hfact.trans hf), hans]
    exact ⟨rfl, rfl⟩

/-- C9: on a set-up fixture the representative inputs are the first available ones: the
attribute set of ID 1 is a copy of the merged item set of object 0 of standard page 0; ID 9
passes that object as both operands; IDs 20 and 21 pass standard page 0; ID 14 passes the
pool's first style sheet of family `Page`, ID 16 that of family `Pseudo`, the pool being
the document shell's; and every lookup of a page, an object or a style sheet that any ID
makes asks for index 0, kind `Standard`, or the pool's `First`. -/
theorem createDialogByID_firstAvailable (h : Host) (s : SdDialogsTest)
    (doc : SdXImpressDocument) (hs : Reach h s) (hd : s.mpImpressDocument = some doc) :
    FirstAvailable h s doc ∧
      ∀ nID, ∀ e ∈ (createDialogByID h nID s).trace, asksFirstOnly e := by
  obtain ⟨_, _, d, hd2, ha⟩ := reach_inv h s hs
  have hdd : d = doc := by rw [hd] at hd2; exact (Option.some.inj hd2).symm
  subst hdd
  refine ⟨⟨?_, ?_, ?_, ?_, ?_, ?_⟩, fun nID => asksFirstOnly_createDialogByID h nID s⟩
  · intro c hc
    exact planned_copy h d c (ha ▸ (calls_planned h s 1 c hc).2.2)
  · intro c hc
    exact planned_morph h d c (ha ▸ (calls_planned h s 9 c hc).2.2)
  · intro c hc
    exact planned_masterLayout h d c (ha ▸ (calls_planned h s 20 c hc).2.2)
  · intro c hc
    exact planned_headerFooter h d c (ha ▸ (calls_planned h s 21 c hc).2.2)
  · intro c hc
    exact planned_presLayoutTemplate h d c (ha ▸ (calls_planned h s 14 c hc).2.2)
  · intro c hc
    exact planned_tabTemplate h d c (ha ▸ (calls_planned h s 16 c hc).2.2)

/-- On the set-up fixture of the full host each of the six IDs makes its call: object 15 is
object 0 of standard page 14 of document model 13, sheets 25 and 26 are the first sheets of
families `Page` and `Pseudo` of pool 24. -/
theorem createDialogByID_firstAvailable_witness :
    Reach fullHost fullFixture ∧
    factoryCalls (createDialogByID fullHost 1 fullFixture).trace =
      [.CreateCopyDlg (some ⟨35⟩) (SfxItemSet.copyOf (fullHost.GetMergedItemSet ⟨15⟩)) ⟨7⟩] ∧
    factoryCalls (createDialogByID fullHost 9 fullFixture).trace =
      [.CreateMorphDlg (some ⟨40⟩) ⟨15⟩ ⟨15⟩] ∧
    factoryCalls (createDialogByID fullHost 14 fullFixture).trace =
      [.CreateSdPresLayoutTemplateDlg ⟨4⟩ (some ⟨40⟩) false ⟨25⟩ .Title ⟨24⟩] ∧
    factoryCalls (createDialogByID fullHost 16 fullFixture).trace =
      [.CreateSdTabTemplateDlg (some ⟨35⟩) ⟨4⟩ ⟨26⟩ ⟨13⟩ ⟨7⟩] ∧
    factoryCalls (createDialogByID fullHost 20 fullFixture).trace =
      [.CreateMasterLayoutDialog (some ⟨40⟩) ⟨13⟩ ⟨14⟩] ∧
    factoryCalls (createDialogByID fullHost 21 fullFixture).trace =
      [.CreateHeaderFooterDialog ⟨5⟩ (some ⟨40⟩) ⟨13⟩ ⟨14⟩] ∧
    FirstAvailable fullHost fullFixture ⟨3⟩ ∧
    ∀ nID, ∀ e ∈ (createDialogByID fullHost nID fullFixture).trace, asksFirstOnly e :=
  ⟨Reach.setUp rfl, rfl, rfl, rfl, rfl, rfl, rfl,
    createDialogByID_firstAvailable fullHost fullFixture ⟨3⟩ (Reach.setUp rfl) rfl⟩

/-- C10: for every ID, state and host, `createDialogByID` leaves the factory pointer, the
document pointer and the loaded component as they are; each of the six cached members keeps
its value or goes from empty to filled (so a filled one is never replaced or emptied);
and IDs 9, 12, 13, 19 and 20 leave the whole fixture unchanged. -/
theorem createDialogByID_frame (h : Host) (s : SdDialogsTest) (nID : Nat) :
    (createDialogByID h nID s).fix.mpFact = s.mpFact ∧
    (createDialogByID h nID s).fix.mpImpressDocument = s.mpImpressDocument ∧
    (createDialogByID h nID s).fix.mxComponent = s.mxComponent ∧
    keptOrFilled s.mpDocShell (createDialogByID h nID s).fix.mpDocShell ∧
    keptOrFilled s.mpViewShell (createDialogByID h nID s).fix.mpViewShell ∧
    keptOrFilled s.mpDrawView (createDialogByID h nID s).fix.mpDrawView ∧
    keptOrFilled s.mpSfxItemSetFromSdrObject
      (createDialogByID h nID s).fix.mpSfxItemSetFromSdrObject ∧
    keptOrFilled s.mpEmptySfxItemSet (createDialogByID h nID s).fix.mpEmptySfxItemSet ∧
    keptOrFilled s.mpEmptyFillStyleSfxItemSet
      (createDialogByID h nID s).fix.mpEmptyFillStyleSfxItemSet ∧
    (createDialogByID h 9 s).fix = s ∧ (createDialogByID h 12 s).fix = s ∧
    (createDialogByID h 13 s).fix = s ∧ (createDialogByID h 19 s).fix = s ∧
    (createDialogByID h 20 s).fix = s := by
  obtain ⟨hcomp, hfact, hdoc, _, hg⟩ := stays_createDialogByID h nID s
  refine ⟨hfact, hdoc, hcomp, hg.1, hg.2.1, hg.2.2.1, hg.2.2.2.1, hg.2.2.2.2.1, hg.2.2.2.2.2,
    ?_, ?_, ?_, ?_, ?_⟩
  all_goals
    cases hf : s.mpFact with
    | none => rw [createDialogByID_noFactory h s _ hf]
    | some f =>
      simp [createDialogByID, bind_fix_fold, bind_out, getSdAbstractDialogFactory, hf,
        getDefDialogParent, callFactory, getDrawDoc_out, getDrawDoc_fix]

end SdDialogsTest
/-! ## The shell caches along the life of a fixture -/

section Keeping

variable {α β : Type}

theorem keeps_bind {I : SdDialogsTest → Prop} {m : M α} {k : α → M β}
    (hm : Keeps I m) (hk : ∀ a, Keeps I (k a)) : Keeps I (m >>= k) := by
  intro s hs
  rw [bind_fix]
  cases hout : (m s).out with
  | ok a => exact hk a _ (hm s hs)
  | assertFailed => exact hm s hs
  | undefined => exact hm s hs

theorem keeps_pure (I : SdDialogsTest → Prop) (a : α) : Keeps I (pure a : M α) :=
  fun _ hs => hs

theorem keeps_readMember (I : SdDialogsTest → Prop) (f : SdDialogsTest → α) :
    Keeps I (readMember f) :=
  fun _ hs => hs

theorem keeps_hostCall (I : SdDialogsTest → Prop) (e : Event) (v : α) :
    Keeps I (hostCall e v) :=
  fun _ hs => hs

theorem keeps_assert (I : SdDialogsTest → Prop) (p : Option α) : Keeps I (CPPUNIT_ASSERT p) := by
  intro s hs; rw [assert_fix]; exact hs

theorem keeps_deref (I : SdDialogsTest → Prop) (p : Option α) : Keeps I (deref p) := by
  intro s hs; rw [deref_fix]; exact hs

end Keeping

namespace SdDialogsTest

theorem lifeInv_fillDocShell (h : Host) (s : SdDialogsTest) (hs : LifeInv h s) :
    LifeInv h (fillDocShell h s) := by
  rcases s with ⟨c, f, d, ds, vs, dv, a, b, e⟩
  obtain ⟨hd, h1, h2, h3⟩ := hs
  refine ⟨hd, ?_, ?_, h3⟩
  · intro p hp
    cases ds with
    | some q => exact h1 p (by simpa [fillDocShell, valDocShell] using hp)
    | none =>
      cases d with
      | none => simp [fillDocShell, valDocShell] at hp
      | some d0 => exact ⟨d0, rfl, by simpa [fillDocShell, valDocShell] using hp⟩
  · intro v hv
    obtain ⟨p, hp, hpv⟩ := h2 v hv
    refine ⟨p, ?_, hpv⟩
    simp only at hp
    simp [fillDocShell, valDocShell, hp]

theorem lifeInv_fillViewShell (h : Host) (s : SdDialogsTest) (hs : LifeInv h s) :
    LifeInv h (fillViewShell h s) := by
  cases hc : s.mpViewShell with
  | some v => simp only [fillViewShell, hc]; exact hs
  | none =>
    have hds := lifeInv_fillDocShell h s hs
    obtain ⟨hd, h1, h2, h3⟩ := hds
    simp only [fillViewShell, hc]
    refine ⟨hd, h1, ?_, ?_⟩
    · intro v hv
      simp only [valViewShell, hc, Outcome.cached_none] at hv
      simp only [fillDocShell]
      cases hval : valDocShell h s with
      | ok p =>
        refine ⟨p, rfl, ?_⟩
        simpa [hval] using hv
      | assertFailed => simp [hval] at hv
      | undefined => simp [hval] at hv
    · intro w hw
      obtain ⟨v, hv, _⟩ := hs.2.2.2 w hw
      rw [hc] at hv; cases hv

theorem lifeInv_fillDrawView (h : Host) (s : SdDialogsTest) (hs : LifeInv h s) :
    LifeInv h (fillDrawView h s) := by
  cases hc : s.mpDrawView with
  | some v => simp only [fillDrawView, hc]; exact hs
  | none =>
    have hvs := lifeInv_fillViewShell h s hs
    obtain ⟨hd, h1, h2, h3⟩ := hvs
    simp only [fillDrawView, hc]
    refine ⟨hd, h1, h2, ?_⟩
    intro w hw
    simp only [valDrawView, hc, Outcome.cached_none] at hw
    cases hval : valViewShell h s with
    | ok v =>
      refine ⟨v, ?_, by simpa [hval] using hw⟩
      cases hv : s.mpViewShell with
      | some v0 =>
        have hvv : v0 = v := by simpa [valViewShell, hv] using hval
        subst hvv
        simp [fillViewShell, hv]
      | none => simp [fillViewShell, hv, hval]
    | assertFailed => simp [hval] at hw
    | undefined => simp [hval] at hw

theorem lifeInv_fillItemSetFromSdrObject (h : Host) (s : SdDialogsTest) (hs : LifeInv h s) :
    LifeInv h (fillItemSetFromSdrObject h s) := hs

theorem lifeInv_fillEmptyItemSet (h : Host) (s : SdDialogsTest) (hs : LifeInv h s) :
    LifeInv h (fillEmptyItemSet h s) := hs

theorem lifeInv_fillEmptyFillStyleItemSet (h : Host) (s : SdDialogsTest) (hs : LifeInv h s) :
    LifeInv h (fillEmptyFillStyleItemSet h s) := hs

theorem keeps_getDocShell (h : Host) : Keeps (LifeInv h) (getDocShell h) := by
  intro s hs; rw [getDocShell_fix]; exact lifeInv_fillDocShell h s hs

theorem keeps_getViewShell (h : Host) : Keeps (LifeInv h) (getViewShell h) := by
  intro s hs; rw [getViewShell_fix]; exact lifeInv_fillViewShell h s hs

theorem keeps_getDrawView (h : Host) : Keeps (LifeInv h) (getDrawView h) := by
  intro s hs; rw [getDrawView_fix]; exact lifeInv_fillDrawView h s hs

theorem keeps_getDrawDoc (h : Host) : Keeps (LifeInv h) (getDrawDoc h) := by
  intro s hs; rw [getDrawDoc_fix]; exact hs

theorem keeps_getSfxItemSetFromSdrObject (h : Host) :
    Keeps (LifeInv h) (getSfxItemSetFromSdrObject h) := by
  intro s hs; rw [getSfxItemSetFromSdrObject_fix]
  exact lifeInv_fillItemSetFromSdrObject h s hs

theorem keeps_getEmptySfxItemSet (h : Host) : Keeps (LifeInv h) (getEmptySfxItemSet h) := by
  intro s hs; rw [getEmptySfxItemSet_fix]; exact lifeInv_fillEmptyItemSet h s hs

theorem keeps_getEmptyFillStyleSfxItemSet (h : Host) :
    Keeps (LifeInv h) (getEmptyFillStyleSfxItemSet h) := by
  intro s hs; rw [getEmptyFillStyleSfxItemSet_fix]
  exact lifeInv_fillEmptyFillStyleItemSet h s hs

theorem keeps_getFrameWeld (h : Host) : Keeps (LifeInv h) (getFrameWeld h) := by
  intro s hs; rw [getFrameWeld_fix]; exact lifeInv_fillViewShell h s hs

theorem keeps_getDefDialogParent (h : Host) : Keeps (LifeInv h) (getDefDialogParent h) :=
  fun _ hs => hs

theorem keeps_callFactory (h : Host) (f : SdAbstractDialogFactory) (c : FactoryCall) :
    Keeps (LifeInv h) (callFactory h f c) :=
  fun _ hs => hs

theorem keeps_createDialogByID (h : Host) (nID : Nat) :
    Keeps (LifeInv h) (createDialogByID h nID) := by
  unfold createDialogByID getSdAbstractDialogFactory
  refine keeps_bind (keeps_readMember _ _) fun x => ?_
  cases x with
  | none => exact keeps_pure _ _
  | some f =>
    dsimp only
    split
    all_goals
      with_reducible repeat' first
        | exact keeps_pure _ _
        | exact keeps_readMember _ _
        | exact keeps_hostCall _ _ _
        | exact keeps_assert _ _
        | exact keeps_deref _ _
        | exact keeps_getDocShell h
        | exact keeps_getViewShell h
        | exact keeps_getDrawView h
        | exact keeps_getDrawDoc h
        | exact keeps_getSfxItemSetFromSdrObject h
        | exact keeps_getEmptySfxItemSet h
        | exact keeps_getEmptyFillStyleSfxItemSet h
        | exact keeps_getFrameWeld h
        | exact keeps_getDefDialogParent h
        | exact keeps_callFactory h _ _
        | refine keeps_bind ?_ (fun _ => ?_)

theorem setUp_fix_any (h : Host) (s : SdDialogsTest) :
    (setUp h s).fix =
      { s with
        mpFact := h.Create
        mxComponent :=
          h.loadFromDesktop "private:factory/simpress"
            "com.sun.star.presentation.PresentationDocument"
        mpImpressDocument := hostDoc h } := by
  simp [setUp, bind_fix, bind_out, hostDoc]
  split <;> rfl

theorem tearDown_fix (s : SdDialogsTest) : (tearDown s).fix = released s := by
  cases hc : s.mxComponent <;> simp [tearDown, bind_run, M.bind, hc, deref, released]

theorem lifeInv_setUp (h : Host) (s : SdDialogsTest) (hs : LifeInv h s) :
    LifeInv h (setUp h s).fix := by
  rw [setUp_fix_any]
  obtain ⟨hd, h1, h2, h3⟩ := hs
  refine ⟨Or.inr rfl, ?_, h2, h3⟩
  intro p hp
  obtain ⟨d, hdd, hg⟩ := h1 p hp
  refine ⟨d, ?_, hg⟩
  rcases hd with hd | hd
  · rw [hd] at hdd; cases hdd
  · show hostDoc h = some d
    rw [← hd, hdd]

theorem lifeInv_tearDown (h : Host) (s : SdDialogsTest) (hs : LifeInv h s) :
    LifeInv h (tearDown s).fix := by
  rw [tearDown_fix]; exact hs

theorem lifeInv_after (h : Host) (c : Call) (s : SdDialogsTest) (hs : LifeInv h s) :
    LifeInv h (c.after h s) := by
  cases c with
  | setUp => exact lifeInv_setUp h s hs
  | tearDown => exact lifeInv_tearDown h s hs
  | op o =>
    cases o with
    | getDocShell => exact keeps_getDocShell h s hs
    | getViewShell => exact keeps_getViewShell h s hs
    | getDrawView => exact keeps_getDrawView h s hs
    | getSfxItemSetFromSdrObject => exact keeps_getSfxItemSetFromSdrObject h s hs
    | getEmptySfxItemSet => exact keeps_getEmptySfxItemSet h s hs
    | getEmptyFillStyleSfxItemSet => exact keeps_getEmptyFillStyleSfxItemSet h s hs
    | createDialogByID nID => exact keeps_createDialogByID h nID s hs

theorem lifecycle_inv (h : Host) (s : SdDialogsTest) (hl : Lifecycle h s) : LifeInv h s := by
  induction hl with
  | ctor =>
    refine ⟨Or.inl rfl, ?_, ?_, ?_⟩ <;> intro x hx <;> cases hx
  | @call c s0 _ _ ih => exact lifeInv_after h c s0 ih

end SdDialogsTest

/-! ## The example IDs, the factory guard, the shell chain and the presentation set -/

namespace SdDialogsTest

theorem store_nil (w : WhichId) (v : Option SfxPoolItem) :
    SfxItemSet.store [] w v = [(w, v)] := rfl

theorem store_cons_ne (l : List (WhichId × Option SfxPoolItem)) (w0 w : WhichId)
    (v0 v : Option SfxPoolItem) (hne : w0 ≠ w) :
    SfxItemSet.store ((w0, v0) :: l) w v = (w0, v0) :: SfxItemSet.store l w v := by
  simp [SfxItemSet.store, hne]

theorem lookup_head (l : List (WhichId × Option SfxPoolItem)) (w : WhichId)
    (v : Option SfxPoolItem) : List.lookup w ((w, v) :: l) = some v := by
  simp [List.lookup]

theorem lookup_tail (l : List (WhichId × Option SfxPoolItem)) (w0 w : WhichId)
    (v : Option SfxPoolItem) (hne : w ≠ w0) :
    List.lookup w ((w0, v) :: l) = List.lookup w l := by
  have hb : (w == w0) = false := by simpa using hne
  simp [List.lookup, hb]

theorem puts_eq (pool : SfxItemPool) (st : PresentationSettings) :
    ((((((((((((((((SfxItemSet.ofRange pool .ATTR_PRESENT_START .ATTR_PRESENT_END).Put
      (.SfxBoolItem .ATTR_PRESENT_ALL st.mbAll)).Put
      (.SfxBoolItem .ATTR_PRESENT_CUSTOMSHOW st.mbCustomShow)).Put
      (.SfxStringItem .ATTR_PRESENT_DIANAME "")).Put
      (.SfxBoolItem .ATTR_PRESENT_ENDLESS st.mbEndless)).Put
      (.SfxBoolItem .ATTR_PRESENT_MANUEL st.mbManual)).Put
      (.SfxBoolItem .ATTR_PRESENT_MOUSE st.mbMouseVisible)).Put
      (.SfxBoolItem .ATTR_PRESENT_PEN st.mbMouseAsPen)).Put
      (.SfxBoolItem .ATTR_PRESENT_ANIMATION_ALLOWED st.mbAnimationAllowed)).Put
      (.SfxBoolItem .ATTR_PRESENT_CHANGE_PAGE (!st.mbLockedPages))).Put
      (.SfxBoolItem .ATTR_PRESENT_ALWAYS_ON_TOP st.mbAlwaysOnTop)).Put
      (.SfxBoolItem .ATTR_PRESENT_FULLSCREEN st.mbFullScreen)).Put
      (.SfxUInt32Item .ATTR_PRESENT_PAUSE_TIMEOUT (toUInt32 st.mnPauseTimeout))).Put
      (.SfxBoolItem .ATTR_PRESENT_SHOW_PAUSELOGO st.mbShowPauseLogo)).Put
      (.SfxBoolItem .ATTR_PRESENT_INTERACTIVE st.mbInteractive)).Put
      (.SfxInt32Item .ATTR_PRESENT_DISPLAY 0)) =
    ⟨pool, some (.ATTR_PRESENT_START, .ATTR_PRESENT_END),
      [(.ATTR_PRESENT_ALL, some (.SfxBoolItem .ATTR_PRESENT_ALL st.mbAll)),
        (.ATTR_PRESENT_CUSTOMSHOW, some (.SfxBoolItem .ATTR_PRESENT_CUSTOMSHOW st.mbCustomShow)),
        (.ATTR_PRESENT_DIANAME, some (.SfxStringItem .ATTR_PRESENT_DIANAME "")),
        (.ATTR_PRESENT_ENDLESS, some (.SfxBoolItem .ATTR_PRESENT_ENDLESS st.mbEndless)),
        (.ATTR_PRESENT_MANUEL, some (.SfxBoolItem .ATTR_PRESENT_MANUEL st.mbManual)),
        (.ATTR_PRESENT_MOUSE, some (.SfxBoolItem .ATTR_PRESENT_MOUSE st.mbMouseVisible)),
        (.ATTR_PRESENT_PEN, some (.SfxBoolItem .ATTR_PRESENT_PEN st.mbMouseAsPen)),
        (.ATTR_PRESENT_ANIMATION_ALLOWED,
          some (.SfxBoolItem .ATTR_PRESENT_ANIMATION_ALLOWED st.mbAnimationAllowed)),
        (.ATTR_PRESENT_CHANGE_PAGE,
          some (.SfxBoolItem .ATTR_PRESENT_CHANGE_PAGE (!st.mbLockedPages))),
        (.ATTR_PRESENT_ALWAYS_ON_TOP,
          some (.SfxBoolItem .ATTR_PRESENT_ALWAYS_ON_TOP st.mbAlwaysOnTop)),
        (.ATTR_PRESENT_FULLSCREEN, some (.SfxBoolItem .ATTR_PRESENT_FULLSCREEN st.mbFullScreen)),
        (.ATTR_PRESENT_PAUSE_TIMEOUT,
          some (.SfxUInt32Item .ATTR_PRESENT_PAUSE_TIMEOUT (toUInt32 st.mnPauseTimeout))),
        (.ATTR_PRESENT_SHOW_PAUSELOGO,
          some (.SfxBoolItem .ATTR_PRESENT_SHOW_PAUSELOGO st.mbShowPauseLogo)),
        (.ATTR_PRESENT_INTERACTIVE,
          some (.SfxBoolItem .ATTR_PRESENT_INTERACTIVE st.mbInteractive)),
        (.ATTR_PRESENT_DISPLAY, some (.SfxInt32Item .ATTR_PRESENT_DISPLAY 0))]⟩ := by
  simp only [SfxItemSet.ofRange, SfxItemSet.Put, SfxPoolItem.Which, store_nil, store_cons_ne,
    ne_eq, reduceCtorEq, not_false_eq_true]

theorem isConvertedPresentationSet_literal (pool : SfxItemPool) (st : PresentationSettings) :
    IsConvertedPresentationSet
      ⟨pool, some (.ATTR_PRESENT_START, .ATTR_PRESENT_END),
      [(.ATTR_PRESENT_ALL, some (.SfxBoolItem .ATTR_PRESENT_ALL st.mbAll)),
        (.ATTR_PRESENT_CUSTOMSHOW, some (.SfxBoolItem .ATTR_PRESENT_CUSTOMSHOW st.mbCustomShow)),
        (.ATTR_PRESENT_DIANAME, some (.SfxStringItem .ATTR_PRESENT_DIANAME "")),
        (.ATTR_PRESENT_ENDLESS, some (.SfxBoolItem .ATTR_PRESENT_ENDLESS st.mbEndless)),
        (.ATTR_PRESENT_MANUEL, some (.SfxBoolItem .ATTR_PRESENT_MANUEL st.mbManual)),
        (.ATTR_PRESENT_MOUSE, some (.SfxBoolItem .ATTR_PRESENT_MOUSE st.mbMouseVisible)),
        (.ATTR_PRESENT_PEN, some (.SfxBoolItem .ATTR_PRESENT_PEN st.mbMouseAsPen)),
        (.ATTR_PRESENT_ANIMATION_ALLOWED,
          some (.SfxBoolItem .ATTR_PRESENT_ANIMATION_ALLOWED st.mbAnimationAllowed)),
        (.ATTR_PRESENT_CHANGE_PAGE,
          some (.SfxBoolItem .ATTR_PRESENT_CHANGE_PAGE (!st.mbLockedPages))),
        (.ATTR_PRESENT_ALWAYS_ON_TOP,
          some (.SfxBoolItem .ATTR_PRESENT_ALWAYS_ON_TOP st.mbAlwaysOnTop)),
        (.ATTR_PRESENT_FULLSCREEN, some (.SfxBoolItem .ATTR_PRESENT_FULLSCREEN st.mbFullScreen)),
        (.ATTR_PRESENT_PAUSE_TIMEOUT,
          some (.SfxUInt32Item .ATTR_PRESENT_PAUSE_TIMEOUT (toUInt32 st.mnPauseTimeout))),
        (.ATTR_PRESENT_SHOW_PAUSELOGO,
          some (.SfxBoolItem .ATTR_PRESENT_SHOW_PAUSELOGO st.mbShowPauseLogo)),
        (.ATTR_PRESENT_INTERACTIVE,
          some (.SfxBoolItem .ATTR_PRESENT_INTERACTIVE st.mbInteractive)),
        (.ATTR_PRESENT_DISPLAY, some (.SfxInt32Item .ATTR_PRESENT_DISPLAY 0))]⟩ st := by
  simp only [IsConvertedPresentationSet, HoldsPresentation, SfxItemSet.slot, lookup_head,
    lookup_tail, ne_eq, reduceCtorEq, not_false_eq_true, List.length_cons, List.length_nil,
    and_self]

theorem planned_startPresentation (h : Host) (o : Answers) (dd : SdDrawDocument)
    (ho : o.drawDoc = .ok dd) :
    ∃ a, plannedCall h o 12 =
        .ok (some (.CreateSdStartPresentationDlg h.GetDefDialogParent a [] none)) ∧
      a.pool = h.GetItemPool dd ∧
      a.ranges = some (.ATTR_PRESENT_START, .ATTR_PRESENT_END) ∧
      IsConvertedPresentationSet a (h.getPresentationSettings dd) := by
  simp only [plannedCall, ho, Outcome.ok_bind, puts_eq]
  exact ⟨_, rfl, rfl, rfl, isConvertedPresentationSet_literal _ _⟩

theorem startPresentation_call (h : Host) (s : SdDialogsTest)
    (f : SdAbstractDialogFactory) (d : SdXImpressDocument) (dd : SdDrawDocument)
    (hf : s.mpFact = some f) (hd : s.mpImpressDocument = some d)
    (hdd : h.GetDoc d = some dd) :
    ∃ a, factoryCalls (createDialogByID h 12 s).trace =
        [.CreateSdStartPresentationDlg h.GetDefDialogParent a [] none] ∧
      (createDialogByID h 12 s).out =
        .ok (h.construct f (.CreateSdStartPresentationDlg h.GetDefDialogParent a [] none)) ∧
      a.pool = h.GetItemPool dd ∧
      a.ranges = some (.ATTR_PRESENT_START, .ATTR_PRESENT_END) ∧
      IsConvertedPresentationSet a (h.getPresentationSettings dd) := by
  have ho : (answers h s).drawDoc = .ok dd := by
    simp [answers, valDrawDoc, hd, hdd]
  obtain ⟨a, hp, ha⟩ := planned_startPresentation h (answers h s) dd ho
  refine ⟨a, ?_, ?_, ha⟩
  · rw [createDialogByID_calls h s f 12 hf, hp]; rfl
  · rw [createDialogByID_out h s f 12 hf, hp]; rfl

theorem toUInt32_of_fits (t : Int) (h0 : 0 ≤ t) (h1 : t < 4294967296) :
    (toUInt32 t : Int) = t := by
  unfold toUInt32
  rw [Int.emod_eq_of_lt h0 h1]
  exact Int.toNat_of_nonneg h0

theorem isPresentationSet_of_fits (a : SfxItemSet) (st : PresentationSettings)
    (ha : IsConvertedPresentationSet a st) (h0 : 0 ≤ st.mnPauseTimeout)
    (h1 : st.mnPauseTimeout < 4294967296) : IsPresentationSet a st :=
  ⟨toUInt32 st.mnPauseTimeout, toUInt32_of_fits _ h0 h1, ha⟩

theorem not_isPresentationSet_of_negative (a : SfxItemSet) (st : PresentationSettings)
    (hneg : st.mnPauseTimeout < 0) : ¬ IsPresentationSet a st := by
  rintro ⟨n, hn, _⟩
  have := Int.ofNat_nonneg n
  omega

/-- C11: the example in `openAnyDialog` names ID 5 as the draw-page dialog and ID 22 as the
header/footer dialog, but the table and the switch have them one lower.  The draw-page path
is registered as 4 and the header/footer path as 21; ID 5 is the field dialog path and ID 22
is not registered.  On any host and fixture every factory call of `createDialogByID 5` is
`CreateSdModifyFieldDlg`, and `createDialogByID 22` returns the empty dialog without asking
anything; the page tab dialog and the header/footer dialog are built by IDs 4 and 21. -/
theorem openAnyDialog_example_ids :
    (registerKnownDialogsByID []).find "modules/sdraw/ui/drawpagedialog.ui" = some 4 ∧
    (registerKnownDialogsByID []).find "modules/simpress/ui/headerfooterdialog.ui" = some 21 ∧
    (registerKnownDialogsByID []).find "modules/simpress/ui/dlgfield.ui" = some 5 ∧
    ¬ registered 22 ∧
    (∀ (h : Host) (s : SdDialogsTest) (c : FactoryCall),
      c ∈ factoryCalls (createDialogByID h 5 s).trace → c.method = .CreateSdModifyFieldDlg) ∧
    (∀ (h : Host) (s : SdDialogsTest), createDialogByID h 22 s = ⟨.ok none, s, []⟩) ∧
    (factoryCalls (createDialogByID fullHost 5 fullFixture).trace).map FactoryCall.method =
      [.CreateSdModifyFieldDlg] ∧
    (createDialogByID fullHost 22 fullFixture).out = .ok none ∧
    (factoryCalls (createDialogByID fullHost 4 fullFixture).trace).map FactoryCall.method =
      [.CreateSdTabPageDialog] ∧
    (factoryCalls (createDialogByID fullHost 21 fullFixture).trace).map FactoryCall.method =
      [.CreateHeaderFooterDialog] := by
  refine ⟨by decide, by decide, by decide, (registered_iff 22).not.2 (by decide), ?_,
    fun h s => createDialogByID_default h s 22 (by decide), rfl, rfl, rfl, rfl⟩
  intro h s c hc
  obtain ⟨x, hx, hm⟩ := plannedCall_method h (answers h s) 5 (by decide) (some c)
    (calls_planned h s 5 c hc).2.2
  cases hx
  simpa [claimedMethod] using hm

/-- C12: when the fixture has no dialog factory (`getSdAbstractDialogFactory` returns null),
`createDialogByID` returns the empty dialog for every ID, registered or not, on any host: no
assertion fails, the trace is empty (no host lookup, no factory call) and the fixture, its
cached members included, is unchanged. -/
theorem createDialogByID_skips_without_factory (h : Host) (s : SdDialogsTest) (nID : Nat)
    (hf : (getSdAbstractDialogFactory s).out = .ok none) :
    createDialogByID h nID s = ⟨.ok none, s, []⟩ :=
  createDialogByID_noFactory h s nID (by
    have e : (getSdAbstractDialogFactory s).out = .ok s.mpFact := rfl
    rw [e] at hf
    exact Outcome.ok.inj hf)

/-- The set-up fixture of the host without a factory has a null factory pointer, ID 0 is
registered, and the call for it returns the empty dialog and leaves the fixture as it is. -/
theorem createDialogByID_skips_without_factory_witness :
    (getSdAbstractDialogFactory bareFixture).out = .ok none ∧ registered 0 ∧
      createDialogByID bareHost 0 bareFixture = ⟨.ok none, bareFixture, []⟩ :=
  ⟨rfl, (registered_iff 0).2 (by decide),
    createDialogByID_skips_without_factory bareHost bareFixture 0 rfl⟩

/-- C13: in every state that the constructed fixture reaches through `setUp`, getter calls,
`createDialogByID` calls (returned or ended by an assertion) and `tearDown`, a filled
draw-view cache implies a filled view-shell cache and a filled view-shell cache implies a
filled document-shell cache; each filled cache holds the object the host returned for the
cache before it, so none is filled with a missing object; and `tearDown` leaves the three
members as they were. -/
theorem lifecycle_shell_chain (h : Host) (s : SdDialogsTest) (hl : Lifecycle h s) :
    (s.mpDrawView.isSome = true → s.mpViewShell.isSome = true) ∧
    (s.mpViewShell.isSome = true → s.mpDocShell.isSome = true) ∧
    ShellChain h s ∧
    (tearDown s).fix.mpDocShell = s.mpDocShell ∧
    (tearDown s).fix.mpViewShell = s.mpViewShell ∧
    (tearDown s).fix.mpDrawView = s.mpDrawView := by
  obtain ⟨_, h1, h2, h3⟩ := lifecycle_inv h s hl
  refine ⟨?_, ?_, ⟨h1, h2, h3⟩, ?_, ?_, ?_⟩
  · intro hw
    obtain ⟨w, hw⟩ := Option.isSome_iff_exists.1 hw
    obtain ⟨v, hv, _⟩ := h3 w hw
    simp [hv]
  · intro hv
    obtain ⟨v, hv⟩ := Option.isSome_iff_exists.1 hv
    obtain ⟨p, hp, _⟩ := h2 v hv
    simp [hp]
  · rw [tearDown_fix]; rfl
  · rw [tearDown_fix]; rfl
  · rw [tearDown_fix]; rfl

/-- On the full host the fixture after `setUp`, `createDialogByID 1` and `tearDown` has all
three shell caches filled, and the chain holds in it. -/
theorem lifecycle_shell_chain_witness :
    Lifecycle fullHost tornDownFixture ∧
    tornDownFixture.mpDocShell = some ⟨4⟩ ∧ tornDownFixture.mpViewShell = some ⟨5⟩ ∧
    tornDownFixture.mpDrawView = some ⟨7⟩ ∧
    ((tornDownFixture.mpDrawView.isSome = true → tornDownFixture.mpViewShell.isSome = true) ∧
    (tornDownFixture.mpViewShell.isSome = true → tornDownFixture.mpDocShell.isSome = true) ∧
    ShellChain fullHost tornDownFixture ∧
    (tearDown tornDownFixture).fix.mpDocShell = tornDownFixture.mpDocShell ∧
    (tearDown tornDownFixture).fix.mpViewShell = tornDownFixture.mpViewShell ∧
    (tearDown tornDownFixture).fix.mpDrawView = tornDownFixture.mpDrawView) :=
  ⟨.call .tearDown (.call (.op (.createDialogByID 1)) (.call .setUp .ctor rfl) rfl) rfl,
    rfl, rfl, rfl,
    lifecycle_shell_chain fullHost tornDownFixture
      (.call .tearDown (.call (.op (.createDialogByID 1)) (.call .setUp .ctor rfl) rfl) rfl)⟩

/-- C14, amended: with a factory and a document whose model exists, `createDialogByID 12` makes one
call, `CreateSdStartPresentationDlg`, with the default dialog parent, an empty page-name list
and no custom-show list, and returns its result.  For every value of the settings the
attribute set of the call is over the model's pool, scoped to the presentation range, and
holds exactly 15 items: the eleven flags under their attributes, `CHANGE_PAGE` as the negation
of the locked-pages flag, an empty `DIANAME`, `DISPLAY` 0, and `PAUSE_TIMEOUT` as the pause
timeout converted to an unsigned 32-bit number.  That number is the pause timeout whenever
the timeout is not negative (and below 2^32); for a negative timeout it is not. -/
theorem createDialogByID_startPresentation (h : Host) (s : SdDialogsTest)
    (f : SdAbstractDialogFactory) (d : SdXImpressDocument) (dd : SdDrawDocument)
    (hf : s.mpFact = some f) (hd : s.mpImpressDocument = some d)
    (hdd : h.GetDoc d = some dd) :
    ∃ a, factoryCalls (createDialogByID h 12 s).trace =
        [.CreateSdStartPresentationDlg h.GetDefDialogParent a [] none] ∧
      (createDialogByID h 12 s).out =
        .ok (h.construct f (.CreateSdStartPresentationDlg h.GetDefDialogParent a [] none)) ∧
      a.pool = h.GetItemPool dd ∧
      a.ranges = some (.ATTR_PRESENT_START, .ATTR_PRESENT_END) ∧
      IsConvertedPresentationSet a (h.getPresentationSettings dd) ∧
      (0 ≤ (h.getPresentationSettings dd).mnPauseTimeout →
        (h.getPresentationSettings dd).mnPauseTimeout < 4294967296 →
        IsPresentationSet a (h.getPresentationSettings dd)) ∧
      ((h.getPresentationSettings dd).mnPauseTimeout < 0 →
        ¬ IsPresentationSet a (h.getPresentationSettings dd)) := by
  obtain ⟨a, hc, ho, hp, hr, ha⟩ := startPresentation_call h s f d dd hf hd hdd
  exact ⟨a, hc, ho, hp, hr, ha, isPresentationSet_of_fits a _ ha,
    not_isPresentationSet_of_negative a _⟩

/-- On the set-up fixture of the full host, whose settings have the flags all, mouse visible,
animation allowed, full screen and pause logo set and a pause timeout of 10, the call carries
the fifteen items in the order of the source, the pause-timeout item holding 10. -/
theorem createDialogByID_startPresentation_witness :
    fullFixture.mpFact = some ⟨1⟩ ∧ fullFixture.mpImpressDocument = some ⟨3⟩ ∧
    fullHost.GetDoc ⟨3⟩ = some ⟨13⟩ ∧
    factoryCalls (createDialogByID fullHost 12 fullFixture).trace =
      [.CreateSdStartPresentationDlg (some ⟨40⟩)
        ⟨⟨14⟩, some (.ATTR_PRESENT_START, .ATTR_PRESENT_END),
          [(.ATTR_PRESENT_ALL, some (.SfxBoolItem .ATTR_PRESENT_ALL true)),
            (.ATTR_PRESENT_CUSTOMSHOW, some (.SfxBoolItem .ATTR_PRESENT_CUSTOMSHOW false)),
            (.ATTR_PRESENT_DIANAME, some (.SfxStringItem .ATTR_PRESENT_DIANAME "")),
            (.ATTR_PRESENT_ENDLESS, some (.SfxBoolItem .ATTR_PRESENT_ENDLESS false)),
            (.ATTR_PRESENT_MANUEL, some (.SfxBoolItem .ATTR_PRESENT_MANUEL false)),
            (.ATTR_PRESENT_MOUSE, some (.SfxBoolItem .ATTR_PRESENT_MOUSE true)),
            (.ATTR_PRESENT_PEN, some (.SfxBoolItem .ATTR_PRESENT_PEN false)),
            (.ATTR_PRESENT_ANIMATION_ALLOWED,
              some (.SfxBoolItem .ATTR_PRESENT_ANIMATION_ALLOWED true)),
            (.ATTR_PRESENT_CHANGE_PAGE, some (.SfxBoolItem .ATTR_PRESENT_CHANGE_PAGE true)),
            (.ATTR_PRESENT_ALWAYS_ON_TOP, some (.SfxBoolItem .ATTR_PRESENT_ALWAYS_ON_TOP false)),
            (.ATTR_PRESENT_FULLSCREEN, some (.SfxBoolItem .ATTR_PRESENT_FULLSCREEN true)),
            (.ATTR_PRESENT_PAUSE_TIMEOUT, some (.SfxUInt32Item .ATTR_PRESENT_PAUSE_TIMEOUT 10)),
            (.ATTR_PRESENT_SHOW_PAUSELOGO,
              some (.SfxBoolItem .ATTR_PRESENT_SHOW_PAUSELOGO true)),
            (.ATTR_PRESENT_INTERACTIVE, some (.SfxBoolItem .ATTR_PRESENT_INTERACTIVE false)),
            (.ATTR_PRESENT_DISPLAY, some (.SfxInt32Item .ATTR_PRESENT_DISPLAY 0))]⟩
        [] none] ∧
    (fullHost.getPresentationSettings ⟨13⟩).mnPauseTimeout = 10 ∧
    ∃ a, factoryCalls (createDialogByID fullHost 12 fullFixture).trace =
        [.CreateSdStartPresentationDlg fullHost.GetDefDialogParent a [] none] ∧
      (createDialogByID fullHost 12 fullFixture).out =
        .ok (fullHost.construct ⟨1⟩
          (.CreateSdStartPresentationDlg fullHost.GetDefDialogParent a [] none)) ∧
      a.pool = fullHost.GetItemPool ⟨13⟩ ∧
      a.ranges = some (.ATTR_PRESENT_START, .ATTR_PRESENT_END) ∧
      IsConvertedPresentationSet a (fullHost.getPresentationSettings ⟨13⟩) ∧
      (0 ≤ (fullHost.getPresentationSettings ⟨13⟩).mnPauseTimeout →
        (fullHost.getPresentationSettings ⟨13⟩).mnPauseTimeout < 4294967296 →
        IsPresentationSet a (fullHost.getPresentationSettings ⟨13⟩)) ∧
      ((fullHost.getPresentationSettings ⟨13⟩).mnPauseTimeout < 0 →
        ¬ IsPresentationSet a (fullHost.getPresentationSettings ⟨13⟩)) :=
  ⟨rfl, rfl, rfl, rfl, rfl,
    createDialogByID_startPresentation fullHost fullFixture ⟨1⟩ ⟨3⟩ ⟨13⟩ rfl rfl rfl⟩

/-- C14, as the claim states it, fails for a negative pause timeout: on the host whose settings
have a pause timeout of -1, the call of ID 12 is made, its pause-timeout item holds 4294967295,
and the set is not the one the claim describes. -/
theorem createDialogByID_startPresentation_counterexample :
    (negativeTimeoutHost.getPresentationSettings ⟨13⟩).mnPauseTimeout = -1 ∧
    ∃ a, factoryCalls (createDialogByID negativeTimeoutHost 12 negativeTimeoutFixture).trace =
        [.CreateSdStartPresentationDlg (some ⟨40⟩) a [] none] ∧
      a.slot .ATTR_PRESENT_PAUSE_TIMEOUT =
        some (some (.SfxUInt32Item .ATTR_PRESENT_PAUSE_TIMEOUT 4294967295)) ∧
      ¬ IsPresentationSet a (negativeTimeoutHost.getPresentationSettings ⟨13⟩) := by
  obtain ⟨a, hc, _, _, _, ha⟩ :=
    startPresentation_call negativeTimeoutHost negativeTimeoutFixture ⟨1⟩ ⟨3⟩ ⟨13⟩ rfl rfl rfl
  refine ⟨rfl, a, hc, ?_, not_isPresentationSet_of_negative a _ (by decide)⟩
  have hs := ha.2.2.2.2.2.2.2.2.2.2.2.2.1
  rw [hs]
  rfl

end SdDialogsTest

end DialogsTest
